import Mathlib

/-!
# Channel manager bot: scheduler, moderation pipeline, bulk deletion, conversation collector

A shallow embedding of `src/index.js`.  The process-wide maps of the program
(`channelData`, `userStates`, `selectedChannel`, `userChannels`,
`authenticatedUsers`) are the fields of `BotState`; the `node-cron` tasks the
program creates are kept in a registry `BotState.tasks`; the three JSON files are
`BotState.disk`.  Every handler is a function on `BotState`, run without
interleaving; the outcomes of the remote calls a handler makes are arguments of
the handler, and the remote calls it issues are returned as a list of `Effect`s.
Calls that only render the operator interface (`answerCbQuery`,
`editMessageText`, menus) are not recorded and are taken to succeed: where they
come first in a handler and fail the handler has no effect, where they come last
the state is already final.
-/

namespace TGBot

/-! ## JavaScript strings -/

/-- The `length` of a JavaScript string: its number of UTF-16 code units. -/
def jsLength (s : String) : Nat :=
  (s.toList.map (fun c => if c.toNat < 65536 then 1 else 2)).sum

/-- The characters `String.prototype.trim` removes (WhiteSpace and LineTerminator). -/
def isJsWhiteSpace (c : Char) : Bool :=
  c.toNat = 9 || c.toNat = 10 || c.toNat = 11 || c.toNat = 12 || c.toNat = 13 ||
  c.toNat = 32 || c.toNat = 160 || c.toNat = 5760 ||
  (8192 ≤ c.toNat && c.toNat ≤ 8202) ||
  c.toNat = 8232 || c.toNat = 8233 || c.toNat = 8239 || c.toNat = 8287 ||
  c.toNat = 12288 || c.toNat = 65279

/-- The characters the regular-expression dot does not match. -/
def isLineTerminator (c : Char) : Bool :=
  c.toNat = 10 || c.toNat = 13 || c.toNat = 8232 || c.toNat = 8233

/-- The method `String.prototype.trim`. -/
def jsTrim (s : String) : String :=
  String.mk ((s.toList.dropWhile isJsWhiteSpace).reverse.dropWhile isJsWhiteSpace).reverse

/-- The method `String.prototype.startsWith`. -/
def jsStartsWith (s p : String) : Bool :=
  p.toList.isPrefixOf s.toList

/-- The method `String.prototype.includes`. -/
def jsIncludes (s p : String) : Bool :=
  s.toList.tails.any (fun t => p.toList.isPrefixOf t)

/-- Truthiness of a JavaScript string: every string but the empty one. -/
def truthy (s : String) : Bool :=
  s != ""

/-- Truthiness of a value that is a string or `undefined`. -/
def truthyOpt : Option String → Option String
  | some s => if truthy s then some s else none
  | none => none

/-- The class `\d` of a JavaScript regular expression. -/
def isDigit (c : Char) : Bool :=
  48 ≤ c.toNat && c.toNat ≤ 57

/-- The test `/^\d+$/`. -/
def allDigits (s : String) : Bool :=
  !s.toList.isEmpty && s.toList.all isDigit

/-- The test `/^-?\d+$/`. -/
def signedDigits (s : String) : Bool :=
  match s.toList with
  | '-' :: rest => !rest.isEmpty && rest.all isDigit
  | cs => !cs.isEmpty && cs.all isDigit

/-- The test `/^https?:\/\/.+/`: the scheme, then at least one character that is
not a line terminator. -/
def urlPattern (s : String) : Bool :=
  match s.toList with
  | 'h' :: 't' :: 't' :: 'p' :: ':' :: '/' :: '/' :: c :: _ => !isLineTerminator c
  | 'h' :: 't' :: 't' :: 'p' :: 's' :: ':' :: '/' :: '/' :: c :: _ => !isLineTerminator c
  | _ => false

/-! ## JavaScript maps -/

/-- A JavaScript `Map`, as an association list in insertion order. -/
abbrev JsMap (K V : Type) := List (K × V)

/-- The method `Map.prototype.get`. -/
def JsMap.get {K V : Type} [DecidableEq K] : JsMap K V → K → Option V
  | [], _ => none
  | (k1, v) :: rest, k => if k1 = k then some v else JsMap.get rest k

/-- The method `Map.prototype.has`. -/
def JsMap.has {K V : Type} [DecidableEq K] (m : JsMap K V) (k : K) : Bool :=
  (JsMap.get m k).isSome

/-- The method `Map.prototype.set`: an existing key keeps its place. -/
def JsMap.set {K V : Type} [DecidableEq K] : JsMap K V → K → V → JsMap K V
  | [], k, v => [(k, v)]
  | (k1, v1) :: rest, k, v =>
    if k1 = k then (k, v) :: rest else (k1, v1) :: JsMap.set rest k v

/-- The method `Map.prototype.delete`. -/
def JsMap.delete {K V : Type} [DecidableEq K] (m : JsMap K V) (k : K) : JsMap K V :=
  m.filter (fun p => !decide (p.1 = k))

/-! ## Data model -/

/-- One entry of `autoMessageConfig.urlButtons`. -/
structure UrlButton where
  text : String
  url : String
deriving DecidableEq, Repr

/-- The object `autoMessageConfig` of a channel. -/
structure AutoMessageConfig where
  messageText : String
  urlButtons : List UrlButton
  isActive : Bool
  interval : String
  deletePrevious : Bool
deriving DecidableEq, Repr

/-- The per-channel object held in `channelData`.  `autoMessageJob` is the handle
of a `node-cron` task (its place in the task registry), `none` for `null`. -/
structure ChannelData where
  messageIds : List Nat
  usernameToIdMap : JsMap String Int
  lastMessageId : Option Nat
  autoMessageConfig : AutoMessageConfig
  translationEnabled : Bool
  autoMessageJob : Option Nat
deriving DecidableEq, Repr

/-- A task created by `cron.schedule`: the channel its callback closes over, the
expression it was scheduled with, and whether it is still running. -/
structure CronTask where
  id : Nat
  channelId : String
  expression : String
  running : Bool
deriving DecidableEq, Repr

/-- The closed set of step names stored in `userStates`. -/
inductive Step where
  | awaiting_channel_forward
  | awaiting_message
  | awaiting_delete_id
  | awaiting_ban_id
  | awaiting_unban_id
  | awaiting_mute_id
  | awaiting_unmute_id
  | awaiting_promote_id
  | awaiting_demote_id
  | awaiting_auto_message_text
  | awaiting_url_button_text
  | awaiting_url_button_url
deriving DecidableEq, Repr

/-- What `saveChannelData` writes for one channel. -/
structure PersistedChannel where
  autoMessageConfig : Option AutoMessageConfig
  translationEnabled : Option Bool
deriving DecidableEq, Repr

/-- The three JSON files; `none` when a file does not exist. -/
structure Disk where
  authFile : Option (List Int)
  channelsFile : Option (List (Int × List String))
  channelDataFile : Option (List (String × PersistedChannel))
deriving DecidableEq, Repr

/-- The state of the process.  `userStates` holds the entries of the source map
`userStates` keyed by a user id, `buttonText` those keyed by
`userId + "_button_text"`. -/
structure BotState where
  authenticatedUsers : List Int
  userChannels : JsMap Int (List String)
  selectedChannel : JsMap Int String
  userStates : JsMap Int Step
  buttonText : JsMap Int String
  channelData : JsMap String ChannelData
  tasks : List CronTask
  disk : Disk
deriving DecidableEq, Repr

/-- What the program takes from its surroundings: the library functions
`String.prototype.toLowerCase` and `parseInt`, whether `node-cron` accepts an
expression (`cron.schedule` throws on one it rejects), and the password. -/
structure Env where
  toLowerCase : String → String
  parseInt : String → Int
  cronValidate : String → Bool
  BOT_PASSWORD : String

/-- The object `getChannelData` creates for a channel it has not seen. -/
def defaultChannelData : ChannelData :=
  { messageIds := []
    usernameToIdMap := []
    lastMessageId := none
    autoMessageConfig :=
      { messageText := ""
        urlButtons := []
        isActive := false
        interval := "*/1 * * * *"
        deletePrevious := true }
    translationEnabled := false
    autoMessageJob := none }

/-- The function `getChannelData`: the channel object, created when missing. -/
def getChannelData (s : BotState) (channelId : String) : BotState × ChannelData :=
  match s.channelData.get channelId with
  | some d => (s, d)
  | none =>
    ({ s with channelData := s.channelData.set channelId defaultChannelData },
      defaultChannelData)

/-- The channel object `getChannelData` returns. -/
def chDataOf (s : BotState) (channelId : String) : ChannelData :=
  (getChannelData s channelId).2

/-- A mutation of the channel object: the object is written back under its key. -/
def putChannelData (s : BotState) (channelId : String) (d : ChannelData) : BotState :=
  { s with channelData := s.channelData.set channelId d }

/-! ## Persistence -/

/-- Value of a string of decimal digits. -/
def digitsValue (cs : List Char) : Nat :=
  cs.foldl (fun n c => 10 * n + (c.toNat - 48)) 0

/-- The number of halvings that bring `n` below `2^53`, with `fuel` steps at most. -/
def excessBits : Nat → Nat → Nat
  | 0, _ => 0
  | fuel + 1, n => if n < 2 ^ 53 then 0 else excessBits fuel (n / 2) + 1

/-- The Number value of a natural number below `2^1024`: the number itself below
`2^53`, above that the nearest number with 53 significant bits, ties to the even
one. -/
def toJsNumber (n : Nat) : Nat :=
  if n < 2 ^ 53 then n
  else
    (if 2 * (n % 2 ^ excessBits n n) > 2 ^ excessBits n n ||
        (2 * (n % 2 ^ excessBits n n) == 2 ^ excessBits n n && n / 2 ^ excessBits n n % 2 == 1)
      then n / 2 ^ excessBits n n + 1 else n / 2 ^ excessBits n n) * 2 ^ excessBits n n

/-- An integer-index property key: a canonical decimal numeral below `2^32 - 1`. -/
def isArrayIndex (k : String) : Bool :=
  allDigits k && (k.toList.head? != some '0' || k.toList.length == 1) &&
  decide (digitsValue k.toList < 4294967295)

/-- The order in which JavaScript enumerates the own properties of an object:
integer indices in ascending order, then the other keys in creation order. -/
def ownPropertyOrder {V : Type} (l : List (String × V)) : List (String × V) :=
  (l.filter (fun p => isArrayIndex p.1)).insertionSort
      (fun a b => digitsValue a.1.toList ≤ digitsValue b.1.toList) ++
    l.filter (fun p => !isArrayIndex p.1)

/-- The function `saveAuthenticatedUsers`. -/
def saveAuthenticatedUsers (s : BotState) : BotState :=
  { s with disk := { s.disk with authFile := some s.authenticatedUsers } }

/-- The function `saveUserChannels`. -/
def saveUserChannels (s : BotState) : BotState :=
  { s with disk := { s.disk with channelsFile := some s.userChannels } }

/-- The value `saveChannelData` writes for one channel. -/
def persistChannel (p : String × ChannelData) : String × PersistedChannel :=
  (p.1, PersistedChannel.mk (some p.2.autoMessageConfig) (some p.2.translationEnabled))

/-- The function `saveChannelData`: the configuration and the translation flag of
every channel, nothing else. -/
def saveChannelData (s : BotState) : BotState :=
  { s with disk :=
      { s.disk with
        channelDataFile := some (ownPropertyOrder (s.channelData.map persistChannel)) } }

/-! ## Broadcast scheduler -/

/-- The method `stop` of the task with handle `id`. -/
def stopTask (tasks : List CronTask) (id : Nat) : List CronTask :=
  tasks.map (fun t => if t.id = id then { t with running := false } else t)

/-- The statement `if (chData.autoMessageJob) chData.autoMessageJob.stop()`. -/
def stopJob (tasks : List CronTask) : Option Nat → List CronTask
  | some j => stopTask tasks j
  | none => tasks

/-- The function `startAutoMessages`.  The second component is `false` when
`cron.schedule` throws: the old task is stopped by then, nothing else is done. -/
def startAutoMessages (env : Env) (s : BotState) (channelId : String) : BotState × Bool :=
  let s1 := (getChannelData s channelId).1
  let chData := (getChannelData s channelId).2
  let tasks1 := stopJob s1.tasks chData.autoMessageJob
  if env.cronValidate chData.autoMessageConfig.interval then
    let task : CronTask :=
      { id := tasks1.length
        channelId := channelId
        expression := chData.autoMessageConfig.interval
        running := true }
    let chData2 : ChannelData :=
      { chData with
        autoMessageJob := some tasks1.length
        autoMessageConfig := { chData.autoMessageConfig with isActive := true } }
    (saveChannelData (putChannelData { s1 with tasks := tasks1 ++ [task] } channelId chData2),
      true)
  else
    ({ s1 with tasks := tasks1 }, false)

/-- The function `stopAutoMessages`. -/
def stopAutoMessages (s : BotState) (channelId : String) : BotState :=
  let s1 := (getChannelData s channelId).1
  let chData := (getChannelData s channelId).2
  let tasks1 := stopJob s1.tasks chData.autoMessageJob
  let chData2 : ChannelData :=
    { chData with
      autoMessageJob := none
      autoMessageConfig := { chData.autoMessageConfig with isActive := false } }
  saveChannelData (putChannelData { s1 with tasks := tasks1 } channelId chData2)

/-! ## Remote calls -/

/-- Messages the bot sends back to the operator (only those of the handlers whose
outcome a property below is about). -/
inductive Reply where
  | passwordAccepted
  | incorrectPassword
  | invalidChannel
  | botNotAdministrator
  | channelAdded
  | failedToAddChannel
  | failedToProcessChannel
  | noChannelSelected
  | success (step : Step)
  | failure (step : Step)
  | buttonTextSaved
  | invalidUrl
  | cannotStartNoMessageText
  | deletionComplete (deleted skipped remaining : Nat)
deriving DecidableEq, Repr

/-- The calls a handler makes on the platform client and the translation service,
and its replies to the operator. -/
inductive Effect where
  | getChat (chat : String)
  | getChatMember (chat : String)
  | getChatAdministrators (chat : String)
  | deleteMessage (chat : String) (messageId : Nat)
  | deleteMessageText (chat : String) (messageId : String)
  | sendMessage (chat : String) (text : String) (html : Bool) (buttons : List UrlButton)
  | sendPhoto (chat : String) (fileId : String) (caption : String)
  | translate (text : String)
  | banChatMember (chat : String) (user : Int)
  | unbanChatMember (chat : String) (user : Int)
  | restrictChatMember (chat : String) (user : Int) (allowed : Bool)
  | promoteChatMember (chat : String) (user : Int) (granted : Bool)
  | reply (r : Reply)
deriving DecidableEq, Repr

/-! ## Timer callback -/

/-- Outcomes of the remote calls of one firing: whether `deleteMessage` succeeds,
and the `message_id` of the message `sendMessage` returns (`none` when it throws). -/
structure TickOutcome where
  deleteOk : Bool
  sendResult : Option Nat
deriving DecidableEq, Repr

/-- The delete a firing attempts: `deletePrevious && lastMessageId`, where a
`lastMessageId` of `null` or `0` is falsy. -/
def tickDelete (channelId : String) (chData : ChannelData) : List Effect :=
  match chData.lastMessageId with
  | some m =>
    if chData.autoMessageConfig.deletePrevious && m != 0 then
      [Effect.deleteMessage channelId m]
    else []
  | none => []

/-- The callback `startAutoMessages` passes to `cron.schedule`, for the channel
object it closes over. -/
def autoMessageTick (s : BotState) (channelId : String) (o : TickOutcome) :
    BotState × List Effect :=
  let chData := chDataOf s channelId
  if !truthy chData.autoMessageConfig.messageText then (s, [])
  else
    let send := Effect.sendMessage channelId chData.autoMessageConfig.messageText true
      chData.autoMessageConfig.urlButtons
    match o.sendResult with
    | some m =>
      (putChannelData s channelId { chData with lastMessageId := some m },
        tickDelete channelId chData ++ [send])
    | none => (s, tickDelete channelId chData ++ [send])

/-! ## Moderation pipeline -/

/-- The field `sender_chat` of a post. -/
structure SenderChat where
  id : Int
  username : Option String
deriving DecidableEq, Repr

/-- The fields of `ctx.channelPost` the handler reads; `photo` lists the `file_id`
of each size. -/
structure ChannelPost where
  message_id : Nat
  chat_id : Int
  sender_chat : Option SenderChat
  text : Option String
  caption : Option String
  photo : Option (List String)
deriving DecidableEq, Repr

/-- The value `translate` resolves to: `text`, and `from.language.iso`
(`none` when `from` or `from.language` is missing, `some none` when `iso` is). -/
structure TranslateResult where
  text : Option String
  fromLanguageIso : Option (Option String)
deriving DecidableEq, Repr

/-- Outcomes of the remote calls of one pipeline run: the translation (`none`
when `translate` throws), and whether the delete and the re-post of the
translation branch succeed. -/
structure PostOutcome where
  translation : Option TranslateResult
  deleteOk : Bool
  sendOk : Bool
deriving DecidableEq, Repr

/-- Tracking of a post id: `includes`, `push`, and `shift` above 5000 entries. -/
def trackMessageId (messageIds : List Nat) (messageId : Nat) : List Nat :=
  if messageIds.contains messageId then messageIds
  else if (messageIds ++ [messageId]).length > 5000 then (messageIds ++ [messageId]).tail
  else messageIds ++ [messageId]

/-- The upsert of the sender's handle into `usernameToIdMap`. -/
def trackSender (env : Env) (m : JsMap String Int) (sender : Option SenderChat) :
    JsMap String Int :=
  match sender with
  | some sc =>
    match truthyOpt sc.username with
    | some u => m.set (env.toLowerCase u) sc.id
    | none => m
  | none => m

/-- The value `ctx.channelPost.text || ctx.channelPost.caption`. -/
def postText (post : ChannelPost) : Option String :=
  match truthyOpt post.text with
  | some t => some t
  | none => post.caption

/-- The value `photoFileId` when `hasPhoto && photoFileId` holds. -/
def postPhoto (post : ChannelPost) : Option String :=
  match post.photo with
  | some sizes => truthyOpt sizes.getLast?
  | none => none

/-- The expression `isNonEnglish`. -/
def isNonEnglish (env : Env) (result : TranslateResult) (text : String) : Bool :=
  (match result.fromLanguageIso with
    | some iso => iso != some "en"
    | none => false) ||
  (match truthyOpt result.text with
    | some t => jsTrim (env.toLowerCase t) != jsTrim (env.toLowerCase text)
    | none => false)

/-- The length policy at the end of the handler. -/
def lengthPolicy (channelId : String) (messageId : Nat) (text : Option String) : List Effect :=
  match truthyOpt text with
  | some t => if jsLength t > 90 then [Effect.deleteMessage channelId messageId] else []
  | none => []

/-- The remote calls of the pipeline, in order.  An exception in the translation
branch (from `translate`, from the delete or from the re-post) is caught by the
`try` around that branch, after which the length policy runs.  A translated text
that is `undefined` is recorded as the empty string. -/
def moderationEffects (env : Env) (translationEnabled : Bool) (post : ChannelPost)
    (o : PostOutcome) : List Effect :=
  let channelId := toString post.chat_id
  let text := postText post
  let policy := lengthPolicy channelId post.message_id text
  match truthyOpt text with
  | none => policy
  | some t =>
    if !translationEnabled then policy
    else
      match o.translation with
      | none => Effect.translate t :: policy
      | some result =>
        if isNonEnglish env result t then
          let repost :=
            match postPhoto post with
            | some fileId => Effect.sendPhoto channelId fileId (result.text.getD "")
            | none => Effect.sendMessage channelId (result.text.getD "") false []
          if !o.deleteOk then
            Effect.translate t :: Effect.deleteMessage channelId post.message_id :: policy
          else if !o.sendOk then
            Effect.translate t :: Effect.deleteMessage channelId post.message_id ::
              repost :: policy
          else
            [Effect.translate t, Effect.deleteMessage channelId post.message_id, repost]
        else Effect.translate t :: policy

/-- The handler `bot.on("channel_post")`. -/
def on_channel_post (env : Env) (s : BotState) (post : ChannelPost) (o : PostOutcome) :
    BotState × List Effect :=
  let channelId := toString post.chat_id
  let chData := chDataOf s channelId
  let chData2 : ChannelData :=
    { chData with
      messageIds := trackMessageId chData.messageIds post.message_id
      usernameToIdMap := trackSender env chData.usernameToIdMap post.sender_chat }
  (putChannelData s channelId chData2,
    moderationEffects env chData.translationEnabled post o)

/-! ## Bulk deletion -/

/-- Outcome of one `deleteMessage` call: success, or an error with its
`description` (if it has one). -/
inductive DeleteResult where
  | ok
  | error (description : Option String)
deriving DecidableEq, Repr

/-- The test in the `catch` of the deletion loop. -/
def isUndeletable : DeleteResult → Bool
  | DeleteResult.ok => false
  | DeleteResult.error (some d) => truthy d && jsIncludes d "message can\x27t be deleted"
  | DeleteResult.error none => false

/-- Outcomes of the remote calls of one bulk deletion: the pinned message of
`getChat` (`none` when the call throws, `some none` when nothing is pinned), and
the result of the delete attempted at each position of the snapshot. -/
structure BulkOutcome where
  pinned : Option (Option Nat)
  delete : Nat → DeleteResult

/-- The set `pinnedMessageIds`, which holds at most one id. -/
def pinnedMessageId (o : BulkOutcome) : Option Nat :=
  match o.pinned with
  | some p => p
  | none => none

/-- The local variables of the deletion loop. -/
structure BulkAcc where
  deletedCount : Nat
  skippedCount : Nat
  deletedIds : List Nat
  effects : List Effect
deriving DecidableEq, Repr

/-- The loop over `messagesToDelete`, from position `i` of the snapshot on. -/
def bulkLoop (channelId : String) (pinned : Option Nat) (delete : Nat → DeleteResult) :
    Nat → List Nat → BulkAcc → BulkAcc
  | _, [], acc => acc
  | i, msgId :: rest, acc =>
    if pinned = some msgId then
      bulkLoop channelId pinned delete (i + 1) rest
        { acc with
          skippedCount := acc.skippedCount + 1
          deletedIds := acc.deletedIds ++ [msgId] }
    else
      match delete i with
      | DeleteResult.ok =>
        bulkLoop channelId pinned delete (i + 1) rest
          { acc with
            deletedCount := acc.deletedCount + 1
            deletedIds := acc.deletedIds ++ [msgId]
            effects := acc.effects ++ [Effect.deleteMessage channelId msgId] }
      | DeleteResult.error d =>
        if isUndeletable (DeleteResult.error d) then
          bulkLoop channelId pinned delete (i + 1) rest
            { acc with
              skippedCount := acc.skippedCount + 1
              deletedIds := acc.deletedIds ++ [msgId]
              effects := acc.effects ++ [Effect.deleteMessage channelId msgId] }
        else
          bulkLoop channelId pinned delete (i + 1) rest
            { acc with effects := acc.effects ++ [Effect.deleteMessage channelId msgId] }

/-- The second loop: each resolved id is removed once (`indexOf`, `splice`). -/
def removeResolved (messageIds : List Nat) (deletedIds : List Nat) : List Nat :=
  deletedIds.foldl (fun ids msgId => ids.erase msgId) messageIds

/-- The deletion pass on one channel. -/
def bulkDelete (s : BotState) (channelId : String) (o : BulkOutcome) :
    BotState × List Effect :=
  let s1 := (getChannelData s channelId).1
  let chData := (getChannelData s channelId).2
  let acc := bulkLoop channelId (pinnedMessageId o) o.delete 0 chData.messageIds
    { deletedCount := 0, skippedCount := 0, deletedIds := [], effects := [] }
  let remaining := removeResolved chData.messageIds acc.deletedIds
  (putChannelData s1 channelId { chData with messageIds := remaining },
    Effect.getChat channelId :: acc.effects ++
      [Effect.reply (Reply.deletionComplete acc.deletedCount acc.skippedCount remaining.length)])

/-- The handler `bot.action("confirm_delete_all")`. -/
def action_confirm_delete_all (s : BotState) (userId : Int) (o : BulkOutcome) :
    BotState × List Effect :=
  match truthyOpt (s.selectedChannel.get userId) with
  | none => (s, [Effect.reply Reply.noChannelSelected])
  | some channelId => bulkDelete s channelId o

/-! ## Operator actions -/

/-- The method `Set.prototype.add`, on a set kept as a list in insertion order. -/
def setAdd {A : Type} [DecidableEq A] (l : List A) (x : A) : List A :=
  if x ∈ l then l else l ++ [x]

/-- The statement `userStates.set(userId, step)`. -/
def beginStep (s : BotState) (userId : Int) (step : Step) : BotState :=
  { s with userStates := s.userStates.set userId step }

/-- The statement `userStates.delete(userId)`. -/
def clearStep (s : BotState) (userId : Int) : BotState :=
  { s with userStates := s.userStates.delete userId }

/-- The statements `userStates.delete(userId)` and
`userStates.delete(userId + "_button_text")`. -/
def clearConversation (s : BotState) (userId : Int) : BotState :=
  { s with
    userStates := s.userStates.delete userId
    buttonText := s.buttonText.delete userId }

/-- The callback queries the bot handles (all but `confirm_delete_all`). -/
inductive Action where
  | main_menu
  | menu_channels
  | add_channel
  | select_channel (channelId : String)
  | remove_channel (channelId : String)
  | menu_messages
  | menu_users
  | menu_admins
  | menu_info
  | menu_auto_messages
  | set_auto_message_text
  | set_auto_message_interval
  | interval (expression : String)
  | add_url_button
  | clear_url_buttons
  | preview_auto_message
  | start_auto_messages
  | stop_auto_messages
  | toggle_delete_previous
  | menu_translation
  | toggle_translation
  | show_help
  | send_message
  | delete_message
  | delete_all_messages
  | ban_user
  | unban_user
  | mute_user
  | unmute_user
  | promote_user
  | demote_user
  | channel_info
  | list_admins
deriving DecidableEq, Repr

/-- The handler `bot.command("start")`. -/
def command_start (s : BotState) (userId : Int) : BotState :=
  if s.authenticatedUsers.contains userId then
    if !s.selectedChannel.has userId then
      match s.userChannels.get userId with
      | some [channelId] => { s with selectedChannel := s.selectedChannel.set userId channelId }
      | _ => s
    else s
  else s

/-- The handler `bot.command("menu")`. -/
def command_menu (s : BotState) (userId : Int) : BotState :=
  if !s.authenticatedUsers.contains userId then s else clearConversation s userId

/-- The handler `bot.action(/^select_channel_(.+)$/)`. -/
def action_select_channel (s : BotState) (userId : Int) (channelId : String) : BotState :=
  if !s.authenticatedUsers.contains userId then s
  else if !((s.userChannels.get userId).getD []).contains channelId then s
  else { s with selectedChannel := s.selectedChannel.set userId channelId }

/-- The handler `bot.action(/^remove_channel_(.+)$/)`: the task of the channel is
stopped and its handle dropped; the configuration is not touched. -/
def action_remove_channel (s : BotState) (userId : Int) (channelId : String) : BotState :=
  if !s.authenticatedUsers.contains userId then s
  else
    match s.userChannels.get userId with
    | none => s
    | some channels =>
      if !channels.contains channelId then s
      else
        let s1 := (getChannelData s channelId).1
        let chData := (getChannelData s channelId).2
        let s2 :=
          match chData.autoMessageJob with
          | some j =>
            putChannelData { s1 with tasks := stopJob s1.tasks (some j) } channelId
              { chData with autoMessageJob := none }
          | none => s1
        let channels2 := channels.erase channelId
        let userChannels2 :=
          if channels2.length = 0 then s2.userChannels.delete userId
          else s2.userChannels.set userId channels2
        let selected2 :=
          if s2.selectedChannel.get userId = some channelId then
            match channels2 with
            | [only] => (s2.selectedChannel.delete userId).set userId only
            | _ => s2.selectedChannel.delete userId
          else s2.selectedChannel
        saveUserChannels { s2 with userChannels := userChannels2, selectedChannel := selected2 }

/-- The menus that check the login and the selected channel and then run
`userStates.delete(userId)`. -/
def action_menu (s : BotState) (userId : Int) : BotState :=
  if !s.authenticatedUsers.contains userId then s
  else if !s.selectedChannel.has userId then s
  else clearStep s userId

/-- The handler `bot.action("menu_auto_messages")`. -/
def action_menu_auto_messages (s : BotState) (userId : Int) : BotState :=
  if !s.authenticatedUsers.contains userId then s
  else
    match s.selectedChannel.get userId with
    | none => s
    | some channelId => (getChannelData (clearConversation s userId) channelId).1

/-- The handler `bot.action("menu_translation")`. -/
def action_menu_translation (s : BotState) (userId : Int) : BotState :=
  if !s.authenticatedUsers.contains userId then s
  else
    match s.selectedChannel.get userId with
    | none => s
    | some channelId => (getChannelData (clearStep s userId) channelId).1

/-- The handler `bot.action(/^interval_(.+)/)`.  An exception of
`startAutoMessages` leaves the handler; nothing that follows changes the state. -/
def action_interval (env : Env) (s : BotState) (userId : Int) (interval : String) : BotState :=
  match truthyOpt (s.selectedChannel.get userId) with
  | none => s
  | some channelId =>
    let wasActive := (chDataOf s channelId).autoMessageConfig.isActive
    let s1 := if wasActive then stopAutoMessages s channelId else (getChannelData s channelId).1
    let chData := chDataOf s1 channelId
    let s2 := saveChannelData (putChannelData s1 channelId
      { chData with autoMessageConfig := { chData.autoMessageConfig with interval := interval } })
    if wasActive && truthy (chDataOf s2 channelId).autoMessageConfig.messageText then
      (startAutoMessages env s2 channelId).1
    else s2

/-- The handler `bot.action("clear_url_buttons")`. -/
def action_clear_url_buttons (s : BotState) (userId : Int) : BotState :=
  match truthyOpt (s.selectedChannel.get userId) with
  | none => s
  | some channelId =>
    let chData := chDataOf s channelId
    saveChannelData (putChannelData s channelId
      { chData with autoMessageConfig := { chData.autoMessageConfig with urlButtons := [] } })

/-- The handler `bot.action("start_auto_messages")`: the operator-facing arm. -/
def action_start_auto_messages (env : Env) (s : BotState) (userId : Int) :
    BotState × List Effect :=
  match truthyOpt (s.selectedChannel.get userId) with
  | none => (s, [Effect.reply Reply.noChannelSelected])
  | some channelId =>
    let s1 := (getChannelData s channelId).1
    let chData := (getChannelData s channelId).2
    if !truthy chData.autoMessageConfig.messageText then
      (s1, [Effect.reply Reply.cannotStartNoMessageText])
    else ((startAutoMessages env s1 channelId).1, [])

/-- The handler `bot.action("stop_auto_messages")`. -/
def action_stop_auto_messages (s : BotState) (userId : Int) : BotState :=
  match truthyOpt (s.selectedChannel.get userId) with
  | none => s
  | some channelId => stopAutoMessages s channelId

/-- The handler `bot.action("toggle_delete_previous")`. -/
def action_toggle_delete_previous (s : BotState) (userId : Int) : BotState :=
  match truthyOpt (s.selectedChannel.get userId) with
  | none => s
  | some channelId =>
    let chData := chDataOf s channelId
    saveChannelData (putChannelData s channelId
      { chData with autoMessageConfig :=
          { chData.autoMessageConfig with
            deletePrevious := !chData.autoMessageConfig.deletePrevious } })

/-- The handler `bot.action("toggle_translation")`. -/
def action_toggle_translation (s : BotState) (userId : Int) : BotState :=
  match truthyOpt (s.selectedChannel.get userId) with
  | none => s
  | some channelId =>
    let chData := chDataOf s channelId
    saveChannelData (putChannelData s channelId
      { chData with translationEnabled := !chData.translationEnabled })

/-- The actions that check the selected channel and then arm a step. -/
def action_begin (s : BotState) (userId : Int) (step : Step) : BotState :=
  if !s.selectedChannel.has userId then s else beginStep s userId step

/-- The handler `bot.action("preview_auto_message")`, which only reads the object
of the selected channel. -/
def action_read_channel (s : BotState) (userId : Int) : BotState :=
  match truthyOpt (s.selectedChannel.get userId) with
  | none => s
  | some channelId => (getChannelData s channelId).1

/-- The handlers `bot.action(...)`, by callback query. -/
def on_action (env : Env) (s : BotState) (userId : Int) : Action → BotState
  | Action.main_menu => clearConversation s userId
  | Action.menu_channels => s
  | Action.add_channel => beginStep s userId Step.awaiting_channel_forward
  | Action.select_channel channelId => action_select_channel s userId channelId
  | Action.remove_channel channelId => action_remove_channel s userId channelId
  | Action.menu_messages => action_menu s userId
  | Action.menu_users => action_menu s userId
  | Action.menu_admins => action_menu s userId
  | Action.menu_info => action_menu s userId
  | Action.menu_auto_messages => action_menu_auto_messages s userId
  | Action.set_auto_message_text => beginStep s userId Step.awaiting_auto_message_text
  | Action.set_auto_message_interval => s
  | Action.interval expression => action_interval env s userId expression
  | Action.add_url_button => beginStep s userId Step.awaiting_url_button_text
  | Action.clear_url_buttons => action_clear_url_buttons s userId
  | Action.preview_auto_message => action_read_channel s userId
  | Action.start_auto_messages => (action_start_auto_messages env s userId).1
  | Action.stop_auto_messages => action_stop_auto_messages s userId
  | Action.toggle_delete_previous => action_toggle_delete_previous s userId
  | Action.menu_translation => action_menu_translation s userId
  | Action.toggle_translation => action_toggle_translation s userId
  | Action.show_help => clearStep s userId
  | Action.send_message => action_begin s userId Step.awaiting_message
  | Action.delete_message => action_begin s userId Step.awaiting_delete_id
  | Action.delete_all_messages =>
    match s.selectedChannel.get userId with
    | none => s
    | some channelId => (getChannelData s channelId).1
  | Action.ban_user => action_begin s userId Step.awaiting_ban_id
  | Action.unban_user => action_begin s userId Step.awaiting_unban_id
  | Action.mute_user => action_begin s userId Step.awaiting_mute_id
  | Action.unmute_user => action_begin s userId Step.awaiting_unmute_id
  | Action.promote_user => action_begin s userId Step.awaiting_promote_id
  | Action.demote_user => action_begin s userId Step.awaiting_demote_id
  | Action.channel_info => s
  | Action.list_admins => s

/-! ## Conversation collector -/

/-- The fields of `ctx.message` the handler reads. -/
structure TextMessage where
  text : String
  forward_from_chat : Option Int
deriving DecidableEq, Repr

/-- Outcomes of the remote calls of one text message: the chat id `getChat`
returns for an `@name` (`none` when it throws), whether `getChat` on the new
channel succeeds, the status `getChatMember` returns for the bot, the
administrators `getChatAdministrators` returns (handle and id of each), and
whether the call of the pending step (send, delete, ban, restrict, promote)
succeeds. -/
structure TextOutcome where
  chatByName : Option Int
  getChatOk : Bool
  botMemberStatus : Option String
  admins : Option (List (Option String × Int))
  callOk : Bool
deriving DecidableEq, Repr

/-- The function `loadChannelAdmins`. -/
def loadChannelAdmins (env : Env) (s : BotState) (channelId : String)
    (admins : Option (List (Option String × Int))) : BotState :=
  match admins with
  | none => s
  | some l =>
    let chData := chDataOf s channelId
    putChannelData s channelId
      { chData with
        usernameToIdMap := l.foldl (fun m admin =>
          match truthyOpt admin.1 with
          | some u => m.set (env.toLowerCase u) admin.2
          | none => m) chData.usernameToIdMap }

/-- The function `resolveUserIdentifier`; `none` when it throws. -/
def resolveUserIdentifier (env : Env) (s : BotState) (identifier : String)
    (channelId : String) : BotState × Option Int :=
  let trimmed := jsTrim identifier
  if allDigits trimmed then (s, some (env.parseInt trimmed))
  else
    let username :=
      if jsStartsWith trimmed "@" then env.toLowerCase (String.mk (trimmed.toList.drop 1))
      else env.toLowerCase trimmed
    ((getChannelData s channelId).1, (chDataOf s channelId).usernameToIdMap.get username)

/-- The six cases of the switch that resolve a target and call the platform on
it: both the `try` and the `catch` end with `userStates.delete(userId)`. -/
def targetStep (env : Env) (s : BotState) (userId : Int) (text : String) (step : Step)
    (call : String → Int → Effect) (o : TextOutcome) : BotState × List Effect :=
  match truthyOpt (s.selectedChannel.get userId) with
  | none => (s, [Effect.reply Reply.noChannelSelected])
  | some channelId =>
    match resolveUserIdentifier env s text channelId with
    | (s1, none) => (clearStep s1 userId, [Effect.reply (Reply.failure step)])
    | (s1, some target) =>
      if o.callOk then
        (clearStep s1 userId, [call channelId target, Effect.reply (Reply.success step)])
      else
        (clearStep s1 userId, [call channelId target, Effect.reply (Reply.failure step)])

/-- The success path of the case `awaiting_channel_forward`, once the bot is
known to be an administrator of the channel. -/
def addChannel (env : Env) (s : BotState) (userId : Int) (newChannelId : String)
    (admins : Option (List (Option String × Int))) : BotState :=
  let channels := setAdd ((s.userChannels.get userId).getD []) newChannelId
  let s1 := saveUserChannels { s with userChannels := s.userChannels.set userId channels }
  let s2 :=
    if !s1.selectedChannel.has userId then
      { s1 with selectedChannel := s1.selectedChannel.set userId newChannelId }
    else s1
  clearStep (loadChannelAdmins env s2 newChannelId admins) userId

/-- The case `awaiting_channel_forward`: no failure path clears the step. -/
def channelForwardStep (env : Env) (s : BotState) (userId : Int) (msg : TextMessage)
    (o : TextOutcome) : BotState × List Effect :=
  let candidate : Except (List Effect) (String × List Effect) :=
    match msg.forward_from_chat with
    | some chat => Except.ok (toString chat, [])
    | none =>
      if jsStartsWith msg.text "@" then
        match o.chatByName with
        | some chat => Except.ok (toString chat, [Effect.getChat msg.text])
        | none =>
          Except.error [Effect.getChat msg.text, Effect.reply Reply.failedToProcessChannel]
      else if signedDigits msg.text then Except.ok (msg.text, [])
      else Except.error [Effect.reply Reply.invalidChannel]
  match candidate with
  | Except.error effects => (s, effects)
  | Except.ok (newChannelId, effects) =>
    if !o.getChatOk then
      (s, effects ++ [Effect.getChat newChannelId, Effect.reply Reply.failedToAddChannel])
    else
      match o.botMemberStatus with
      | none =>
        (s, effects ++ [Effect.getChat newChannelId, Effect.getChatMember newChannelId,
          Effect.reply Reply.failedToAddChannel])
      | some status =>
        if status != "administrator" then
          (s, effects ++ [Effect.getChat newChannelId, Effect.getChatMember newChannelId,
            Effect.reply Reply.botNotAdministrator])
        else
          (addChannel env s userId newChannelId o.admins,
            effects ++ [Effect.getChat newChannelId, Effect.getChatMember newChannelId,
              Effect.getChatAdministrators newChannelId, Effect.reply Reply.channelAdded])

/-- The cases `awaiting_message` and `awaiting_delete_id`. -/
def simpleStep (s : BotState) (userId : Int) (step : Step) (call : String → Effect)
    (o : TextOutcome) : BotState × List Effect :=
  match truthyOpt (s.selectedChannel.get userId) with
  | none => (s, [Effect.reply Reply.noChannelSelected])
  | some channelId =>
    if o.callOk then (clearStep s userId, [call channelId, Effect.reply (Reply.success step)])
    else (clearStep s userId, [call channelId, Effect.reply (Reply.failure step)])

/-- The case `awaiting_auto_message_text`. -/
def autoMessageTextStep (s : BotState) (userId : Int) (text : String) :
    BotState × List Effect :=
  match truthyOpt (s.selectedChannel.get userId) with
  | none => (s, [Effect.reply Reply.noChannelSelected])
  | some channelId =>
    let chData := chDataOf s channelId
    (clearStep (saveChannelData (putChannelData s channelId
        { chData with autoMessageConfig := { chData.autoMessageConfig with messageText := text } }))
      userId,
      [Effect.reply (Reply.success Step.awaiting_auto_message_text)])

/-- The case `awaiting_url_button_text`: the label is stored, and the step
advanced, only when no label is stored yet. -/
def urlButtonTextStep (s : BotState) (userId : Int) (text : String) :
    BotState × List Effect :=
  if !s.buttonText.has userId then
    ({ s with
        buttonText := s.buttonText.set userId text
        userStates := s.userStates.set userId Step.awaiting_url_button_url },
      [Effect.reply Reply.buttonTextSaved])
  else (s, [])

/-- The case `awaiting_url_button_url`. -/
def urlButtonUrlStep (s : BotState) (userId : Int) (text : String) :
    BotState × List Effect :=
  match truthyOpt (s.selectedChannel.get userId) with
  | none => (s, [Effect.reply Reply.noChannelSelected])
  | some channelId =>
    match truthyOpt (s.buttonText.get userId) with
    | none => (s, [])
    | some urlButtonText =>
      if !urlPattern text then (s, [Effect.reply Reply.invalidUrl])
      else
        let chData := chDataOf s channelId
        (clearConversation (saveChannelData (putChannelData s channelId
            { chData with autoMessageConfig :=
                { chData.autoMessageConfig with
                  urlButtons := chData.autoMessageConfig.urlButtons ++
                    [{ text := urlButtonText, url := text }] } }))
          userId,
          [Effect.reply (Reply.success Step.awaiting_url_button_url)])

/-- The handler `bot.on("text")`. -/
def on_text (env : Env) (s : BotState) (userId : Int) (msg : TextMessage) (o : TextOutcome) :
    BotState × List Effect :=
  if jsStartsWith msg.text "/" then (s, [])
  else if !s.authenticatedUsers.contains userId then
    if msg.text = env.BOT_PASSWORD then
      (saveAuthenticatedUsers
          { s with authenticatedUsers := setAdd s.authenticatedUsers userId },
        [Effect.reply Reply.passwordAccepted])
    else (s, [Effect.reply Reply.incorrectPassword])
  else
    match s.userStates.get userId with
    | none => (s, [])
    | some Step.awaiting_channel_forward => channelForwardStep env s userId msg o
    | some Step.awaiting_message =>
      simpleStep s userId Step.awaiting_message
        (fun c => Effect.sendMessage c msg.text false []) o
    | some Step.awaiting_delete_id =>
      simpleStep s userId Step.awaiting_delete_id
        (fun c => Effect.deleteMessageText c msg.text) o
    | some Step.awaiting_ban_id =>
      targetStep env s userId msg.text Step.awaiting_ban_id Effect.banChatMember o
    | some Step.awaiting_unban_id =>
      targetStep env s userId msg.text Step.awaiting_unban_id Effect.unbanChatMember o
    | some Step.awaiting_mute_id =>
      targetStep env s userId msg.text Step.awaiting_mute_id
        (fun c t => Effect.restrictChatMember c t false) o
    | some Step.awaiting_unmute_id =>
      targetStep env s userId msg.text Step.awaiting_unmute_id
        (fun c t => Effect.restrictChatMember c t true) o
    | some Step.awaiting_promote_id =>
      targetStep env s userId msg.text Step.awaiting_promote_id
        (fun c t => Effect.promoteChatMember c t true) o
    | some Step.awaiting_demote_id =>
      targetStep env s userId msg.text Step.awaiting_demote_id
        (fun c t => Effect.promoteChatMember c t false) o
    | some Step.awaiting_auto_message_text => autoMessageTextStep s userId msg.text
    | some Step.awaiting_url_button_text => urlButtonTextStep s userId msg.text
    | some Step.awaiting_url_button_url => urlButtonUrlStep s userId msg.text

/-! ## Start of the process -/

/-- The state of a process that has just started: empty maps and no task. -/
def emptyState (disk : Disk) : BotState :=
  { authenticatedUsers := []
    userChannels := []
    selectedChannel := []
    userStates := []
    buttonText := []
    channelData := []
    tasks := []
    disk := disk }

/-- The function `loadAuthenticatedUsers`. -/
def loadAuthenticatedUsers (s : BotState) : BotState :=
  match s.disk.authFile with
  | none => s
  | some users => { s with authenticatedUsers := users.foldl setAdd s.authenticatedUsers }

/-- The function `loadUserChannels`. -/
def loadUserChannels (s : BotState) : BotState :=
  match s.disk.channelsFile with
  | none => s
  | some entries =>
    { s with userChannels :=
        entries.foldl (fun m e => m.set e.1 (e.2.foldl setAdd [])) s.userChannels }

/-- The body of the `forEach` of `loadChannelData`, over the entries that are
left.  An exception of `startAutoMessages` ends the loop. -/
def loadEntries (env : Env) (s : BotState) : List (String × PersistedChannel) → BotState
  | [] => s
  | (channelId, chData) :: rest =>
    let s1 := (getChannelData s channelId).1
    let channelInfo := (getChannelData s channelId).2
    let config := chData.autoMessageConfig.getD channelInfo.autoMessageConfig
    let s2 := putChannelData s1 channelId
      { channelInfo with
        autoMessageConfig := config
        translationEnabled := chData.translationEnabled.getD false }
    if config.isActive && truthy config.messageText then
      if (startAutoMessages env s2 channelId).2 then
        loadEntries env (startAutoMessages env s2 channelId).1 rest
      else (startAutoMessages env s2 channelId).1
    else loadEntries env s2 rest

/-- The function `loadChannelData`. -/
def loadChannelData (env : Env) (s : BotState) : BotState :=
  match s.disk.channelDataFile with
  | none => s
  | some entries => loadEntries env s (ownPropertyOrder entries)

/-- The start of the process on the files `disk`. -/
def boot (env : Env) (disk : Disk) : BotState :=
  loadChannelData env (loadUserChannels (loadAuthenticatedUsers (emptyState disk)))

/-- The store before the bot has written anything: no file exists. -/
def noFiles : Disk :=
  { authFile := none, channelsFile := none, channelDataFile := none }

/-! ## Transition system -/

/-- What can happen to the process: an update from the platform with the
outcomes of the remote calls its handler makes, the firing of a task, or a
restart of the process on the files it has written. -/
inductive Event where
  | command_start (userId : Int)
  | command_menu (userId : Int)
  | action (userId : Int) (a : Action)
  | confirm_delete_all (userId : Int) (o : BulkOutcome)
  | channel_post (post : ChannelPost) (o : PostOutcome)
  | text (userId : Int) (msg : TextMessage) (o : TextOutcome)
  | tick (task : Nat) (o : TickOutcome)
  | restart

/-- The platform delivers no empty text message. -/
def Event.wellFormed : Event → Bool
  | Event.text _ msg _ => truthy msg.text
  | _ => true

/-- One step of the process.  A task fires only while it is running. -/
def step (env : Env) (s : BotState) : Event → BotState
  | Event.command_start userId => command_start s userId
  | Event.command_menu userId => command_menu s userId
  | Event.action userId a => on_action env s userId a
  | Event.confirm_delete_all userId o => (action_confirm_delete_all s userId o).1
  | Event.channel_post post o => (on_channel_post env s post o).1
  | Event.text userId msg o => (on_text env s userId msg o).1
  | Event.tick task o =>
    match s.tasks.find? (fun t => t.id = task) with
    | some t => if t.running then (autoMessageTick s t.channelId o).1 else s
    | none => s
  | Event.restart => boot env s.disk

/-- The states the process can be in, started on the files `disk`. -/
inductive Reachable (env : Env) (disk : Disk) : BotState → Prop where
  | start : Reachable env disk (boot env disk)
  | next (s : BotState) (e : Event) :
      Reachable env disk s → e.wellFormed = true → Reachable env disk (step env s e)

end TGBot

namespace TGBot

/-! ## Notions used to state the properties -/

/-- The channel object a map holds for a channel, the default one when it holds none. -/
def chOf (m : JsMap String ChannelData) (channelId : String) : ChannelData :=
  (m.get channelId).getD defaultChannelData

/-- The live timers of a channel: the tasks scheduled for it that are not stopped. -/
def liveTimers (s : BotState) (channelId : String) : List CronTask :=
  s.tasks.filter (fun t => t.running && t.channelId == channelId)

/-- The handles are the places in the registry, and every running task is the
task its channel object holds. -/
def TimerInv (s : BotState) : Prop :=
  s.tasks.map (fun t => t.id) = List.range s.tasks.length ∧
  ∀ t ∈ s.tasks, t.running = true → (chDataOf s t.channelId).autoMessageJob = some t.id

/-- Two states with the same task registry and the same task handle in every
channel object. -/
def SameTimers (s s1 : BotState) : Prop :=
  s1.tasks = s.tasks ∧
  ∀ c, (chOf s1.channelData c).autoMessageJob = (chOf s.channelData c).autoMessageJob

/-- A property of states that the operations which leave the scheduler alone
keep: creating a channel object, changing fields of a channel object other than
the task handle, the active flag and the message body, saving, and changing
anything but the channel objects, the task registry and the channel-data file. -/
structure Framed (P : BotState → Prop) : Prop where
  get : ∀ s c, P s → P (getChannelData s c).1
  put : ∀ s c d, d.autoMessageJob = (chDataOf s c).autoMessageJob →
    d.autoMessageConfig.isActive = (chDataOf s c).autoMessageConfig.isActive →
    d.autoMessageConfig.messageText = (chDataOf s c).autoMessageConfig.messageText →
    P s → P (putChannelData s c d)
  save : ∀ s, P s → P (saveChannelData s)
  other : ∀ s s1, s1.channelData = s.channelData → s1.tasks = s.tasks →
    s1.disk.channelDataFile = s.disk.channelDataFile → P s → P s1

/-- The files the bot has written: no channel twice in the channel-data file, and
no configuration in it that is active with an empty body. -/
def DiskInv (d : Disk) : Prop :=
  ∀ entries, d.channelDataFile = some entries →
    (entries.map Prod.fst).Nodup ∧
    ∀ p ∈ entries, ∀ cfg, p.2.autoMessageConfig = some cfg →
      cfg.isActive = true → truthy cfg.messageText = true

/-- An active configuration has a body, every task in the registry belongs to a
channel with a body, no channel has two objects, and the files are as the bot
writes them. -/
def ConfigInv (s : BotState) : Prop :=
  (∀ c, (chDataOf s c).autoMessageConfig.isActive = true →
    truthy (chDataOf s c).autoMessageConfig.messageText = true) ∧
  (∀ t ∈ s.tasks, truthy (chDataOf s t.channelId).autoMessageConfig.messageText = true) ∧
  (s.channelData.map Prod.fst).Nodup ∧
  DiskInv s.disk

/-- The state after a sequence of events, from the start on the files `disk`. -/
def run (env : Env) (disk : Disk) (events : List Event) : BotState :=
  events.foldl (step env) (boot env disk)

/-! ## Bulk deletion, position by position -/

/-- The loop resolves position `i`: the id is pinned, or its delete succeeded, or
its delete failed for good. -/
def bulkResolved (pinned : Option Nat) (delete : Nat → DeleteResult) (i msgId : Nat) : Bool :=
  pinned == some msgId || delete i == DeleteResult.ok || isUndeletable (delete i)

/-- The ids the loop resolves, from position `i` on. -/
def resolvedIds (pinned : Option Nat) (delete : Nat → DeleteResult) : Nat → List Nat → List Nat
  | _, [] => []
  | i, msgId :: rest =>
    if bulkResolved pinned delete i msgId then msgId :: resolvedIds pinned delete (i + 1) rest
    else resolvedIds pinned delete (i + 1) rest

/-- The number of positions, from `i` on, whose id is not pinned and whose delete
succeeded. -/
def successfulDeletes (pinned : Option Nat) (delete : Nat → DeleteResult) :
    Nat → List Nat → Nat
  | _, [] => 0
  | i, msgId :: rest =>
    (if pinned != some msgId && delete i == DeleteResult.ok then 1 else 0) +
      successfulDeletes pinned delete (i + 1) rest

/-- The number of positions, from `i` on, whose id is not pinned and whose delete
failed for good. -/
def permanentFailures (pinned : Option Nat) (delete : Nat → DeleteResult) :
    Nat → List Nat → Nat
  | _, [] => 0
  | i, msgId :: rest =>
    (if pinned != some msgId && isUndeletable (delete i) then 1 else 0) +
      permanentFailures pinned delete (i + 1) rest

/-- The number of positions that hold the pinned id. -/
def pinnedCount (pinned : Option Nat) (ids : List Nat) : Nat :=
  match pinned with
  | some p => ids.count p
  | none => 0

/-- The URL-button flow: the operator presses "Add URL Button" and then sends
two text messages. -/
def urlButtonFlow (env : Env) (s : BotState) (userId : Int) (label url : TextMessage)
    (o1 o2 : TextOutcome) : BotState :=
  (on_text env (on_text env (on_action env s userId Action.add_url_button) userId label o1).1
    userId url o2).1

/-! ## Target identifiers -/

/-- The function `parseInt` of the environment returns, for a string of digits
that denotes a number below `2^53`, that number. -/
def ParseIntExact (env : Env) : Prop :=
  ∀ t : String, allDigits t = true → digitsValue t.toList < 2 ^ 53 →
    env.parseInt t = Int.ofNat (digitsValue t.toList)

/-- The handle a trimmed input denotes, in the words of the specification: one
leading `@` stripped if present, the rest case-folded. -/
def handleOf (env : Env) (trimmed : String) : String :=
  match trimmed.toList with
  | '@' :: rest => env.toLowerCase (String.mk rest)
  | _ => env.toLowerCase trimmed

/-! ## Bulk deletion, what stays tracked -/

/-- The ids the loop leaves unresolved, from position `i` on: those that are not
pinned and whose delete failed, but not for good. -/
def unresolvedIds (pinned : Option Nat) (delete : Nat → DeleteResult) : Nat → List Nat → List Nat
  | _, [] => []
  | i, msgId :: rest =>
    if bulkResolved pinned delete i msgId then unresolvedIds pinned delete (i + 1) rest
    else msgId :: unresolvedIds pinned delete (i + 1) rest

/-! ## The language decision, as specified -/

/-- A text with every whitespace character removed. -/
def removeWhiteSpace (s : String) : String :=
  String.mk (s.toList.filter (fun c => !isJsWhiteSpace c))

/-- The decision in the words of the specification: the detected tag is not
`en`, or the translated text differs from the original when letter case and
whitespace are ignored. -/
def specNonEnglish (env : Env) (tag translated original : String) : Bool :=
  tag != "en" ||
    removeWhiteSpace (env.toLowerCase translated) != removeWhiteSpace (env.toLowerCase original)

/-! ## Concrete inputs -/

/-- An environment for concrete runs: ASCII lower-casing, `parseInt` as on a
string of digits (the Number value of the decimal it denotes), a `node-cron`
that accepts every expression. -/
def exampleEnv : Env :=
  { toLowerCase := fun s => String.mk (s.toList.map Char.toLower)
    parseInt := fun s => Int.ofNat (toJsNumber (digitsValue s.toList))
    cronValidate := fun _ => true
    BOT_PASSWORD := "secret" }

/-- Outcomes under which every remote call of a text message succeeds and the
bot is an administrator of the channel. -/
def okText : TextOutcome :=
  { chatByName := none
    getChatOk := true
    botMemberStatus := some "administrator"
    admins := some []
    callOk := true }

/-- A text message that is not forwarded. -/
def plainText (text : String) : TextMessage :=
  { text := text, forward_from_chat := none }

/-- Operator 1 logs in, adds channel `-1001`, sets the message body `Hi` and arms
the channel twice. -/
def armedTwice : List Event :=
  [ Event.text 1 (plainText "secret") okText,
    Event.action 1 Action.add_channel,
    Event.text 1 (plainText "-1001") okText,
    Event.action 1 Action.set_auto_message_text,
    Event.text 1 (plainText "Hi") okText,
    Event.action 1 Action.start_auto_messages,
    Event.action 1 Action.start_auto_messages ]

/-- A post without text, caption or photo. -/
def barePost (messageId : Nat) : ChannelPost :=
  { message_id := messageId
    chat_id := -1001
    sender_chat := none
    text := none
    caption := none
    photo := none }

/-- Outcomes of a pipeline run in which no call fails and no translation arrives. -/
def noTranslation : PostOutcome :=
  { translation := none, deleteOk := true, sendOk := true }

/-- Operator 1 logs in and adds channel `-1001`, in which posts 10, 11 and 12
arrive. -/
def threePosts : List Event :=
  [ Event.text 1 (plainText "secret") okText,
    Event.action 1 Action.add_channel,
    Event.text 1 (plainText "-1001") okText,
    Event.channel_post (barePost 10) noTranslation,
    Event.channel_post (barePost 11) noTranslation,
    Event.channel_post (barePost 12) noTranslation ]

/-- A bulk deletion in which message 11 is pinned, the first delete succeeds and
the third fails for good. -/
def pinnedEleven : BulkOutcome :=
  { pinned := some (some 11)
    delete := fun i =>
      if i = 2 then DeleteResult.error (some "Bad Request: message can\x27t be deleted")
      else DeleteResult.ok }

/-- A state in which channel `-1001` tracks the 5000 ids `0, ..., 4999`. -/
def fullChannel : BotState :=
  putChannelData (emptyState noFiles) "-1001"
    { defaultChannelData with messageIds := List.range 5000 }

/-- A text of 91 letters. -/
def text91 : String :=
  String.mk (List.replicate 91 (Char.ofNat 97))

/-- A post in channel `-1001` with the given text and no photo. -/
def textPost (messageId : Nat) (text : String) : ChannelPost :=
  { message_id := messageId
    chat_id := -1001
    sender_chat := none
    text := some text
    caption := none
    photo := none }

/-- Outcomes of a pipeline run in which the service detects English and returns
the text unchanged, and no call fails. -/
def sameEnglish (text : String) : PostOutcome :=
  { translation := some { text := some text, fromLanguageIso := some (some "en") }
    deleteOk := true
    sendOk := true }

/-- Operator 1 logs in, adds channel `-1001` and turns translation moderation on. -/
def translationOn : List Event :=
  [ Event.text 1 (plainText "secret") okText,
    Event.action 1 Action.add_channel,
    Event.text 1 (plainText "-1001") okText,
    Event.action 1 Action.toggle_translation ]

/-- Operator 1 logs in, adds channel `-1001`, starts the URL-button flow and
sends the label `Old`: the flow now waits for the URL. -/
def labelStored : List Event :=
  [ Event.text 1 (plainText "secret") okText,
    Event.action 1 Action.add_channel,
    Event.text 1 (plainText "-1001") okText,
    Event.action 1 Action.add_url_button,
    Event.text 1 (plainText "Old") okText ]

/-- Outcomes of a firing in which both calls succeed and the message sent gets
the given id. -/
def sent (messageId : Nat) : TickOutcome :=
  { deleteOk := true, sendResult := some messageId }

/-- A post in channel `-1001` sent on behalf of the chat `Alice` (id `-5`). -/
def alicePost (messageId : Nat) : ChannelPost :=
  { message_id := messageId
    chat_id := -1001
    sender_chat := some { id := -5, username := some "Alice" }
    text := none
    caption := none
    photo := none }

/-- Operator 1 logs in and adds channel `-1001`, in which `Alice` posts. -/
def aliceKnown : List Event :=
  [ Event.text 1 (plainText "secret") okText,
    Event.action 1 Action.add_channel,
    Event.text 1 (plainText "-1001") okText,
    Event.channel_post (alicePost 10) noTranslation ]

/-- A bulk deletion in which message 11 is pinned, the first delete succeeds and
the third fails with an error that is not permanent. -/
def thirdFails : BulkOutcome :=
  { pinned := some (some 11)
    delete := fun i =>
      if i = 2 then DeleteResult.error (some "Too Many Requests: retry after 5")
      else DeleteResult.ok }

/-- Outcomes of a firing whose send fails. -/
def sendFails : TickOutcome :=
  { deleteOk := false, sendResult := none }

/-- The channel of `armedTwice` after a first firing that delivered message 100. -/
def delivered : BotState :=
  (autoMessageTick (run exampleEnv noFiles (armedTwice.take 6)) "-1001" (sent 100)).1

/-- Outcomes of a pipeline run in which the service detects Spanish and returns
the given translation, and no call fails. -/
def fromSpanish (translated : String) : PostOutcome :=
  { translation := some { text := some translated, fromLanguageIso := some (some "es") }
    deleteOk := true
    sendOk := true }

/-- A post in channel `-1001` with a caption and three photo sizes. -/
def photoPost (messageId : Nat) (caption : String) : ChannelPost :=
  { message_id := messageId
    chat_id := -1001
    sender_chat := none
    text := none
    caption := some caption
    photo := some ["small", "medium", "large"] }

end TGBot

namespace TGBot

/-! ## Task handles -/

/-- The task a channel object holds is a task of the registry, scheduled for
that channel. -/
def JobInv (s : BotState) : Prop :=
  ∀ c j, (chDataOf s c).autoMessageJob = some j →
    ∃ t ∈ s.tasks, t.id = j ∧ t.channelId = c

/-! ## Tracked ids -/

/-- No channel tracks an id twice. -/
def TrackedInv (s : BotState) : Prop :=
  ∀ c, (chDataOf s c).messageIds.Nodup

/-- Two states whose channel objects track the same ids. -/
def SameTracked (s s1 : BotState) : Prop :=
  ∀ c, (chOf s1.channelData c).messageIds = (chOf s.channelData c).messageIds

/-! ## Conversation steps -/

/-- The replies with which the case `awaiting_channel_forward` refuses a channel. -/
def isChannelRefusal : Reply → Bool
  | Reply.invalidChannel => true
  | Reply.failedToProcessChannel => true
  | Reply.failedToAddChannel => true
  | Reply.botNotAdministrator => true
  | _ => false

/-! ## Further concrete inputs -/

/-- Outcomes of a pipeline run in which the service detects Spanish and returns
the given translation, and the delete of the post fails. -/
def deleteFails (translated : String) : PostOutcome :=
  { translation := some { text := some translated, fromLanguageIso := some (some "es") }
    deleteOk := false
    sendOk := true }

/-- Outcomes of a pipeline run in which the service detects Spanish and returns
the given translation, the delete succeeds and the re-post fails. -/
def repostFails (translated : String) : PostOutcome :=
  { translation := some { text := some translated, fromLanguageIso := some (some "es") }
    deleteOk := true
    sendOk := false }

/-- Operator 1 logs in and presses "Add New Channel": the bot waits for a channel. -/
def addPending : List Event :=
  [ Event.text 1 (plainText "secret") okText,
    Event.action 1 Action.add_channel ]

/-- Outcomes of a text message for which `getChat` on the new channel fails. -/
def getChatFails : TextOutcome :=
  { chatByName := none
    getChatOk := false
    botMemberStatus := none
    admins := none
    callOk := false }

/-- Outcomes of a text message for which the call of the pending step fails. -/
def callFails : TextOutcome :=
  { chatByName := none
    getChatOk := true
    botMemberStatus := some "administrator"
    admins := some []
    callOk := false }

/-- Operator 1 logs in, adds channel `-1001` and presses "Ban User": the bot
waits for the target. -/
def banPending : List Event :=
  [ Event.text 1 (plainText "secret") okText,
    Event.action 1 Action.add_channel,
    Event.text 1 (plainText "-1001") okText,
    Event.action 1 Action.ban_user ]

/-- Operator 1 logs in and, with no channel added, presses "Set Message Text":
the bot waits for the body. -/
def bodyPending : List Event :=
  [ Event.text 1 (plainText "secret") okText,
    Event.action 1 Action.set_auto_message_text ]

/-- Operator 1 logs in and, with no channel added, starts the URL-button flow and
sends the label `Old`. -/
def labelNoChannel : List Event :=
  [ Event.text 1 (plainText "secret") okText,
    Event.action 1 Action.add_url_button,
    Event.text 1 (plainText "Old") okText ]

/-- Operator 1 logs in, adds channel `-1001`, sets the message body `Hi`, arms
the channel and then removes it from the channel list. -/
def armedThenRemoved : List Event :=
  [ Event.text 1 (plainText "secret") okText,
    Event.action 1 Action.add_channel,
    Event.text 1 (plainText "-1001") okText,
    Event.action 1 Action.set_auto_message_text,
    Event.text 1 (plainText "Hi") okText,
    Event.action 1 Action.start_auto_messages,
    Event.action 1 (Action.remove_channel "-1001") ]

/-- An environment whose `node-cron` rejects the expression `bogus`. -/
def strictEnv : Env :=
  { toLowerCase := exampleEnv.toLowerCase
    parseInt := exampleEnv.parseInt
    cronValidate := fun e => e != "bogus"
    BOT_PASSWORD := "secret" }

end TGBot

namespace TGBot

/-! ## Maps -/

theorem JsMap.get_set {K V : Type} [DecidableEq K] (m : JsMap K V) (k k1 : K) (v : V) :
    JsMap.get (JsMap.set m k v) k1 = if k = k1 then some v else JsMap.get m k1 := by
  induction m with
  | nil => simp [JsMap.set, JsMap.get]
  | cons p rest ih =>
    obtain ⟨k2, v2⟩ := p
    by_cases h : k2 = k <;> by_cases h1 : k2 = k1 <;> by_cases h2 : k = k1 <;>
      simp_all [JsMap.set, JsMap.get]

theorem JsMap.mem_set {K V : Type} [DecidableEq K] (m : JsMap K V) (k : K) (v : V)
    (p : K × V) (hp : p ∈ JsMap.set m k v) : p = (k, v) ∨ p ∈ m := by
  induction m with
  | nil => simpa [JsMap.set] using hp
  | cons q rest ih =>
    obtain ⟨k2, v2⟩ := q
    by_cases h : k2 = k
    · simp only [JsMap.set, h, if_true, List.mem_cons] at hp
      rcases hp with hp | hp
      · exact Or.inl hp
      · exact Or.inr (List.mem_cons_of_mem _ hp)
    · simp only [JsMap.set, h, if_false, List.mem_cons] at hp
      rcases hp with hp | hp
      · exact Or.inr (hp ▸ List.mem_cons_self _ _)
      · rcases ih hp with h2 | h2
        · exact Or.inl h2
        · exact Or.inr (List.mem_cons_of_mem _ h2)

theorem JsMap.mem_of_get {K V : Type} [DecidableEq K] (m : JsMap K V) (k : K) (v : V)
    (h : JsMap.get m k = some v) : (k, v) ∈ m := by
  induction m with
  | nil => simp [JsMap.get] at h
  | cons q rest ih =>
    obtain ⟨k2, v2⟩ := q
    by_cases h1 : k2 = k
    · subst h1
      simp only [JsMap.get, if_true, Option.some.injEq] at h
      subst h
      exact List.mem_cons_self _ _
    · simp only [JsMap.get, h1, if_false] at h
      exact List.mem_cons_of_mem _ (ih h)

theorem JsMap.get_delete {K V : Type} [DecidableEq K] (m : JsMap K V) (k k1 : K) :
    JsMap.get (JsMap.delete m k) k1 = if k = k1 then none else JsMap.get m k1 := by
  induction m with
  | nil => simp [JsMap.delete, JsMap.get]
  | cons p rest ih =>
    obtain ⟨k2, v2⟩ := p
    simp only [JsMap.delete] at ih
    by_cases h : k2 = k <;> by_cases h1 : k2 = k1 <;> by_cases h2 : k = k1 <;>
      simp_all [JsMap.delete, JsMap.get, List.filter_cons]

/-! ## Channel objects -/

@[simp] theorem getChannelData_snd (s : BotState) (c : String) :
    (getChannelData s c).2 = chDataOf s c := rfl

theorem chDataOf_eq (s : BotState) (c : String) :
    chDataOf s c = (s.channelData.get c).getD defaultChannelData := by
  unfold chDataOf getChannelData
  cases s.channelData.get c <;> rfl

theorem chDataOf_congr (s s1 : BotState) (h : s1.channelData = s.channelData) (c : String) :
    chDataOf s1 c = chDataOf s c := by
  rw [chDataOf_eq, chDataOf_eq, h]

@[simp] theorem chDataOf_putChannelData (s : BotState) (c c1 : String) (d : ChannelData) :
    chDataOf (putChannelData s c d) c1 = if c = c1 then d else chDataOf s c1 := by
  rw [chDataOf_eq, chDataOf_eq]
  simp only [putChannelData, JsMap.get_set]
  split <;> rfl

@[simp] theorem chDataOf_getChannelData (s : BotState) (c c1 : String) :
    chDataOf (getChannelData s c).1 c1 = chDataOf s c1 := by
  rw [chDataOf_eq, chDataOf_eq]
  unfold getChannelData
  cases h : s.channelData.get c with
  | some d => rfl
  | none =>
    simp only [JsMap.get_set]
    split
    · rename_i h1
      subst h1
      rw [h]
      rfl
    · rfl

theorem getChannelData_fst_eq (s : BotState) (c : String) :
    (getChannelData s c).1 = { s with channelData := (getChannelData s c).1.channelData } := by
  unfold getChannelData
  cases s.channelData.get c <;> rfl

@[simp] theorem getChannelData_tasks (s : BotState) (c : String) :
    (getChannelData s c).1.tasks = s.tasks := by
  rw [getChannelData_fst_eq]

@[simp] theorem getChannelData_disk (s : BotState) (c : String) :
    (getChannelData s c).1.disk = s.disk := by
  rw [getChannelData_fst_eq]

@[simp] theorem getChannelData_userStates (s : BotState) (c : String) :
    (getChannelData s c).1.userStates = s.userStates := by
  rw [getChannelData_fst_eq]

@[simp] theorem getChannelData_buttonText (s : BotState) (c : String) :
    (getChannelData s c).1.buttonText = s.buttonText := by
  rw [getChannelData_fst_eq]

@[simp] theorem getChannelData_selectedChannel (s : BotState) (c : String) :
    (getChannelData s c).1.selectedChannel = s.selectedChannel := by
  rw [getChannelData_fst_eq]

@[simp] theorem getChannelData_userChannels (s : BotState) (c : String) :
    (getChannelData s c).1.userChannels = s.userChannels := by
  rw [getChannelData_fst_eq]

@[simp] theorem getChannelData_authenticatedUsers (s : BotState) (c : String) :
    (getChannelData s c).1.authenticatedUsers = s.authenticatedUsers := by
  rw [getChannelData_fst_eq]

theorem mem_getChannelData (s : BotState) (c : String) (p : String × ChannelData)
    (hp : p ∈ (getChannelData s c).1.channelData) :
    p = (c, defaultChannelData) ∨ p ∈ s.channelData := by
  unfold getChannelData at hp
  cases h : s.channelData.get c with
  | some d =>
    rw [h] at hp
    exact Or.inr hp
  | none =>
    rw [h] at hp
    exact JsMap.mem_set _ _ _ _ hp

theorem mem_putChannelData (s : BotState) (c : String) (d : ChannelData)
    (p : String × ChannelData) (hp : p ∈ (putChannelData s c d).channelData) :
    p = (c, d) ∨ p ∈ s.channelData :=
  JsMap.mem_set _ _ _ _ hp

theorem mem_channelData_chDataOf (s : BotState) (c : String) :
    (c, chDataOf s c) ∈ s.channelData ∨ chDataOf s c = defaultChannelData := by
  rw [chDataOf_eq]
  cases h : s.channelData.get c with
  | some d => exact Or.inl (JsMap.mem_of_get _ _ _ h)
  | none => exact Or.inr rfl

end TGBot

namespace TGBot

theorem chDataOf_chOf (s : BotState) (c : String) : chDataOf s c = chOf s.channelData c :=
  chDataOf_eq s c

theorem chOf_set (m : JsMap String ChannelData) (c c1 : String) (d : ChannelData) :
    chOf (m.set c d) c1 = if c = c1 then d else chOf m c1 := by
  simp only [chOf, JsMap.get_set]
  split <;> rfl

@[simp] theorem chOf_getChannelData (s : BotState) (c c1 : String) :
    chOf (getChannelData s c).1.channelData c1 = chOf s.channelData c1 := by
  rw [← chDataOf_chOf, ← chDataOf_chOf, chDataOf_getChannelData]

theorem stopTask_map_id (tasks : List CronTask) (j : Nat) :
    (stopTask tasks j).map (fun t => t.id) = tasks.map (fun t => t.id) := by
  unfold stopTask
  rw [List.map_map]
  apply List.map_congr_left
  intro t _
  simp only [Function.comp]
  split <;> rfl

@[simp] theorem stopTask_length (tasks : List CronTask) (j : Nat) :
    (stopTask tasks j).length = tasks.length := by
  simp [stopTask]

theorem mem_stopTask_running (tasks : List CronTask) (j : Nat) (t : CronTask)
    (ht : t ∈ stopTask tasks j) (hr : t.running = true) : t ∈ tasks ∧ t.id ≠ j := by
  unfold stopTask at ht
  obtain ⟨t0, h0, rfl⟩ := List.mem_map.mp ht
  by_cases h : t0.id = j
  · simp [h] at hr
  · simp only [h, if_false] at hr ⊢
    exact ⟨h0, h⟩

theorem stopJob_running (tasks : List CronTask) (job : Option Nat) (t : CronTask)
    (ht : t ∈ stopJob tasks job) (hr : t.running = true) :
    t ∈ tasks ∧ job ≠ some t.id := by
  cases job with
  | none => exact ⟨ht, by simp⟩
  | some j =>
    obtain ⟨h1, h2⟩ := mem_stopTask_running _ _ _ ht hr
    exact ⟨h1, by simpa using Ne.symm h2⟩

@[simp] theorem stopJob_map_id (tasks : List CronTask) (job : Option Nat) :
    (stopJob tasks job).map (fun t => t.id) = tasks.map (fun t => t.id) := by
  cases job with
  | none => rfl
  | some j => exact stopTask_map_id _ _

@[simp] theorem stopJob_length (tasks : List CronTask) (job : Option Nat) :
    (stopJob tasks job).length = tasks.length := by
  cases job with
  | none => rfl
  | some j => exact stopTask_length _ _

theorem TimerInv_startAutoMessages (env : Env) (s : BotState) (c : String)
    (h : TimerInv s) : TimerInv (startAutoMessages env s c).1 := by
  obtain ⟨hid, hjob⟩ := h
  unfold startAutoMessages
  simp only [getChannelData_snd, getChannelData_tasks]
  split
  · refine ⟨?_, ?_⟩
    · simp only [saveChannelData, putChannelData, List.map_append, List.length_append,
        List.map_cons, List.map_nil, List.length_singleton, stopJob_map_id, stopJob_length, hid,
        List.range_succ]
    · intro t ht hr
      simp only [saveChannelData, putChannelData, List.mem_append, List.mem_singleton] at ht
      simp only [chDataOf_chOf, saveChannelData, putChannelData, chOf_set, chOf_getChannelData]
      rcases ht with ht | ht
      · obtain ⟨h1, h2⟩ := stopJob_running _ _ t ht hr
        have h3 := hjob t h1 hr
        have h4 : c ≠ t.channelId := by
          intro h5
          rw [h5] at h2
          exact h2 h3
        simpa [h4, chDataOf_chOf] using h3
      · subst ht
        simp
  · refine ⟨?_, ?_⟩
    · simp only [stopJob_map_id, stopJob_length, hid]
    · intro t ht hr
      simp only at ht
      obtain ⟨h1, _⟩ := stopJob_running _ _ t ht hr
      simpa [chDataOf_chOf] using hjob t h1 hr

theorem TimerInv_stopAutoMessages (s : BotState) (c : String)
    (h : TimerInv s) : TimerInv (stopAutoMessages s c) := by
  obtain ⟨hid, hjob⟩ := h
  unfold stopAutoMessages
  simp only [getChannelData_snd, getChannelData_tasks]
  refine ⟨?_, ?_⟩
  · simp only [saveChannelData, putChannelData, stopJob_map_id, stopJob_length, hid]
  · intro t ht hr
    simp only [saveChannelData, putChannelData] at ht
    simp only [chDataOf_chOf, saveChannelData, putChannelData, chOf_set, chOf_getChannelData]
    obtain ⟨h1, h2⟩ := stopJob_running _ _ t ht hr
    have h3 := hjob t h1 hr
    have h4 : c ≠ t.channelId := by
      intro h5
      rw [h5] at h2
      exact h2 h3
    simpa [h4, chDataOf_chOf] using h3

end TGBot

namespace TGBot

theorem chOf_set_job (m : JsMap String ChannelData) (c c1 : String) (d : ChannelData)
    (h : d.autoMessageJob = (chOf m c).autoMessageJob) :
    (chOf (m.set c d) c1).autoMessageJob = (chOf m c1).autoMessageJob := by
  rw [chOf_set]
  split
  · rename_i h1
    subst h1
    exact h
  · rfl

theorem SameTimers.refl (s : BotState) : SameTimers s s := ⟨rfl, fun _ => rfl⟩

theorem SameTimers.trans {s s1 s2 : BotState} (h1 : SameTimers s s1) (h2 : SameTimers s1 s2) :
    SameTimers s s2 :=
  ⟨h2.1.trans h1.1, fun c => (h2.2 c).trans (h1.2 c)⟩

theorem TimerInv_of_SameTimers {s s1 : BotState} (h : SameTimers s s1) (hi : TimerInv s) :
    TimerInv s1 := by
  obtain ⟨ht, hj⟩ := h
  obtain ⟨hid, hjob⟩ := hi
  refine ⟨by rw [ht]; exact hid, ?_⟩
  intro t hmem hr
  rw [ht] at hmem
  rw [chDataOf_chOf, hj, ← chDataOf_chOf]
  exact hjob t hmem hr

theorem SameTimers_getChannelData (s : BotState) (c : String) :
    SameTimers s (getChannelData s c).1 :=
  ⟨by simp, fun c1 => by simp⟩

theorem SameTimers_clearStep (s : BotState) (u : Int) : SameTimers s (clearStep s u) :=
  ⟨rfl, fun _ => rfl⟩

theorem SameTimers_clearConversation (s : BotState) (u : Int) :
    SameTimers s (clearConversation s u) :=
  ⟨rfl, fun _ => rfl⟩

theorem SameTimers_beginStep (s : BotState) (u : Int) (st : Step) :
    SameTimers s (beginStep s u st) :=
  ⟨rfl, fun _ => rfl⟩

theorem SameTimers_saveChannelData (s : BotState) : SameTimers s (saveChannelData s) :=
  ⟨rfl, fun _ => rfl⟩

theorem SameTimers_putChannelData (s : BotState) (c : String) (d : ChannelData)
    (h : d.autoMessageJob = (chDataOf s c).autoMessageJob) :
    SameTimers s (putChannelData s c d) :=
  ⟨rfl, fun c1 => chOf_set_job _ _ _ _ (by rw [h, chDataOf_chOf])⟩

theorem SameTimers_on_channel_post (env : Env) (s : BotState) (post : ChannelPost)
    (o : PostOutcome) : SameTimers s (on_channel_post env s post o).1 :=
  SameTimers_putChannelData _ _ _ rfl

theorem SameTimers_command_start (s : BotState) (u : Int) :
    SameTimers s (command_start s u) := by
  unfold command_start
  repeat' split
  all_goals first | exact SameTimers.refl _

theorem SameTimers_command_menu (s : BotState) (u : Int) :
    SameTimers s (command_menu s u) := by
  unfold command_menu
  split
  · exact SameTimers.refl _
  · exact SameTimers_clearConversation _ _

theorem SameTimers_bulkDelete (s : BotState) (c : String) (o : BulkOutcome) :
    SameTimers s (bulkDelete s c o).1 :=
  (SameTimers_getChannelData s c).trans
    (SameTimers_putChannelData _ _ _ (by simp [chDataOf_chOf]))

theorem SameTimers_confirm_delete_all (s : BotState) (u : Int) (o : BulkOutcome) :
    SameTimers s (action_confirm_delete_all s u o).1 := by
  unfold action_confirm_delete_all
  split
  · exact SameTimers.refl _
  · exact SameTimers_bulkDelete _ _ _

theorem SameTimers_autoMessageTick (s : BotState) (c : String) (o : TickOutcome) :
    SameTimers s (autoMessageTick s c o).1 := by
  unfold autoMessageTick
  dsimp only
  repeat' split
  all_goals first | exact SameTimers.refl _ | exact SameTimers_putChannelData _ _ _ rfl

theorem SameTimers_loadChannelAdmins (env : Env) (s : BotState) (c : String)
    (admins : Option (List (Option String × Int))) :
    SameTimers s (loadChannelAdmins env s c admins) := by
  unfold loadChannelAdmins
  split
  · exact SameTimers.refl _
  · exact SameTimers_putChannelData _ _ _ rfl

theorem SameTimers_resolveUserIdentifier (env : Env) (s : BotState) (t c : String) :
    SameTimers s (resolveUserIdentifier env s t c).1 := by
  unfold resolveUserIdentifier
  dsimp only
  split
  · exact SameTimers.refl _
  · exact SameTimers_getChannelData _ _

theorem SameTimers_targetStep (env : Env) (s : BotState) (u : Int) (text : String)
    (step : Step) (call : String → Int → Effect) (o : TextOutcome) :
    SameTimers s (targetStep env s u text step call o).1 := by
  unfold targetStep
  split
  · exact SameTimers.refl _
  · rename_i c _
    have h := SameTimers_resolveUserIdentifier env s text c
    split
    · rename_i s1 heq
      rw [heq] at h
      exact h.trans (SameTimers_clearStep _ _)
    · rename_i s1 target heq
      rw [heq] at h
      split <;> exact h.trans (SameTimers_clearStep _ _)

theorem SameTimers_simpleStep (s : BotState) (u : Int) (step : Step)
    (call : String → Effect) (o : TextOutcome) :
    SameTimers s (simpleStep s u step call o).1 := by
  unfold simpleStep
  repeat' split
  all_goals first | exact SameTimers.refl _

theorem SameTimers_addChannel (env : Env) (s : BotState) (u : Int) (c : String)
    (admins : Option (List (Option String × Int))) :
    SameTimers s (addChannel env s u c admins) := by
  unfold addChannel
  dsimp only
  refine SameTimers.trans (SameTimers.trans ?_ (SameTimers_loadChannelAdmins _ _ _ _))
    (SameTimers_clearStep _ _)
  split <;> exact ⟨rfl, fun _ => rfl⟩

theorem SameTimers_channelForwardStep (env : Env) (s : BotState) (u : Int)
    (msg : TextMessage) (o : TextOutcome) :
    SameTimers s (channelForwardStep env s u msg o).1 := by
  unfold channelForwardStep
  dsimp only
  repeat' split
  all_goals first
    | exact SameTimers.refl _
    | exact SameTimers_addChannel _ _ _ _ _

theorem SameTimers_autoMessageTextStep (s : BotState) (u : Int) (text : String) :
    SameTimers s (autoMessageTextStep s u text).1 := by
  unfold autoMessageTextStep
  dsimp only
  split
  · exact SameTimers.refl _
  · refine SameTimers.trans ?_ (SameTimers_clearStep _ _)
    refine SameTimers.trans ?_ (SameTimers_saveChannelData _)
    exact SameTimers_putChannelData _ _ _ rfl

theorem SameTimers_urlButtonTextStep (s : BotState) (u : Int) (text : String) :
    SameTimers s (urlButtonTextStep s u text).1 := by
  unfold urlButtonTextStep
  split
  · exact ⟨rfl, fun _ => rfl⟩
  · exact SameTimers.refl _

theorem SameTimers_urlButtonUrlStep (s : BotState) (u : Int) (text : String) :
    SameTimers s (urlButtonUrlStep s u text).1 := by
  unfold urlButtonUrlStep
  dsimp only
  repeat' split
  all_goals first
    | exact SameTimers.refl _
    | (refine SameTimers.trans ?_ (SameTimers_clearConversation _ _)
       refine SameTimers.trans ?_ (SameTimers_saveChannelData _)
       exact SameTimers_putChannelData _ _ _ rfl)

theorem SameTimers_on_text (env : Env) (s : BotState) (u : Int) (msg : TextMessage)
    (o : TextOutcome) : SameTimers s (on_text env s u msg o).1 := by
  unfold on_text
  split
  · exact SameTimers.refl _
  · split
    · split
      · exact ⟨rfl, fun _ => rfl⟩
      · exact SameTimers.refl _
    · split
      · exact SameTimers.refl _
      · exact SameTimers_channelForwardStep _ _ _ _ _
      · exact SameTimers_simpleStep _ _ _ _ _
      · exact SameTimers_simpleStep _ _ _ _ _
      · exact SameTimers_targetStep _ _ _ _ _ _ _
      · exact SameTimers_targetStep _ _ _ _ _ _ _
      · exact SameTimers_targetStep _ _ _ _ _ _ _
      · exact SameTimers_targetStep _ _ _ _ _ _ _
      · exact SameTimers_targetStep _ _ _ _ _ _ _
      · exact SameTimers_targetStep _ _ _ _ _ _ _
      · exact SameTimers_autoMessageTextStep _ _ _
      · exact SameTimers_urlButtonTextStep _ _ _
      · exact SameTimers_urlButtonUrlStep _ _ _

end TGBot

namespace TGBot

/-- Stopping the task a channel object holds, and changing the handle of that
channel only, keeps the invariant. -/
theorem TimerInv_stopped (s s1 : BotState) (c : String) (hi : TimerInv s)
    (ht : s1.tasks = stopJob s.tasks (chDataOf s c).autoMessageJob)
    (hj : ∀ c1, c1 ≠ c → (chDataOf s1 c1).autoMessageJob = (chDataOf s c1).autoMessageJob) :
    TimerInv s1 := by
  obtain ⟨hid, hjob⟩ := hi
  refine ⟨by rw [ht]; simp [hid], ?_⟩
  intro t hmem hr
  rw [ht] at hmem
  obtain ⟨h1, h2⟩ := stopJob_running _ _ t hmem hr
  have h3 := hjob t h1 hr
  have h4 : t.channelId ≠ c := by
    intro h5
    rw [h5] at h3
    exact h2 h3
  rw [hj _ h4]
  exact h3

theorem TimerInv_saveChannelData (s : BotState) (hi : TimerInv s) :
    TimerInv (saveChannelData s) :=
  TimerInv_of_SameTimers (SameTimers_saveChannelData s) hi

theorem TimerInv_putChannelData (s : BotState) (c : String) (d : ChannelData)
    (h : d.autoMessageJob = (chDataOf s c).autoMessageJob) (hi : TimerInv s) :
    TimerInv (putChannelData s c d) :=
  TimerInv_of_SameTimers (SameTimers_putChannelData s c d h) hi

theorem TimerInv_getChannelData (s : BotState) (c : String) (hi : TimerInv s) :
    TimerInv (getChannelData s c).1 :=
  TimerInv_of_SameTimers (SameTimers_getChannelData s c) hi

theorem TimerInv_remove_channel (s : BotState) (u : Int) (c : String) (hi : TimerInv s) :
    TimerInv (action_remove_channel s u c) := by
  unfold action_remove_channel
  dsimp only
  split
  · exact hi
  · split
    · exact hi
    · split
      · exact hi
      · refine TimerInv_of_SameTimers (s := match (chDataOf s c).autoMessageJob with
          | some j =>
            putChannelData { (getChannelData s c).1 with
                tasks := stopJob (getChannelData s c).1.tasks (some j) } c
              { chDataOf s c with autoMessageJob := none }
          | none => (getChannelData s c).1) ?_ ?_
        · simp only [getChannelData_snd]
          exact ⟨rfl, fun _ => rfl⟩
        · cases h : (chDataOf s c).autoMessageJob with
          | none => exact TimerInv_of_SameTimers (SameTimers_getChannelData s c) hi
          | some j =>
            refine TimerInv_stopped s _ c hi ?_ ?_
            · simp [putChannelData, h]
            · intro c1 hc
              simp [chDataOf_chOf, putChannelData, chOf_set, Ne.symm hc]

theorem TimerInv_ite_start (env : Env) (s : BotState) (c : String) (b : Bool)
    (hi : TimerInv s) :
    TimerInv (if b = true then (startAutoMessages env s c).1 else s) := by
  split
  · exact TimerInv_startAutoMessages env s c hi
  · exact hi

theorem TimerInv_action_interval (env : Env) (s : BotState) (u : Int) (e : String)
    (hi : TimerInv s) : TimerInv (action_interval env s u e) := by
  unfold action_interval
  dsimp only
  split
  · exact hi
  · rename_i c _
    refine TimerInv_ite_start env _ c _ ?_
    refine TimerInv_saveChannelData _ ?_
    refine TimerInv_putChannelData _ c _ rfl ?_
    split
    · exact TimerInv_stopAutoMessages s c hi
    · exact TimerInv_getChannelData s c hi

theorem TimerInv_action_start (env : Env) (s : BotState) (u : Int) (hi : TimerInv s) :
    TimerInv (action_start_auto_messages env s u).1 := by
  unfold action_start_auto_messages
  dsimp only
  split
  · exact hi
  · split
    · exact TimerInv_getChannelData s _ hi
    · exact TimerInv_startAutoMessages env _ _ (TimerInv_getChannelData s _ hi)

theorem TimerInv_action_stop (s : BotState) (u : Int) (hi : TimerInv s) :
    TimerInv (action_stop_auto_messages s u) := by
  unfold action_stop_auto_messages
  split
  · exact hi
  · exact TimerInv_stopAutoMessages s _ hi

theorem SameTimers_update_config (s : BotState) (c : String) (cfg : AutoMessageConfig)
    (tr : Bool) :
    SameTimers s (saveChannelData (putChannelData s c
      { chDataOf s c with autoMessageConfig := cfg, translationEnabled := tr })) := by
  refine SameTimers.trans ?_ (SameTimers_saveChannelData _)
  exact SameTimers_putChannelData _ c _ rfl

theorem TimerInv_on_action (env : Env) (s : BotState) (u : Int) (a : Action)
    (hi : TimerInv s) : TimerInv (on_action env s u a) := by
  cases a
  case remove_channel c => exact TimerInv_remove_channel s u c hi
  case interval e => exact TimerInv_action_interval env s u e hi
  case start_auto_messages => exact TimerInv_action_start env s u hi
  case stop_auto_messages => exact TimerInv_action_stop s u hi
  all_goals
    refine TimerInv_of_SameTimers ?_ hi
    simp only [on_action, action_select_channel, action_menu, action_menu_auto_messages,
      action_menu_translation, action_clear_url_buttons, action_toggle_delete_previous,
      action_toggle_translation, action_begin, action_read_channel]
    repeat' split
    all_goals first
      | exact SameTimers.refl _
      | exact SameTimers_getChannelData _ _
      | exact SameTimers_update_config _ _ _ _

theorem TimerInv_loadEntries (env : Env) (entries : List (String × PersistedChannel)) :
    ∀ s : BotState, TimerInv s → TimerInv (loadEntries env s entries) := by
  induction entries with
  | nil => intro s hi; exact hi
  | cons e rest ih =>
    intro s hi
    obtain ⟨c, p⟩ := e
    unfold loadEntries
    dsimp only
    have h2 := TimerInv_of_SameTimers
      ((SameTimers_getChannelData s c).trans (SameTimers_putChannelData _ c
        { chDataOf s c with
          autoMessageConfig := p.autoMessageConfig.getD (chDataOf s c).autoMessageConfig
          translationEnabled := p.translationEnabled.getD false } (by simp [chDataOf_chOf]))) hi
    simp only [getChannelData_snd]
    split
    · split
      · exact ih _ (TimerInv_startAutoMessages env _ c h2)
      · exact TimerInv_startAutoMessages env _ c h2
    · exact ih _ h2

theorem TimerInv_boot (env : Env) (disk : Disk) : TimerInv (boot env disk) := by
  have h0 : TimerInv (loadUserChannels (loadAuthenticatedUsers (emptyState disk))) := by
    refine ⟨?_, ?_⟩
    · unfold loadUserChannels loadAuthenticatedUsers
      repeat' split
      all_goals rfl
    · intro t ht
      have : (loadUserChannels (loadAuthenticatedUsers (emptyState disk))).tasks = [] := by
        unfold loadUserChannels loadAuthenticatedUsers
        repeat' split
        all_goals rfl
      rw [this] at ht
      cases ht
  unfold boot loadChannelData
  split
  · exact h0
  · exact TimerInv_loadEntries env _ _ h0

theorem TimerInv_step (env : Env) (s : BotState) (e : Event) (hi : TimerInv s) :
    TimerInv (step env s e) := by
  cases e with
  | command_start u => exact TimerInv_of_SameTimers (SameTimers_command_start s u) hi
  | command_menu u => exact TimerInv_of_SameTimers (SameTimers_command_menu s u) hi
  | action u a => exact TimerInv_on_action env s u a hi
  | confirm_delete_all u o =>
    exact TimerInv_of_SameTimers (SameTimers_confirm_delete_all s u o) hi
  | channel_post post o =>
    exact TimerInv_of_SameTimers (SameTimers_on_channel_post env s post o) hi
  | text u msg o => exact TimerInv_of_SameTimers (SameTimers_on_text env s u msg o) hi
  | tick task o =>
    simp only [step]
    repeat' split
    all_goals first
      | exact hi
      | exact TimerInv_of_SameTimers (SameTimers_autoMessageTick s _ o) hi
  | restart => exact TimerInv_boot env s.disk

theorem TimerInv_of_Reachable (env : Env) (disk : Disk) (s : BotState)
    (h : Reachable env disk s) : TimerInv s := by
  induction h with
  | start => exact TimerInv_boot env disk
  | next s e _ _ ih => exact TimerInv_step env s e ih

theorem length_le_one_of_nodup_const (l : List Nat) (hn : l.Nodup)
    (hc : ∀ a ∈ l, ∀ b ∈ l, a = b) : l.length ≤ 1 := by
  match l, hn, hc with
  | [], _, _ => simp
  | [_], _, _ => simp
  | a :: b :: r, hn, hc =>
    have h1 : a = b := hc a (by simp) b (by simp)
    subst h1
    simp at hn

theorem liveTimers_le_one (s : BotState) (hi : TimerInv s) (c : String) :
    (liveTimers s c).length ≤ 1 := by
  obtain ⟨hid, hjob⟩ := hi
  have hsub : ((liveTimers s c).map (fun t => t.id)).Sublist (s.tasks.map (fun t => t.id)) :=
    List.Sublist.map _ (List.filter_sublist _)
  have hn : ((liveTimers s c).map (fun t => t.id)).Nodup := by
    rw [hid] at hsub
    exact hsub.nodup (List.nodup_range _)
  have hlive : ∀ t ∈ liveTimers s c, (chDataOf s c).autoMessageJob = some t.id := by
    intro t ht
    unfold liveTimers at ht
    simp only [List.mem_filter, Bool.and_eq_true, beq_iff_eq] at ht
    obtain ⟨h1, h2, h3⟩ := ht
    rw [← h3]
    exact hjob t h1 h2
  have := length_le_one_of_nodup_const _ hn (by
    intro a ha b hb
    obtain ⟨t, ht, rfl⟩ := List.mem_map.mp ha
    obtain ⟨t1, ht1, rfl⟩ := List.mem_map.mp hb
    have h1 := hlive t ht
    have h2 := hlive t1 ht1
    rw [h1] at h2
    exact Option.some.inj h2)
  simpa using this

theorem old_timer_stopped (env : Env) (s : BotState) (hi : TimerInv s) (c : String)
    (t : CronTask) (ht : t ∈ liveTimers s c) (t1 : CronTask)
    (ht1 : t1 ∈ (startAutoMessages env s c).1.tasks) (hid : t1.id = t.id) :
    t1.running = false := by
  obtain ⟨hids, hjob⟩ := hi
  unfold liveTimers at ht
  simp only [List.mem_filter, Bool.and_eq_true, beq_iff_eq] at ht
  obtain ⟨h1, h2, h3⟩ := ht
  have hj : (chDataOf s c).autoMessageJob = some t.id := by
    rw [← h3]
    exact hjob t h1 h2
  have hlt : t.id < s.tasks.length := by
    have : t.id ∈ s.tasks.map (fun t => t.id) := List.mem_map.mpr ⟨t, h1, rfl⟩
    rw [hids] at this
    exact List.mem_range.mp this
  have hstop : ∀ t2 ∈ stopJob s.tasks (some t.id), t2.id = t.id → t2.running = false := by
    intro t2 h4 h5
    simp only [stopJob, stopTask] at h4
    obtain ⟨t0, _, rfl⟩ := List.mem_map.mp h4
    by_cases h6 : t0.id = t.id
    · simp [h6]
    · simp [h6] at h5
  unfold startAutoMessages at ht1
  simp only [getChannelData_snd, getChannelData_tasks, hj] at ht1
  split at ht1
  · simp only [saveChannelData, putChannelData, List.mem_append, List.mem_singleton] at ht1
    rcases ht1 with h4 | h4
    · exact hstop t1 h4 hid
    · subst h4
      simp only [stopJob_length] at hid
      omega
  · exact hstop t1 ht1 hid

end TGBot

namespace TGBot

theorem Reachable_run (env : Env) (disk : Disk) (events : List Event)
    (h : ∀ e ∈ events, e.wellFormed = true) : Reachable env disk (run env disk events) := by
  unfold run
  induction events using List.reverseRecOn with
  | nil => exact Reachable.start
  | append_singleton l e ih =>
    rw [List.foldl_append]
    exact Reachable.next _ e (ih (fun e1 h1 => h e1 (List.mem_append_left _ h1)))
      (h e (by simp))

/-- C1. In every reachable state each channel has at most one live timer; arming
any channel in such a state again leaves at most one, and every timer that was
live for the channel is stopped in the state after arming. -/
theorem C1_one_live_timer (env : Env) (disk : Disk) (s : BotState)
    (h : Reachable env disk s) (c : String) :
    (liveTimers s c).length ≤ 1 ∧
    (liveTimers (startAutoMessages env s c).1 c).length ≤ 1 ∧
    ∀ t ∈ liveTimers s c, ∀ t1 ∈ (startAutoMessages env s c).1.tasks,
      t1.id = t.id → t1.running = false :=
  have hi := TimerInv_of_Reachable env disk s h
  ⟨liveTimers_le_one s hi c,
    liveTimers_le_one _ (TimerInv_startAutoMessages env s c hi) c,
    fun t ht t1 ht1 hid => old_timer_stopped env s hi c t ht t1 ht1 hid⟩

theorem C1_one_live_timer_witness :
    Reachable exampleEnv noFiles (run exampleEnv noFiles armedTwice) ∧
    ((liveTimers (run exampleEnv noFiles armedTwice) "-1001").length ≤ 1 ∧
      (liveTimers (startAutoMessages exampleEnv (run exampleEnv noFiles armedTwice)
        "-1001").1 "-1001").length ≤ 1 ∧
      ∀ t ∈ liveTimers (run exampleEnv noFiles armedTwice) "-1001",
        ∀ t1 ∈ (startAutoMessages exampleEnv (run exampleEnv noFiles armedTwice)
          "-1001").1.tasks,
          t1.id = t.id → t1.running = false) :=
  ⟨Reachable_run _ _ _ (by decide),
    C1_one_live_timer _ _ _ (Reachable_run _ _ _ (by decide)) "-1001"⟩

/-- C2. When the body of the selected channel is empty, the operator-facing arm
answers with the rejection and installs nothing: the task registry, every
channel object (so the active flag and all other fields), the files and the
operator maps are as before. -/
theorem C2_arm_rejects_empty_body (env : Env) (s : BotState) (userId : Int) (c : String)
    (hsel : truthyOpt (s.selectedChannel.get userId) = some c)
    (hbody : (chDataOf s c).autoMessageConfig.messageText = "") :
    (action_start_auto_messages env s userId).2 =
      [Effect.reply Reply.cannotStartNoMessageText] ∧
    (action_start_auto_messages env s userId).1.tasks = s.tasks ∧
    (∀ c1, chDataOf (action_start_auto_messages env s userId).1 c1 = chDataOf s c1) ∧
    (action_start_auto_messages env s userId).1.disk = s.disk ∧
    (action_start_auto_messages env s userId).1.userStates = s.userStates ∧
    (action_start_auto_messages env s userId).1.buttonText = s.buttonText ∧
    (action_start_auto_messages env s userId).1.selectedChannel = s.selectedChannel ∧
    (action_start_auto_messages env s userId).1.userChannels = s.userChannels ∧
    (action_start_auto_messages env s userId).1.authenticatedUsers = s.authenticatedUsers := by
  unfold action_start_auto_messages
  simp [hsel, hbody, truthy]

theorem C2_arm_rejects_empty_body_witness :
    truthyOpt ((run exampleEnv noFiles (armedTwice.take 3)).selectedChannel.get 1) =
      some "-1001" ∧
    (chDataOf (run exampleEnv noFiles (armedTwice.take 3)) "-1001").autoMessageConfig.messageText
      = "" ∧
    (action_start_auto_messages exampleEnv (run exampleEnv noFiles (armedTwice.take 3)) 1).2 =
      [Effect.reply Reply.cannotStartNoMessageText] ∧
    (action_start_auto_messages exampleEnv (run exampleEnv noFiles (armedTwice.take 3)) 1).1.tasks
      = (run exampleEnv noFiles (armedTwice.take 3)).tasks :=
  ⟨by decide, by decide,
    (C2_arm_rejects_empty_body exampleEnv _ 1 "-1001" (by decide) (by decide)).1,
    (C2_arm_rejects_empty_body exampleEnv _ 1 "-1001" (by decide) (by decide)).2.1⟩

end TGBot

namespace TGBot

/-! ## Bulk deletion -/

/-- What the loop computes, in terms of the positions of the snapshot. -/
theorem bulkLoop_eq (c : String) (pinned : Option Nat) (delete : Nat → DeleteResult)
    (ids : List Nat) : ∀ (i : Nat) (acc : BulkAcc),
    bulkLoop c pinned delete i ids acc =
      { deletedCount := acc.deletedCount + successfulDeletes pinned delete i ids
        skippedCount := acc.skippedCount + (pinnedCount pinned ids +
          permanentFailures pinned delete i ids)
        deletedIds := acc.deletedIds ++ resolvedIds pinned delete i ids
        effects := acc.effects ++
          (ids.filter (fun m => pinned != some m)).map (Effect.deleteMessage c) } := by
  induction ids with
  | nil =>
    intro i acc
    cases pinned <;> simp [bulkLoop, successfulDeletes, permanentFailures, resolvedIds, pinnedCount]
  | cons m rest ih =>
    intro i acc
    unfold bulkLoop
    by_cases hp : pinned = some m
    · subst hp
      simp only [if_true, ih]
      simp [successfulDeletes, permanentFailures, resolvedIds, pinnedCount, bulkResolved]
      omega
    · have hc : pinnedCount pinned (m :: rest) = pinnedCount pinned rest := by
        cases pinned with
        | none => rfl
        | some p =>
          have : p ≠ m := fun h => hp (by rw [h])
          simp [pinnedCount, List.count_cons, Ne.symm this]
      simp only [hp, if_false]
      cases hd : delete i with
      | ok =>
        simp only [ih]
        simp [successfulDeletes, permanentFailures, resolvedIds, bulkResolved, hd, hp, hc,
          isUndeletable]
        omega
      | error d =>
        by_cases hu : isUndeletable (DeleteResult.error d) = true
        · simp only [hu, if_true, ih]
          simp [successfulDeletes, permanentFailures, resolvedIds, bulkResolved, hd, hp, hc, hu]
          omega
        · simp only [hu, if_false, ih]
          simp [successfulDeletes, permanentFailures, resolvedIds, bulkResolved, hd, hp, hc, hu]

theorem count_removeResolved (a : Nat) (ds : List Nat) : ∀ ids : List Nat,
    (removeResolved ids ds).count a = ids.count a - ds.count a := by
  induction ds with
  | nil => intro ids; simp [removeResolved]
  | cons d rest ih =>
    intro ids
    have h := ih (ids.erase d)
    unfold removeResolved at h ⊢
    rw [List.foldl_cons, h, List.count_erase, List.count_cons]
    by_cases hd : d = a
    · subst hd
      simp
      omega
    · simp [hd, Ne.symm hd]

theorem count_resolvedIds_pinned (p : Nat) (delete : Nat → DeleteResult) (ids : List Nat) :
    ∀ i, (resolvedIds (some p) delete i ids).count p = ids.count p := by
  induction ids with
  | nil => intro i; simp [resolvedIds]
  | cons m rest ih =>
    intro i
    unfold resolvedIds
    by_cases hm : p = m
    · subst hm
      simp [bulkResolved, ih]
    · split
      · simp [List.count_cons, Ne.symm hm, ih, hm]
      · simp [List.count_cons, Ne.symm hm, ih, hm]

theorem resolvedIds_all (pinned : Option Nat) (delete : Nat → DeleteResult) (ids : List Nat) :
    ∀ i, (∀ j m, ids[j]? = some m → bulkResolved pinned delete (i + j) m = true) →
      resolvedIds pinned delete i ids = ids := by
  induction ids with
  | nil => intro i _; rfl
  | cons m rest ih =>
    intro i h
    unfold resolvedIds
    have h0 := h 0 m (by simp)
    simp only [Nat.add_zero] at h0
    rw [if_pos h0, ih (i + 1)]
    intro j m1 hj
    have := h (j + 1) m1 (by simpa using hj)
    rwa [Nat.add_assoc, Nat.add_comm 1 j]

theorem removeResolved_self (ids : List Nat) : removeResolved ids ids = [] := by
  apply List.eq_nil_iff_forall_not_mem.mpr
  intro a ha
  have h := count_removeResolved a ids ids
  rw [Nat.sub_self] at h
  exact (List.count_eq_zero.mp h) ha

theorem bulkDelete_messageIds (s : BotState) (c : String) (o : BulkOutcome) :
    (chDataOf (bulkDelete s c o).1 c).messageIds =
      removeResolved (chDataOf s c).messageIds
        (resolvedIds (pinnedMessageId o) o.delete 0 (chDataOf s c).messageIds) := by
  unfold bulkDelete
  simp [chDataOf_chOf, putChannelData, chOf_set, bulkLoop_eq]

theorem bulkDelete_effects (s : BotState) (c : String) (o : BulkOutcome) :
    (bulkDelete s c o).2 =
      Effect.getChat c ::
        ((chDataOf s c).messageIds.filter (fun m => pinnedMessageId o != some m)).map
          (Effect.deleteMessage c) ++
      [Effect.reply (Reply.deletionComplete
        (successfulDeletes (pinnedMessageId o) o.delete 0 (chDataOf s c).messageIds)
        (pinnedCount (pinnedMessageId o) (chDataOf s c).messageIds +
          permanentFailures (pinnedMessageId o) o.delete 0 (chDataOf s c).messageIds)
        (chDataOf (bulkDelete s c o).1 c).messageIds.length)] := by
  rw [bulkDelete_messageIds]
  unfold bulkDelete
  simp [bulkLoop_eq]

/-- C3. Whatever the tracked ids and the outcomes of the remote calls, a bulk
deletion issues no `deleteMessage` for the id the pinned-message lookup
returned; that id is not tracked afterwards, and every position that held it
adds one to the count reported as skipped. -/
theorem C3_pinned_never_deleted (s : BotState) (userId : Int) (c : String) (o : BulkOutcome)
    (p : Nat) (hsel : truthyOpt (s.selectedChannel.get userId) = some c)
    (hp : pinnedMessageId o = some p) :
    (∀ chat, Effect.deleteMessage chat p ∉ (action_confirm_delete_all s userId o).2) ∧
    p ∉ (chDataOf (action_confirm_delete_all s userId o).1 c).messageIds ∧
    ∃ deleted remaining,
      Effect.reply (Reply.deletionComplete deleted
        ((chDataOf s c).messageIds.count p +
          permanentFailures (some p) o.delete 0 (chDataOf s c).messageIds) remaining) ∈
        (action_confirm_delete_all s userId o).2 := by
  unfold action_confirm_delete_all
  simp only [hsel]
  refine ⟨?_, ?_, ?_⟩
  · intro chat hmem
    rw [bulkDelete_effects, hp] at hmem
    simp at hmem
  · rw [bulkDelete_messageIds, hp]
    apply List.count_eq_zero.mp
    rw [count_removeResolved, count_resolvedIds_pinned, Nat.sub_self]
  · refine ⟨successfulDeletes (some p) o.delete 0 (chDataOf s c).messageIds,
      (chDataOf (bulkDelete s c o).1 c).messageIds.length, ?_⟩
    rw [bulkDelete_effects, hp]
    simp only [pinnedCount]
    simp

theorem C3_pinned_never_deleted_witness :
    truthyOpt ((run exampleEnv noFiles threePosts).selectedChannel.get 1) = some "-1001" ∧
    pinnedMessageId pinnedEleven = some 11 ∧
    (∀ chat, Effect.deleteMessage chat 11 ∉
      (action_confirm_delete_all (run exampleEnv noFiles threePosts) 1 pinnedEleven).2) ∧
    11 ∉ (chDataOf (action_confirm_delete_all (run exampleEnv noFiles threePosts) 1
      pinnedEleven).1 "-1001").messageIds :=
  ⟨by decide, by decide,
    (C3_pinned_never_deleted _ 1 "-1001" pinnedEleven 11 (by decide) (by decide)).1,
    (C3_pinned_never_deleted _ 1 "-1001" pinnedEleven 11 (by decide) (by decide)).2.1⟩

theorem bulkDelete_selectedChannel (s : BotState) (c : String) (o : BulkOutcome) :
    (bulkDelete s c o).1.selectedChannel = s.selectedChannel := by
  unfold bulkDelete
  simp [putChannelData]

theorem bulkDelete_empty_of_permanent (s : BotState) (c : String) (o : BulkOutcome)
    (h : ∀ j m, (chDataOf s c).messageIds[j]? = some m → pinnedMessageId o ≠ some m →
      o.delete j = DeleteResult.ok ∨ isUndeletable (o.delete j) = true) :
    (chDataOf (bulkDelete s c o).1 c).messageIds = [] := by
  rw [bulkDelete_messageIds, resolvedIds_all, removeResolved_self]
  intro j m hj
  rw [Nat.zero_add]
  by_cases hp : pinnedMessageId o = some m
  · simp [bulkResolved, hp]
  · rcases h j m hj hp with h1 | h1
    · simp [bulkResolved, h1]
    · simp [bulkResolved, h1]

/-- C7. If every delete that fails in the first bulk deletion fails for good, the
tracked sequence is empty after that run, and it is still empty after a second
run that follows with no post in between, whatever the outcomes of the second. -/
theorem C7_bulk_delete_converges (s : BotState) (userId : Int) (c : String)
    (o1 o2 : BulkOutcome) (hsel : truthyOpt (s.selectedChannel.get userId) = some c)
    (hperm : ∀ j m, (chDataOf s c).messageIds[j]? = some m → pinnedMessageId o1 ≠ some m →
      o1.delete j = DeleteResult.ok ∨ isUndeletable (o1.delete j) = true) :
    (chDataOf (action_confirm_delete_all s userId o1).1 c).messageIds = [] ∧
    (chDataOf (action_confirm_delete_all (action_confirm_delete_all s userId o1).1
      userId o2).1 c).messageIds = [] := by
  have h1 : action_confirm_delete_all s userId o1 = bulkDelete s c o1 := by
    simp only [action_confirm_delete_all, hsel]
  have hempty := bulkDelete_empty_of_permanent s c o1 hperm
  have h2 : action_confirm_delete_all (bulkDelete s c o1).1 userId o2 =
      bulkDelete (bulkDelete s c o1).1 c o2 := by
    simp only [action_confirm_delete_all, bulkDelete_selectedChannel, hsel]
  rw [h1, h2]
  refine ⟨hempty, ?_⟩
  apply bulkDelete_empty_of_permanent
  intro j m hj
  rw [hempty] at hj
  simp at hj

theorem C7_bulk_delete_converges_witness :
    truthyOpt ((run exampleEnv noFiles threePosts).selectedChannel.get 1) = some "-1001" ∧
    (∀ j m, (chDataOf (run exampleEnv noFiles threePosts) "-1001").messageIds[j]? = some m →
      pinnedMessageId pinnedEleven ≠ some m →
      pinnedEleven.delete j = DeleteResult.ok ∨
        isUndeletable (pinnedEleven.delete j) = true) ∧
    (chDataOf (action_confirm_delete_all (run exampleEnv noFiles threePosts) 1
      pinnedEleven).1 "-1001").messageIds = [] ∧
    (chDataOf (action_confirm_delete_all (action_confirm_delete_all
      (run exampleEnv noFiles threePosts) 1 pinnedEleven).1 1 pinnedEleven).1
      "-1001").messageIds = [] :=
  have hperm : ∀ j m, (chDataOf (run exampleEnv noFiles threePosts) "-1001").messageIds[j]? =
      some m → pinnedMessageId pinnedEleven ≠ some m →
      pinnedEleven.delete j = DeleteResult.ok ∨
        isUndeletable (pinnedEleven.delete j) = true := by
    intro j m _ _
    by_cases hj : j = 2
    · subst hj
      right
      decide
    · left
      simp [pinnedEleven, hj]
  ⟨by decide, hperm,
    C7_bulk_delete_converges _ 1 "-1001" pinnedEleven pinnedEleven (by decide) hperm⟩

/-- The run of `pinnedEleven` on the three tracked posts. -/
theorem bulk_delete_example :
    (action_confirm_delete_all (run exampleEnv noFiles threePosts) 1 pinnedEleven).2 =
      [Effect.getChat "-1001", Effect.deleteMessage "-1001" 10,
        Effect.deleteMessage "-1001" 12, Effect.reply (Reply.deletionComplete 1 2 0)] := by
  decide

end TGBot

namespace TGBot

/-! ## Moderation pipeline -/

theorem on_channel_post_messageIds (env : Env) (s : BotState) (post : ChannelPost)
    (o : PostOutcome) :
    (chDataOf (on_channel_post env s post o).1 (toString post.chat_id)).messageIds =
      trackMessageId (chDataOf s (toString post.chat_id)).messageIds post.message_id := by
  unfold on_channel_post
  simp

theorem trackMessageId_length (ids : List Nat) (m : Nat) (h : ids.length ≤ 5000) :
    (trackMessageId ids m).length ≤ 5000 := by
  unfold trackMessageId
  split
  · exact h
  · split
    · simp
      omega
    · rename_i h1
      simpa using h1

theorem trackMessageId_full (ids : List Nat) (m : Nat) (h : ids.length = 5000)
    (hm : m ∉ ids) : trackMessageId ids m = ids.tail ++ [m] := by
  unfold trackMessageId
  have hne : ids ≠ [] := by
    intro h0
    rw [h0] at h
    simp at h
  simp [hm, h, List.tail_append_of_ne_nil hne]

/-- C4. A channel that tracks at most 5000 ids tracks at most 5000 after the
pipeline has run on a post; when it tracks exactly 5000 and the id of the post
is new, the first id is dropped, the others keep their order and the new id is
last. -/
theorem C4_tracked_ids_bounded (env : Env) (s : BotState) (post : ChannelPost)
    (o : PostOutcome)
    (h : (chDataOf s (toString post.chat_id)).messageIds.length ≤ 5000) :
    (chDataOf (on_channel_post env s post o).1 (toString post.chat_id)).messageIds.length
      ≤ 5000 ∧
    ((chDataOf s (toString post.chat_id)).messageIds.length = 5000 →
      post.message_id ∉ (chDataOf s (toString post.chat_id)).messageIds →
      (chDataOf (on_channel_post env s post o).1 (toString post.chat_id)).messageIds =
        (chDataOf s (toString post.chat_id)).messageIds.tail ++ [post.message_id]) := by
  rw [on_channel_post_messageIds]
  exact ⟨trackMessageId_length _ _ h, fun h1 h2 => trackMessageId_full _ _ h1 h2⟩

theorem fullChannel_messageIds :
    (chDataOf fullChannel (toString (barePost 5000).chat_id)).messageIds = List.range 5000 := by
  have h : toString (barePost 5000).chat_id = "-1001" := by decide
  rw [h]
  simp [fullChannel]

theorem C4_tracked_ids_bounded_witness :
    (chDataOf fullChannel (toString (barePost 5000).chat_id)).messageIds.length ≤ 5000 ∧
    (chDataOf (on_channel_post exampleEnv fullChannel (barePost 5000) noTranslation).1
      (toString (barePost 5000).chat_id)).messageIds = (List.range 5000).tail ++ [5000] :=
  have hlen : (chDataOf fullChannel (toString (barePost 5000).chat_id)).messageIds.length
      ≤ 5000 := by
    rw [fullChannel_messageIds]
    simp
  ⟨hlen, by
    have h := (C4_tracked_ids_bounded exampleEnv fullChannel (barePost 5000) noTranslation
      hlen).2
    rw [fullChannel_messageIds] at h
    exact h (by simp) (by simp [barePost])⟩

theorem on_channel_post_effects (env : Env) (s : BotState) (post : ChannelPost)
    (o : PostOutcome) :
    (on_channel_post env s post o).2 =
      moderationEffects env (chDataOf s (toString post.chat_id)).translationEnabled post o :=
  rfl

theorem mem_lengthPolicy (c : String) (m : Nat) (text : Option String) (e : Effect) :
    e ∈ lengthPolicy c m text ↔
      e = Effect.deleteMessage c m ∧ 90 < jsLength (text.getD "") := by
  unfold lengthPolicy
  cases text with
  | none => simp [truthyOpt, jsLength]
  | some t =>
    by_cases ht : truthy t = true
    · simp only [truthyOpt, ht, if_true, Option.getD_some]
      split <;> simp_all
    · have h0 : t = "" := by simpa [truthy] using ht
      subst h0
      simp [truthyOpt, truthy, jsLength]

/-- The pipeline on a post it does not replace: the translation request, if one
is made, and the length policy. -/
theorem moderationEffects_not_replaced (env : Env) (te : Bool) (post : ChannelPost)
    (o : PostOutcome)
    (h : te = false ∨ ∃ r, o.translation = some r ∧
      ∀ t, truthyOpt (postText post) = some t → isNonEnglish env r t = false) :
    moderationEffects env te post o =
      (match truthyOpt (postText post) with
        | some t => if te then [Effect.translate t] else []
        | none => []) ++
      lengthPolicy (toString post.chat_id) post.message_id (postText post) := by
  unfold moderationEffects
  dsimp only
  cases ht : truthyOpt (postText post) with
  | none => simp
  | some t =>
    rcases h with h | ⟨r, hr, hn⟩
    · subst h
      simp
    · cases te with
      | false => simp
      | true => simp [hr, hn t ht]

/-- C6. On a post the pipeline does not replace (translation moderation is off
for the channel, or it is on and the translation that came back is judged
English), a delete of the post is issued exactly when the text (the caption
when there is no text) is longer than 90 UTF-16 units. -/
theorem C6_length_policy (env : Env) (s : BotState) (post : ChannelPost) (o : PostOutcome)
    (h : (chDataOf s (toString post.chat_id)).translationEnabled = false ∨
      ∃ r, o.translation = some r ∧
        ∀ t, truthyOpt (postText post) = some t → isNonEnglish env r t = false) :
    Effect.deleteMessage (toString post.chat_id) post.message_id ∈
        (on_channel_post env s post o).2 ↔
      90 < jsLength ((postText post).getD "") := by
  rw [on_channel_post_effects, moderationEffects_not_replaced env _ post o h,
    List.mem_append, mem_lengthPolicy]
  constructor
  · rintro (h1 | h1)
    · revert h1
      cases truthyOpt (postText post) with
      | none => simp
      | some t => split <;> simp
    · exact h1.2
  · intro h1
    exact Or.inr ⟨rfl, h1⟩

theorem C6_length_policy_witness :
    ((chDataOf (run exampleEnv noFiles threePosts)
        (toString (textPost 13 text91).chat_id)).translationEnabled = false ∨
      ∃ r, noTranslation.translation = some r ∧
        ∀ t, truthyOpt (postText (textPost 13 text91)) = some t →
          isNonEnglish exampleEnv r t = false) ∧
    (Effect.deleteMessage (toString (textPost 13 text91).chat_id) (textPost 13 text91).message_id
        ∈ (on_channel_post exampleEnv (run exampleEnv noFiles threePosts) (textPost 13 text91)
          noTranslation).2 ↔
      90 < jsLength ((postText (textPost 13 text91)).getD "")) :=
  ⟨Or.inl (by decide),
    C6_length_policy exampleEnv _ (textPost 13 text91) noTranslation (Or.inl (by decide))⟩

/-- The boundary of the length policy: 91 units are deleted, 90 are kept. -/
theorem length_policy_boundary :
    (on_channel_post exampleEnv (run exampleEnv noFiles threePosts) (textPost 13 text91)
      noTranslation).2 = [Effect.deleteMessage "-1001" 13] ∧
    (on_channel_post exampleEnv (run exampleEnv noFiles threePosts)
      (textPost 13 (String.mk (List.replicate 90 (Char.ofNat 97)))) noTranslation).2 = [] := by
  constructor <;> decide

/-- C5, as stated, fails: with translation moderation on, a text of 91 letters
that the service returns unchanged with the tag `en` is deleted. -/
theorem C5_counterexample :
    (chDataOf (run exampleEnv noFiles translationOn) "-1001").translationEnabled = true ∧
    (sameEnglish text91).translation =
      some { text := some text91, fromLanguageIso := some (some "en") } ∧
    Effect.deleteMessage "-1001" 13 ∈
      (on_channel_post exampleEnv (run exampleEnv noFiles translationOn) (textPost 13 text91)
        (sameEnglish text91)).2 := by
  refine ⟨by decide, rfl, by decide⟩

/-- C5, amended. With translation moderation on, a post whose translation comes
back with the tag `en` and with a text equal to the original after lower-casing
and trimming is not replaced: the pipeline requests the translation and then
applies the length policy only, so it issues no delete when the text has at most
90 UTF-16 units, and exactly one, of the post, when it has more. -/
theorem C5_english_post_kept (env : Env) (s : BotState) (post : ChannelPost) (o : PostOutcome)
    (r : TranslateResult) (t rt : String)
    (hon : (chDataOf s (toString post.chat_id)).translationEnabled = true)
    (ht : truthyOpt (postText post) = some t)
    (hr : o.translation = some r)
    (hiso : r.fromLanguageIso = some (some "en"))
    (hrt : r.text = some rt)
    (heq : jsTrim (env.toLowerCase rt) = jsTrim (env.toLowerCase t)) :
    (jsLength t ≤ 90 → (on_channel_post env s post o).2 = [Effect.translate t]) ∧
    (90 < jsLength t → (on_channel_post env s post o).2 =
      [Effect.translate t, Effect.deleteMessage (toString post.chat_id) post.message_id]) := by
  have hn : ∀ t1, truthyOpt (postText post) = some t1 → isNonEnglish env r t1 = false := by
    intro t1 ht1
    rw [ht] at ht1
    cases ht1
    unfold isNonEnglish
    rw [hiso, hrt]
    by_cases h1 : truthy rt = true
    · simp [truthyOpt, h1, heq]
    · simp [truthyOpt, h1]
  have hpt : ∃ t0, postText post = some t0 ∧ truthy t0 = true ∧ t0 = t := by
    cases hp : postText post with
    | none => rw [hp] at ht; simp [truthyOpt] at ht
    | some t0 =>
      rw [hp] at ht
      by_cases h2 : truthy t0 = true
      · exact ⟨t0, rfl, h2, by simpa [truthyOpt, h2] using ht⟩
      · simp [truthyOpt, h2] at ht
  obtain ⟨t0, hp0, htr, rfl⟩ := hpt
  rw [on_channel_post_effects, moderationEffects_not_replaced env _ post o (Or.inr ⟨r, hr, hn⟩),
    ht, hon]
  simp only [if_true, lengthPolicy, hp0, truthyOpt, htr]
  constructor
  · intro h1
    simp [Nat.not_lt.mpr h1]
  · intro h1
    simp [h1]

theorem C5_english_post_kept_witness :
    (chDataOf (run exampleEnv noFiles translationOn)
      (toString (textPost 13 "Hello").chat_id)).translationEnabled = true ∧
    truthyOpt (postText (textPost 13 "Hello")) = some "Hello" ∧
    jsTrim (exampleEnv.toLowerCase "hello ") = jsTrim (exampleEnv.toLowerCase "Hello") ∧
    (on_channel_post exampleEnv (run exampleEnv noFiles translationOn) (textPost 13 "Hello")
      (sameEnglish "hello ")).2 = [Effect.translate "Hello"] :=
  ⟨by decide, by decide, by decide,
    (C5_english_post_kept exampleEnv _ (textPost 13 "Hello") (sameEnglish "hello ")
      { text := some "hello ", fromLanguageIso := some (some "en") } "Hello" "hello "
      (by decide) (by decide) rfl rfl rfl (by decide)).1 (by decide)⟩

/-- The comparison of the pipeline trims, it does not ignore inner whitespace:
`a b` returned as `ab` with the tag `en` is judged non-English and replaced. -/
theorem inner_whitespace_example :
    (on_channel_post exampleEnv (run exampleEnv noFiles translationOn) (textPost 13 "a b")
      (sameEnglish "ab")).2 =
      [Effect.translate "a b", Effect.deleteMessage "-1001" 13,
        Effect.sendMessage "-1001" "ab" false []] := by
  decide

end TGBot

namespace TGBot

/-! ## Conversation collector -/

theorem not_startsWith_slash_of_urlPattern (u : String) (h : urlPattern u = true) :
    jsStartsWith u "/" = false := by
  unfold urlPattern at h
  unfold jsStartsWith
  have h1 : "/".toList = ['/'] := rfl
  rw [h1]
  split at h
  · rename_i h2
    rw [h2]
    simp [List.isPrefixOf]
  · rename_i h2
    rw [h2]
    simp [List.isPrefixOf]
  · cases h

/-- C8, as stated, fails: with a label left over from an unfinished flow, the
flow restarted with `Buy` and `https://x.com` adds no button and leaves the
operator in the first step with the old label. -/
theorem C8_counterexample :
    (run exampleEnv noFiles labelStored).authenticatedUsers.contains 1 = true ∧
    truthyOpt ((run exampleEnv noFiles labelStored).selectedChannel.get 1) = some "-1001" ∧
    (chDataOf (urlButtonFlow exampleEnv (run exampleEnv noFiles labelStored) 1
      (plainText "Buy") (plainText "https://x.com") okText okText)
      "-1001").autoMessageConfig.urlButtons = [] ∧
    (urlButtonFlow exampleEnv (run exampleEnv noFiles labelStored) 1
      (plainText "Buy") (plainText "https://x.com") okText okText).userStates.get 1 =
      some Step.awaiting_url_button_text ∧
    (urlButtonFlow exampleEnv (run exampleEnv noFiles labelStored) 1
      (plainText "Buy") (plainText "https://x.com") okText okText).buttonText.get 1 =
      some "Old" := by
  decide

/-- C8, amended. For a logged-in operator with a selected channel and no label
stored, pressing "Add URL Button", sending a non-empty label that does not start
with `/` and then a text that matches the URL pattern appends the button with
that label and URL to the buttons of the channel, which are otherwise unchanged,
and leaves the operator with no pending step and no stored label. -/
theorem C8_url_button_round_trip (env : Env) (s : BotState) (userId : Int) (c : String)
    (label url : TextMessage) (o1 o2 : TextOutcome)
    (hauth : s.authenticatedUsers.contains userId = true)
    (hsel : truthyOpt (s.selectedChannel.get userId) = some c)
    (hfresh : s.buttonText.get userId = none)
    (hlabel : label.text ≠ "")
    (hslash : jsStartsWith label.text "/" = false)
    (hurl : urlPattern url.text = true) :
    (chDataOf (urlButtonFlow env s userId label url o1 o2) c).autoMessageConfig.urlButtons =
      (chDataOf s c).autoMessageConfig.urlButtons ++ [{ text := label.text, url := url.text }] ∧
    (urlButtonFlow env s userId label url o1 o2).userStates.get userId = none ∧
    (urlButtonFlow env s userId label url o1 o2).buttonText.get userId = none := by
  have hs2 := not_startsWith_slash_of_urlPattern url.text hurl
  have hmem : userId ∈ s.authenticatedUsers := by simpa using hauth
  have hstep1 : (on_text env (on_action env s userId Action.add_url_button) userId label o1).1 =
      { s with
        buttonText := s.buttonText.set userId label.text
        userStates := (s.userStates.set userId Step.awaiting_url_button_text).set userId
          Step.awaiting_url_button_url } := by
    simp [on_text, on_action, beginStep, hslash, hmem, JsMap.get_set, urlButtonTextStep,
      JsMap.has, hfresh]
  unfold urlButtonFlow
  rw [hstep1]
  have hbt : truthyOpt (some label.text) = some label.text := by
    simp [truthyOpt, truthy, hlabel]
  simp [on_text, hs2, hmem, JsMap.get_set, urlButtonUrlStep, hsel, hbt, hurl,
    clearConversation, saveChannelData, putChannelData, chDataOf_chOf, chOf_set,
    JsMap.get_delete]

theorem C8_url_button_round_trip_witness :
    (run exampleEnv noFiles (labelStored.take 3)).authenticatedUsers.contains 1 = true ∧
    truthyOpt ((run exampleEnv noFiles (labelStored.take 3)).selectedChannel.get 1) =
      some "-1001" ∧
    (run exampleEnv noFiles (labelStored.take 3)).buttonText.get 1 = none ∧
    (plainText "Buy").text ≠ "" ∧
    jsStartsWith (plainText "Buy").text "/" = false ∧
    urlPattern (plainText "https://x.com").text = true ∧
    (chDataOf (urlButtonFlow exampleEnv (run exampleEnv noFiles (labelStored.take 3)) 1
      (plainText "Buy") (plainText "https://x.com") okText okText)
      "-1001").autoMessageConfig.urlButtons =
      (chDataOf (run exampleEnv noFiles (labelStored.take 3))
        "-1001").autoMessageConfig.urlButtons ++ [{ text := "Buy", url := "https://x.com" }] :=
  ⟨by decide, by decide, by decide, by decide, by decide, by decide,
    (C8_url_button_round_trip exampleEnv _ 1 "-1001" (plainText "Buy")
      (plainText "https://x.com") okText okText (by decide) (by decide) (by decide)
      (by decide) (by decide) (by decide)).1⟩

/-- Why the label must not start with `/`: such a text is passed on as a command,
so the flow stays in its first step and the URL becomes the label. -/
theorem url_button_flow_slash_label :
    (chDataOf (urlButtonFlow exampleEnv (run exampleEnv noFiles (labelStored.take 3)) 1
      (plainText "/buy") (plainText "https://x.com") okText okText)
      "-1001").autoMessageConfig.urlButtons = [] ∧
    (urlButtonFlow exampleEnv (run exampleEnv noFiles (labelStored.take 3)) 1
      (plainText "/buy") (plainText "https://x.com") okText okText).buttonText.get 1 =
      some "https://x.com" := by
  decide

/-- Why the URL must match the whole pattern: the bare scheme `https://` starts
with the prefix, yet it is refused and the flow stays in the URL step. -/
theorem url_button_flow_bare_scheme :
    (chDataOf (urlButtonFlow exampleEnv (run exampleEnv noFiles (labelStored.take 3)) 1
      (plainText "Buy") (plainText "https://") okText okText)
      "-1001").autoMessageConfig.urlButtons = [] ∧
    (urlButtonFlow exampleEnv (run exampleEnv noFiles (labelStored.take 3)) 1
      (plainText "Buy") (plainText "https://") okText okText).userStates.get 1 =
      some Step.awaiting_url_button_url := by
  decide

/-! ## Timer callback -/

/-- C9. For a channel with delete-previous on, a non-empty body and no
last-delivered id, when the sends succeed and the first returns a (non-zero)
message id `m1`: the first firing issues one send of the body and no delete and
records `m1`; the second issues the delete of `m1`, then one send, and records
the id the second send returns. -/
theorem C9_first_two_firings (s : BotState) (c : String) (o1 o2 : TickOutcome) (m1 m2 : Nat)
    (hdel : (chDataOf s c).autoMessageConfig.deletePrevious = true)
    (hbody : (chDataOf s c).autoMessageConfig.messageText ≠ "")
    (hlast : (chDataOf s c).lastMessageId = none)
    (h1 : o1.sendResult = some m1) (h2 : o2.sendResult = some m2) (hm1 : m1 ≠ 0) :
    (autoMessageTick s c o1).2 =
      [Effect.sendMessage c (chDataOf s c).autoMessageConfig.messageText true
        (chDataOf s c).autoMessageConfig.urlButtons] ∧
    (chDataOf (autoMessageTick s c o1).1 c).lastMessageId = some m1 ∧
    (autoMessageTick (autoMessageTick s c o1).1 c o2).2 =
      [Effect.deleteMessage c m1,
        Effect.sendMessage c (chDataOf s c).autoMessageConfig.messageText true
          (chDataOf s c).autoMessageConfig.urlButtons] ∧
    (chDataOf (autoMessageTick (autoMessageTick s c o1).1 c o2).1 c).lastMessageId =
      some m2 := by
  have htr : truthy (chDataOf s c).autoMessageConfig.messageText = true := by
    simpa [truthy] using hbody
  have hs1 : autoMessageTick s c o1 =
      (putChannelData s c { chDataOf s c with lastMessageId := some m1 },
        [Effect.sendMessage c (chDataOf s c).autoMessageConfig.messageText true
          (chDataOf s c).autoMessageConfig.urlButtons]) := by
    simp [autoMessageTick, htr, h1, tickDelete, hlast]
  rw [hs1]
  simp [autoMessageTick, htr, h2, tickDelete, hdel, hm1]

theorem C9_first_two_firings_witness :
    (chDataOf (run exampleEnv noFiles (armedTwice.take 6))
      "-1001").autoMessageConfig.deletePrevious = true ∧
    (chDataOf (run exampleEnv noFiles (armedTwice.take 6))
      "-1001").autoMessageConfig.messageText ≠ "" ∧
    (chDataOf (run exampleEnv noFiles (armedTwice.take 6)) "-1001").lastMessageId = none ∧
    (autoMessageTick (autoMessageTick (run exampleEnv noFiles (armedTwice.take 6)) "-1001"
      (sent 100)).1 "-1001" (sent 101)).2 =
      [Effect.deleteMessage "-1001" 100,
        Effect.sendMessage "-1001" (chDataOf (run exampleEnv noFiles (armedTwice.take 6))
          "-1001").autoMessageConfig.messageText true
          (chDataOf (run exampleEnv noFiles (armedTwice.take 6))
            "-1001").autoMessageConfig.urlButtons] :=
  ⟨by decide, by decide, by decide,
    (C9_first_two_firings _ "-1001" (sent 100) (sent 101) 100 101 (by decide) (by decide)
      (by decide) rfl rfl (by decide)).2.2.1⟩

/-- The two firings of the scenario, evaluated: body `Hi`, ids 100 and 101. -/
theorem two_firings_example :
    (autoMessageTick (run exampleEnv noFiles (armedTwice.take 6)) "-1001" (sent 100)).2 =
      [Effect.sendMessage "-1001" "Hi" true []] ∧
    (autoMessageTick (autoMessageTick (run exampleEnv noFiles (armedTwice.take 6)) "-1001"
      (sent 100)).1 "-1001" (sent 101)).2 =
      [Effect.deleteMessage "-1001" 100, Effect.sendMessage "-1001" "Hi" true []] := by
  constructor <;> decide

end TGBot

namespace TGBot

/-! ## Handlers that leave the scheduler alone -/

theorem Framed.clearStep {P : BotState → Prop} (hF : Framed P) (s : BotState) (u : Int) (h : P s) :
    P (clearStep s u) :=
  hF.other s _ rfl rfl rfl h

theorem Framed.clearConversation {P : BotState → Prop} (hF : Framed P) (s : BotState) (u : Int) (h : P s) :
    P (clearConversation s u) :=
  hF.other s _ rfl rfl rfl h

theorem Framed.beginStep {P : BotState → Prop} (hF : Framed P) (s : BotState) (u : Int) (st : Step) (h : P s) :
    P (beginStep s u st) :=
  hF.other s _ rfl rfl rfl h

theorem Framed.command_start {P : BotState → Prop} (hF : Framed P) (s : BotState) (u : Int) (h : P s) :
    P (command_start s u) := by
  unfold TGBot.command_start
  repeat' split
  all_goals first | exact h | exact hF.other s _ rfl rfl rfl h

theorem Framed.command_menu {P : BotState → Prop} (hF : Framed P) (s : BotState) (u : Int) (h : P s) :
    P (command_menu s u) := by
  unfold TGBot.command_menu
  split
  · exact h
  · exact hF.clearConversation _ _ h

theorem Framed.on_channel_post {P : BotState → Prop} (hF : Framed P) (env : Env) (s : BotState)
    (post : ChannelPost) (o : PostOutcome) (h : P s) :
    P (on_channel_post env s post o).1 :=
  hF.put _ _ _ rfl rfl rfl h

theorem Framed.bulkDelete {P : BotState → Prop} (hF : Framed P) (s : BotState) (c : String) (o : BulkOutcome)
    (h : P s) : P (bulkDelete s c o).1 := by
  unfold TGBot.bulkDelete
  exact hF.put _ _ _ (by simp [chDataOf_chOf]) (by simp [chDataOf_chOf])
    (by simp [chDataOf_chOf]) (hF.get _ _ h)

theorem Framed.confirm_delete_all {P : BotState → Prop} (hF : Framed P) (s : BotState) (u : Int)
    (o : BulkOutcome) (h : P s) : P (action_confirm_delete_all s u o).1 := by
  unfold action_confirm_delete_all
  split
  · exact h
  · exact hF.bulkDelete _ _ _ h

theorem Framed.autoMessageTick {P : BotState → Prop} (hF : Framed P) (s : BotState) (c : String)
    (o : TickOutcome) (h : P s) : P (autoMessageTick s c o).1 := by
  unfold TGBot.autoMessageTick
  dsimp only
  repeat' split
  all_goals first | exact h | exact hF.put _ _ _ rfl rfl rfl h

theorem Framed.loadChannelAdmins {P : BotState → Prop} (hF : Framed P) (env : Env) (s : BotState) (c : String)
    (admins : Option (List (Option String × Int))) (h : P s) :
    P (loadChannelAdmins env s c admins) := by
  unfold TGBot.loadChannelAdmins
  split
  · exact h
  · exact hF.put _ _ _ rfl rfl rfl h

theorem Framed.resolveUserIdentifier {P : BotState → Prop} (hF : Framed P) (env : Env) (s : BotState)
    (t c : String) (h : P s) : P (resolveUserIdentifier env s t c).1 := by
  unfold TGBot.resolveUserIdentifier
  dsimp only
  split
  · exact h
  · exact hF.get _ _ h

theorem Framed.targetStep {P : BotState → Prop} (hF : Framed P) (env : Env) (s : BotState) (u : Int)
    (text : String) (step : Step) (call : String → Int → Effect) (o : TextOutcome)
    (h : P s) : P (targetStep env s u text step call o).1 := by
  unfold TGBot.targetStep
  split
  · exact h
  · rename_i c _
    have h1 := hF.resolveUserIdentifier env s text c h
    split
    · rename_i s1 heq
      rw [heq] at h1
      exact hF.clearStep _ _ h1
    · rename_i s1 target heq
      rw [heq] at h1
      split <;> exact hF.clearStep _ _ h1

theorem Framed.simpleStep {P : BotState → Prop} (hF : Framed P) (s : BotState) (u : Int) (step : Step)
    (call : String → Effect) (o : TextOutcome) (h : P s) :
    P (simpleStep s u step call o).1 := by
  unfold TGBot.simpleStep
  repeat' split
  all_goals first | exact h | exact hF.clearStep _ _ h

theorem Framed.addChannel {P : BotState → Prop} (hF : Framed P) (env : Env) (s : BotState) (u : Int) (c : String)
    (admins : Option (List (Option String × Int))) (h : P s) :
    P (addChannel env s u c admins) := by
  unfold TGBot.addChannel
  dsimp only
  refine hF.clearStep _ _ (hF.loadChannelAdmins _ _ _ _ ?_)
  split <;> exact hF.other s _ rfl rfl rfl h

theorem Framed.channelForwardStep {P : BotState → Prop} (hF : Framed P) (env : Env) (s : BotState) (u : Int)
    (msg : TextMessage) (o : TextOutcome) (h : P s) :
    P (channelForwardStep env s u msg o).1 := by
  unfold TGBot.channelForwardStep
  dsimp only
  repeat' split
  all_goals first
    | exact h
    | exact hF.addChannel _ _ _ _ _ h

theorem Framed.urlButtonTextStep {P : BotState → Prop} (hF : Framed P) (s : BotState) (u : Int) (text : String)
    (h : P s) : P (urlButtonTextStep s u text).1 := by
  unfold TGBot.urlButtonTextStep
  split
  · exact hF.other s _ rfl rfl rfl h
  · exact h

theorem Framed.urlButtonUrlStep {P : BotState → Prop} (hF : Framed P) (s : BotState) (u : Int) (text : String)
    (h : P s) : P (urlButtonUrlStep s u text).1 := by
  unfold TGBot.urlButtonUrlStep
  dsimp only
  repeat' split
  all_goals first
    | exact h
    | exact hF.clearConversation _ _ (hF.save _ (hF.put _ _ _ rfl rfl rfl h))

/-- The text handler keeps a framed property as soon as the step that sets the
message body does. -/
theorem Framed.on_text {P : BotState → Prop} (hF : Framed P) (env : Env) (s : BotState) (u : Int)
    (msg : TextMessage) (o : TextOutcome)
    (hbody : P s → P (autoMessageTextStep s u msg.text).1) (h : P s) :
    P (on_text env s u msg o).1 := by
  unfold TGBot.on_text
  split
  · exact h
  · split
    · split
      · exact hF.other s _ rfl rfl rfl h
      · exact h
    · split
      · exact h
      · exact hF.channelForwardStep _ _ _ _ _ h
      · exact hF.simpleStep _ _ _ _ _ h
      · exact hF.simpleStep _ _ _ _ _ h
      · exact hF.targetStep _ _ _ _ _ _ _ h
      · exact hF.targetStep _ _ _ _ _ _ _ h
      · exact hF.targetStep _ _ _ _ _ _ _ h
      · exact hF.targetStep _ _ _ _ _ _ _ h
      · exact hF.targetStep _ _ _ _ _ _ _ h
      · exact hF.targetStep _ _ _ _ _ _ _ h
      · exact hbody h
      · exact hF.urlButtonTextStep _ _ _ h
      · exact hF.urlButtonUrlStep _ _ _ h

theorem Framed.update_config {P : BotState → Prop} (hF : Framed P) (s : BotState) (c : String)
    (cfg : AutoMessageConfig) (tr : Bool)
    (h1 : cfg.isActive = (chDataOf s c).autoMessageConfig.isActive)
    (h2 : cfg.messageText = (chDataOf s c).autoMessageConfig.messageText) (h : P s) :
    P (saveChannelData (putChannelData s c
      { chDataOf s c with autoMessageConfig := cfg, translationEnabled := tr })) :=
  hF.save _ (hF.put _ _ _ rfl h1 h2 h)

/-- The callback queries keep a framed property as soon as the four that drive
the scheduler do. -/
theorem Framed.on_action {P : BotState → Prop} (hF : Framed P) (env : Env) (s : BotState) (u : Int) (a : Action)
    (hremove : ∀ c, P s → P (action_remove_channel s u c))
    (hinterval : ∀ e, P s → P (action_interval env s u e))
    (hstart : P s → P (action_start_auto_messages env s u).1)
    (hstop : P s → P (action_stop_auto_messages s u)) (h : P s) :
    P (on_action env s u a) := by
  cases a
  case remove_channel c => exact hremove c h
  case interval e => exact hinterval e h
  case start_auto_messages => exact hstart h
  case stop_auto_messages => exact hstop h
  all_goals
    simp only [TGBot.on_action, action_select_channel, action_menu, action_menu_auto_messages,
      action_menu_translation, action_clear_url_buttons, action_toggle_delete_previous,
      action_toggle_translation, action_begin, action_read_channel]
    repeat' split
    all_goals first
      | exact h
      | exact hF.other s _ rfl rfl rfl h
      | exact hF.get _ _ h
      | exact hF.get _ _ (hF.other s _ rfl rfl rfl h)
      | exact hF.update_config _ _ _ _ rfl rfl h

end TGBot

namespace TGBot

/-! ## Keys of a map -/

theorem JsMap.get_eq_none_iff {K V : Type} [DecidableEq K] (m : JsMap K V) (k : K) :
    JsMap.get m k = none ↔ k ∉ m.map Prod.fst := by
  induction m with
  | nil => simp [JsMap.get]
  | cons p rest ih =>
    obtain ⟨k1, v1⟩ := p
    by_cases h : k1 = k
    · simp [JsMap.get, h]
    · simp [JsMap.get, h, ih, Ne.symm h]

theorem JsMap.keys_set {K V : Type} [DecidableEq K] (m : JsMap K V) (k : K) (v : V) :
    (JsMap.set m k v).map Prod.fst =
      if k ∈ m.map Prod.fst then m.map Prod.fst else m.map Prod.fst ++ [k] := by
  induction m with
  | nil => simp [JsMap.set]
  | cons p rest ih =>
    obtain ⟨k1, v1⟩ := p
    by_cases h : k1 = k
    · simp [JsMap.set, h]
    · simp only [JsMap.set, h, if_false, List.map_cons, ih, List.mem_cons, Ne.symm h, false_or]
      split <;> simp

theorem JsMap.nodup_keys_set {K V : Type} [DecidableEq K] (m : JsMap K V) (k : K) (v : V)
    (h : (m.map Prod.fst).Nodup) : ((JsMap.set m k v).map Prod.fst).Nodup := by
  rw [JsMap.keys_set]
  split
  · exact h
  · rename_i hk
    exact List.Nodup.append h (List.nodup_singleton k) (by simpa using hk)

theorem JsMap.get_of_mem_nodup {K V : Type} [DecidableEq K] (m : JsMap K V) (k : K) (v : V)
    (hn : (m.map Prod.fst).Nodup) (h : (k, v) ∈ m) : JsMap.get m k = some v := by
  induction m with
  | nil => cases h
  | cons p rest ih =>
    obtain ⟨k1, v1⟩ := p
    simp only [List.map_cons, List.nodup_cons] at hn
    rcases List.mem_cons.mp h with h1 | h1
    · cases h1
      simp [JsMap.get]
    · have hk : k1 ≠ k := by
        intro h2
        subst h2
        exact hn.1 (List.mem_map.mpr ⟨(k1, v), h1, rfl⟩)
      simp [JsMap.get, hk, ih hn.2 h1]

theorem ownPropertyOrder_perm {V : Type} (l : List (String × V)) :
    (ownPropertyOrder l).Perm l := by
  unfold ownPropertyOrder
  refine List.Perm.trans (List.Perm.append_right _ (List.perm_insertionSort _ _)) ?_
  exact List.filter_append_perm _ l

/-! ## The configuration invariant -/

theorem nodup_keys_getChannelData (s : BotState) (c : String)
    (h : (s.channelData.map Prod.fst).Nodup) :
    ((getChannelData s c).1.channelData.map Prod.fst).Nodup := by
  unfold getChannelData
  cases s.channelData.get c with
  | some d => exact h
  | none => exact JsMap.nodup_keys_set _ _ _ h

theorem ConfigInv_iff (s : BotState) :
    ConfigInv s ↔
      (∀ c, (chOf s.channelData c).autoMessageConfig.isActive = true →
        truthy (chOf s.channelData c).autoMessageConfig.messageText = true) ∧
      (∀ t ∈ s.tasks,
        truthy (chOf s.channelData t.channelId).autoMessageConfig.messageText = true) ∧
      (s.channelData.map Prod.fst).Nodup ∧
      DiskInv s.disk := by
  unfold ConfigInv
  simp only [chDataOf_chOf]

theorem ConfigInv_congr (s s1 : BotState) (h1 : s1.channelData = s.channelData)
    (h2 : s1.tasks = s.tasks) (h3 : s1.disk.channelDataFile = s.disk.channelDataFile)
    (h : ConfigInv s) : ConfigInv s1 := by
  obtain ⟨hA, hB, hU, hD⟩ := h
  refine ⟨?_, ?_, ?_, ?_⟩
  · intro c
    rw [chDataOf_congr s s1 h1]
    exact hA c
  · intro t ht
    rw [chDataOf_congr s s1 h1]
    exact hB t (h2 ▸ ht)
  · rw [h1]
    exact hU
  · intro entries he
    exact hD entries (h3 ▸ he)

theorem ConfigInv_getChannelData (s : BotState) (c : String) (h : ConfigInv s) :
    ConfigInv (getChannelData s c).1 := by
  obtain ⟨hA, hB, hU, hD⟩ := h
  refine ⟨?_, ?_, nodup_keys_getChannelData s c hU, ?_⟩
  · intro c1
    rw [chDataOf_getChannelData]
    exact hA c1
  · intro t ht
    rw [chDataOf_getChannelData]
    exact hB t (by simpa using ht)
  · simpa using hD

/-- A channel object may be replaced by one whose configuration is not active
without a body, and has a body if a task of the channel is in the registry. -/
theorem ConfigInv_putChannelData (s : BotState) (c : String) (d : ChannelData)
    (h1 : d.autoMessageConfig.isActive = true → truthy d.autoMessageConfig.messageText = true)
    (h2 : ∀ t ∈ s.tasks, t.channelId = c → truthy d.autoMessageConfig.messageText = true)
    (h : ConfigInv s) : ConfigInv (putChannelData s c d) := by
  obtain ⟨hA, hB, hU, hD⟩ := h
  refine ⟨?_, ?_, JsMap.nodup_keys_set _ _ _ hU, hD⟩
  · intro c1
    rw [chDataOf_putChannelData]
    split
    · exact h1
    · exact hA c1
  · intro t ht
    rw [chDataOf_putChannelData]
    split
    · rename_i hc
      exact h2 t ht hc.symm
    · exact hB t ht

theorem ConfigInv_saveChannelData (s : BotState) (h : ConfigInv s) :
    ConfigInv (saveChannelData s) := by
  have hA := h.1
  rw [ConfigInv_iff] at h ⊢
  obtain ⟨hA1, hB, hU, hD⟩ := h
  refine ⟨hA1, hB, hU, ?_⟩
  intro entries he
  simp only [saveChannelData, Option.some.injEq] at he
  subst he
  have hperm := ownPropertyOrder_perm (s.channelData.map persistChannel)
  refine ⟨?_, ?_⟩
  · have hk : (s.channelData.map persistChannel).map Prod.fst = s.channelData.map Prod.fst := by
      rw [List.map_map]
      rfl
    exact ((hperm.map Prod.fst).nodup_iff).mpr (hk ▸ hU)
  · intro p hp cfg hcfg hact
    have hp1 := (hperm.mem_iff).mp hp
    obtain ⟨q, hq, rfl⟩ := List.mem_map.mp hp1
    obtain ⟨k, v⟩ := q
    simp only [persistChannel, Option.some.injEq] at hcfg
    subst hcfg
    have hget := JsMap.get_of_mem_nodup _ _ _ hU hq
    have hv : chDataOf s k = v := by
      rw [chDataOf_eq, hget]
      rfl
    have := hA k
    rw [hv] at this
    exact this hact

theorem Framed_ConfigInv : Framed ConfigInv where
  get := ConfigInv_getChannelData
  put := by
    intro s c d _ h2 h3 h
    refine ConfigInv_putChannelData s c d ?_ ?_ h
    · intro ha
      rw [h3]
      exact h.1 c (h2 ▸ ha)
    · intro t ht hc
      rw [h3, ← hc]
      exact h.2.1 t ht
  save := ConfigInv_saveChannelData
  other := ConfigInv_congr

theorem mem_stopJob_channel (tasks : List CronTask) (job : Option Nat) (t : CronTask)
    (ht : t ∈ stopJob tasks job) : ∃ t0 ∈ tasks, t0.channelId = t.channelId := by
  cases job with
  | none => exact ⟨t, ht, rfl⟩
  | some j =>
    simp only [stopJob, stopTask] at ht
    obtain ⟨t0, h0, rfl⟩ := List.mem_map.mp ht
    refine ⟨t0, h0, ?_⟩
    split <;> rfl

theorem ConfigInv_stopJob (s : BotState) (job : Option Nat) (h : ConfigInv s) :
    ConfigInv { s with tasks := stopJob s.tasks job } := by
  rw [ConfigInv_iff] at h ⊢
  obtain ⟨hA, hB, hU, hD⟩ := h
  refine ⟨hA, ?_, hU, hD⟩
  intro t ht
  obtain ⟨t0, h0, hc⟩ := mem_stopJob_channel _ _ _ ht
  have := hB t0 h0
  rw [hc] at this
  exact this

theorem ConfigInv_stopAutoMessages (s : BotState) (c : String) (h : ConfigInv s) :
    ConfigInv (stopAutoMessages s c) := by
  unfold stopAutoMessages
  dsimp only
  refine ConfigInv_saveChannelData _ (ConfigInv_putChannelData _ _ _ ?_ ?_ ?_)
  · intro ha
    cases ha
  · intro t ht hc
    obtain ⟨t0, h0, hc0⟩ := mem_stopJob_channel _ _ _ ht
    have := h.2.1 t0 (by simpa using h0)
    rw [hc0, hc] at this
    simpa using this
  · exact ConfigInv_stopJob _ _ (ConfigInv_getChannelData s c h)

theorem startAutoMessages_task_channel (env : Env) (s : BotState) (c : String)
    (t : CronTask) (ht : t ∈ (startAutoMessages env s c).1.tasks) :
    t.channelId = c ∨ ∃ t0 ∈ s.tasks, t0.channelId = t.channelId := by
  unfold startAutoMessages at ht
  dsimp only at ht
  split at ht
  · simp only [saveChannelData, putChannelData, List.mem_append, List.mem_singleton] at ht
    rcases ht with h1 | h1
    · obtain ⟨t0, h0, hc⟩ := mem_stopJob_channel _ _ _ h1
      exact Or.inr ⟨t0, by simpa using h0, hc⟩
    · subst h1
      exact Or.inl rfl
  · obtain ⟨t0, h0, hc⟩ := mem_stopJob_channel _ _ _ ht
    exact Or.inr ⟨t0, by simpa using h0, hc⟩

/-- Arming keeps the invariant when the channel has a body. -/
theorem ConfigInv_startAutoMessages (env : Env) (s : BotState) (c : String)
    (hbody : truthy (chDataOf s c).autoMessageConfig.messageText = true)
    (h : ConfigInv s) : ConfigInv (startAutoMessages env s c).1 := by
  have h1 := ConfigInv_stopJob _ (chDataOf s c).autoMessageJob (ConfigInv_getChannelData s c h)
  unfold startAutoMessages
  dsimp only
  split
  · refine ConfigInv_saveChannelData _ (ConfigInv_putChannelData _ _ _ ?_ ?_ ?_)
    · intro _
      exact hbody
    · intro _ _ _
      exact hbody
    · rw [ConfigInv_iff] at h1 ⊢
      obtain ⟨hA, hB, hU, hD⟩ := h1
      refine ⟨hA, ?_, hU, hD⟩
      intro t ht
      simp only [List.mem_append, List.mem_singleton] at ht
      rcases ht with h2 | h2
      · exact hB t h2
      · subst h2
        simpa [chDataOf_chOf] using hbody
  · exact h1

theorem ConfigInv_autoMessageTextStep (s : BotState) (u : Int) (text : String)
    (htext : truthy text = true) (h : ConfigInv s) :
    ConfigInv (autoMessageTextStep s u text).1 := by
  unfold autoMessageTextStep
  dsimp only
  split
  · exact h
  · refine Framed_ConfigInv.clearStep _ _ (ConfigInv_saveChannelData _
      (ConfigInv_putChannelData _ _ _ ?_ ?_ h))
    · intro _
      exact htext
    · intro _ _ _
      exact htext

theorem ConfigInv_action_start (env : Env) (s : BotState) (u : Int) (h : ConfigInv s) :
    ConfigInv (action_start_auto_messages env s u).1 := by
  unfold action_start_auto_messages
  dsimp only
  split
  · exact h
  · split
    · exact ConfigInv_getChannelData s _ h
    · rename_i hb
      refine ConfigInv_startAutoMessages env _ _ ?_ (ConfigInv_getChannelData s _ h)
      simpa using hb

theorem ConfigInv_action_stop (s : BotState) (u : Int) (h : ConfigInv s) :
    ConfigInv (action_stop_auto_messages s u) := by
  unfold action_stop_auto_messages
  split
  · exact h
  · exact ConfigInv_stopAutoMessages s _ h

theorem ConfigInv_ite_start (env : Env) (s : BotState) (c : String) (b : Bool)
    (h : ConfigInv s) :
    ConfigInv (if (b && truthy (chDataOf s c).autoMessageConfig.messageText) = true then
      (startAutoMessages env s c).1 else s) := by
  split
  · rename_i hb
    simp only [Bool.and_eq_true] at hb
    exact ConfigInv_startAutoMessages env s c hb.2 h
  · exact h

theorem ConfigInv_action_interval (env : Env) (s : BotState) (u : Int) (e : String)
    (h : ConfigInv s) : ConfigInv (action_interval env s u e) := by
  unfold action_interval
  dsimp only
  split
  · exact h
  · rename_i c _
    refine ConfigInv_ite_start env _ c _ ?_
    refine Framed_ConfigInv.save _ (Framed_ConfigInv.put _ _ _ rfl rfl rfl ?_)
    split
    · exact ConfigInv_stopAutoMessages s c h
    · exact ConfigInv_getChannelData s c h

theorem ConfigInv_remove_channel (s : BotState) (u : Int) (c : String) (h : ConfigInv s) :
    ConfigInv (action_remove_channel s u c) := by
  unfold action_remove_channel
  dsimp only
  split
  · exact h
  · split
    · exact h
    · split
      · exact h
      · refine ConfigInv_congr (match (chDataOf s c).autoMessageJob with
          | some j =>
            putChannelData { (getChannelData s c).1 with
                tasks := stopJob (getChannelData s c).1.tasks (some j) } c
              { chDataOf s c with autoMessageJob := none }
          | none => (getChannelData s c).1) _ rfl rfl rfl ?_
        cases (chDataOf s c).autoMessageJob with
        | none => exact ConfigInv_getChannelData s c h
        | some j =>
          have hs := ConfigInv_stopJob _ (some j) (ConfigInv_getChannelData s c h)
          have hc : chDataOf { (getChannelData s c).1 with
              tasks := stopJob (getChannelData s c).1.tasks (some j) } c = chDataOf s c := by
            rw [chDataOf_chOf, chDataOf_chOf]
            exact chOf_getChannelData s c c
          refine ConfigInv_putChannelData _ _ _ ?_ ?_ hs
          · intro ha
            have := hs.1 c
            rw [hc] at this
            exact this ha
          · intro t ht htc
            have := hs.2.1 t ht
            rw [htc, hc] at this
            exact this

theorem ConfigInv_on_action (env : Env) (s : BotState) (u : Int) (a : Action)
    (h : ConfigInv s) : ConfigInv (on_action env s u a) :=
  Framed_ConfigInv.on_action env s u a
    (fun c => ConfigInv_remove_channel s u c)
    (fun e => ConfigInv_action_interval env s u e)
    (ConfigInv_action_start env s u)
    (ConfigInv_action_stop s u) h

/-- What holds while `loadChannelData` runs: the invariant, and for the entries
still to be loaded, no key twice, no active configuration without a body, and no
task in the registry yet. -/
theorem ConfigInv_loadEntries (env : Env) (entries : List (String × PersistedChannel)) :
    ∀ s : BotState, ConfigInv s → (entries.map Prod.fst).Nodup →
      (∀ p ∈ entries, ∀ cfg, p.2.autoMessageConfig = some cfg →
        cfg.isActive = true → truthy cfg.messageText = true) →
      (∀ t ∈ s.tasks, t.channelId ∉ entries.map Prod.fst) →
      ConfigInv (loadEntries env s entries) := by
  induction entries with
  | nil => intro s h _ _ _; exact h
  | cons e rest ih =>
    intro s h hn he ht
    obtain ⟨c, p⟩ := e
    simp only [List.map_cons, List.nodup_cons] at hn
    have hrest : ∀ q ∈ rest, ∀ cfg, q.2.autoMessageConfig = some cfg →
        cfg.isActive = true → truthy cfg.messageText = true :=
      fun q hq => he q (List.mem_cons_of_mem _ hq)
    have h2 : ConfigInv (putChannelData (getChannelData s c).1 c
        { chDataOf s c with
          autoMessageConfig := p.autoMessageConfig.getD (chDataOf s c).autoMessageConfig
          translationEnabled := p.translationEnabled.getD false }) := by
      refine ConfigInv_putChannelData _ _ _ ?_ ?_ (ConfigInv_getChannelData s c h)
      · intro ha
        cases hp : p.autoMessageConfig with
        | none =>
          rw [hp] at ha
          simp only [hp, Option.getD_none] at ha ⊢
          exact h.1 c ha
        | some cfg =>
          rw [hp] at ha
          simp only [hp, Option.getD_some] at ha ⊢
          exact he (c, p) (List.mem_cons_self _ _) cfg hp ha
      · intro t htm htc
        exact absurd (by simp [htc]) (ht t (by simpa using htm))
    have htasks2 : ∀ t ∈ (putChannelData (getChannelData s c).1 c
        { chDataOf s c with
          autoMessageConfig := p.autoMessageConfig.getD (chDataOf s c).autoMessageConfig
          translationEnabled := p.translationEnabled.getD false }).tasks,
        t.channelId ∉ rest.map Prod.fst := by
      intro t htm hmem
      exact ht t (by simpa [putChannelData] using htm) (List.mem_cons_of_mem _ hmem)
    unfold loadEntries
    simp only [getChannelData_snd]
    split
    · rename_i hcond
      simp only [Bool.and_eq_true] at hcond
      have h3 := ConfigInv_startAutoMessages env _ c (by simpa using hcond.2) h2
      split
      · refine ih _ h3 hn.2 hrest ?_
        intro t htm hmem
        rcases startAutoMessages_task_channel env _ c t htm with h4 | ⟨t0, h0, h4⟩
        · rw [h4] at hmem
          exact hn.1 hmem
        · rw [← h4] at hmem
          exact htasks2 t0 h0 hmem
      · exact h3
    · exact ih _ h2 hn.2 hrest htasks2

theorem DiskInv_noFiles : DiskInv noFiles := by
  intro entries he
  cases he

theorem ConfigInv_boot (env : Env) (disk : Disk) (hd : DiskInv disk) :
    ConfigInv (boot env disk) := by
  have h0 : ConfigInv (emptyState disk) := by
    refine ⟨?_, ?_, ?_, hd⟩
    · intro c ha
      cases ha
    · intro t ht
      cases ht
    · exact List.nodup_nil
  have h1 : ConfigInv (loadUserChannels (loadAuthenticatedUsers (emptyState disk))) := by
    refine ConfigInv_congr (emptyState disk) _ ?_ ?_ ?_ h0
    all_goals
      unfold loadUserChannels loadAuthenticatedUsers
      repeat' split
      all_goals rfl
  have hdisk : (loadUserChannels (loadAuthenticatedUsers (emptyState disk))).disk = disk := by
    unfold loadUserChannels loadAuthenticatedUsers
    repeat' split
    all_goals rfl
  have htasks : (loadUserChannels (loadAuthenticatedUsers (emptyState disk))).tasks = [] := by
    unfold loadUserChannels loadAuthenticatedUsers
    repeat' split
    all_goals rfl
  unfold boot loadChannelData
  split
  · exact h1
  · rename_i entries hfile
    rw [hdisk] at hfile
    obtain ⟨hn, he⟩ := hd entries hfile
    have hperm := ownPropertyOrder_perm entries
    refine ConfigInv_loadEntries env _ _ h1 ?_ ?_ ?_
    · exact ((hperm.map Prod.fst).nodup_iff).mpr hn
    · intro p hp
      exact he p ((hperm.mem_iff).mp hp)
    · intro t ht
      rw [htasks] at ht
      cases ht

theorem ConfigInv_step (env : Env) (s : BotState) (e : Event) (hw : e.wellFormed = true)
    (h : ConfigInv s) : ConfigInv (step env s e) := by
  cases e with
  | command_start u => exact Framed_ConfigInv.command_start s u h
  | command_menu u => exact Framed_ConfigInv.command_menu s u h
  | action u a => exact ConfigInv_on_action env s u a h
  | confirm_delete_all u o => exact Framed_ConfigInv.confirm_delete_all s u o h
  | channel_post post o => exact Framed_ConfigInv.on_channel_post env s post o h
  | text u msg o =>
    exact Framed_ConfigInv.on_text env s u msg o
      (ConfigInv_autoMessageTextStep s u msg.text hw) h
  | tick task o =>
    simp only [step]
    repeat' split
    all_goals first
      | exact h
      | exact Framed_ConfigInv.autoMessageTick s _ o h
  | restart => exact ConfigInv_boot env s.disk h.2.2.2

theorem ConfigInv_of_Reachable (env : Env) (disk : Disk) (hd : DiskInv disk) (s : BotState)
    (h : Reachable env disk s) : ConfigInv s := by
  induction h with
  | start => exact ConfigInv_boot env disk hd
  | next s e _ hw ih => exact ConfigInv_step env s e hw ih

/-- C10. In every state reachable from the store without files, a channel whose
active flag is set has a non-empty message body, and every task in the registry
(every timer ever installed, live or stopped) belongs to a channel whose message
body is non-empty. -/
theorem C10_active_has_body (env : Env) (s : BotState) (h : Reachable env noFiles s) :
    (∀ c, (chDataOf s c).autoMessageConfig.isActive = true →
      (chDataOf s c).autoMessageConfig.messageText ≠ "") ∧
    (∀ t ∈ s.tasks, (chDataOf s t.channelId).autoMessageConfig.messageText ≠ "") := by
  obtain ⟨hA, hB, _, _⟩ := ConfigInv_of_Reachable env noFiles DiskInv_noFiles s h
  refine ⟨?_, ?_⟩
  · intro c ha
    simpa [truthy] using hA c ha
  · intro t ht
    simpa [truthy] using hB t ht

theorem C10_active_has_body_witness :
    Reachable exampleEnv noFiles (run exampleEnv noFiles armedTwice) ∧
    ((∀ c, (chDataOf (run exampleEnv noFiles armedTwice) c).autoMessageConfig.isActive = true →
      (chDataOf (run exampleEnv noFiles armedTwice) c).autoMessageConfig.messageText ≠ "") ∧
    (∀ t ∈ (run exampleEnv noFiles armedTwice).tasks,
      (chDataOf (run exampleEnv noFiles armedTwice) t.channelId).autoMessageConfig.messageText
        ≠ "")) :=
  ⟨Reachable_run _ _ _ (by decide),
    C10_active_has_body exampleEnv _ (Reachable_run _ _ _ (by decide))⟩

end TGBot

namespace TGBot

/-! ## Target identifiers -/

theorem handle_eq_handleOf (env : Env) (t : String) :
    (if jsStartsWith t "@" = true then env.toLowerCase (String.mk (t.toList.drop 1))
      else env.toLowerCase t) = handleOf env t := by
  have h1 : "@".toList = ['@'] := rfl
  unfold handleOf jsStartsWith
  rw [h1]
  cases t.toList with
  | nil => simp [List.isPrefixOf]
  | cons a r =>
    by_cases ha : a = '@'
    · subst ha
      simp [List.isPrefixOf]
    · have hb : ('@' == a) = false := by
        simpa using Ne.symm ha
      simp only [List.isPrefixOf, hb, Bool.false_and, Bool.false_eq_true, if_false]
      split
      · rename_i heq
        simp only [List.cons.injEq] at heq
        exact absurd heq.1 ha
      · rfl

theorem resolveUserIdentifier_handle (env : Env) (s : BotState) (input c : String)
    (hd : allDigits (jsTrim input) = false) :
    (resolveUserIdentifier env s input c).2 =
      (chDataOf s c).usernameToIdMap.get (handleOf env (jsTrim input)) := by
  unfold resolveUserIdentifier
  simp only [hd, Bool.false_eq_true, if_false]
  rw [handle_eq_handleOf]

/-- C11. For an input whose trimmed form is not a non-empty string of digits,
`resolveUserIdentifier` returns what the username table of the channel holds for
the handle obtained by stripping one leading `@` and lower-casing the rest; it
fails exactly when the table has no entry for that handle. -/
theorem C11_handle_lookup (env : Env) (s : BotState) (input c : String)
    (hd : allDigits (jsTrim input) = false) :
    (resolveUserIdentifier env s input c).2 =
      (chDataOf s c).usernameToIdMap.get (handleOf env (jsTrim input)) ∧
    ((resolveUserIdentifier env s input c).2 = none ↔
      (chDataOf s c).usernameToIdMap.has (handleOf env (jsTrim input)) = false) := by
  rw [resolveUserIdentifier_handle env s input c hd]
  refine ⟨rfl, ?_⟩
  unfold JsMap.has
  cases (chDataOf s c).usernameToIdMap.get (handleOf env (jsTrim input)) <;> simp

theorem C11_handle_lookup_witness :
    allDigits (jsTrim " @ALICE ") = false ∧
    (resolveUserIdentifier exampleEnv (run exampleEnv noFiles aliceKnown) " @ALICE "
      "-1001").2 =
      (chDataOf (run exampleEnv noFiles aliceKnown) "-1001").usernameToIdMap.get
        (handleOf exampleEnv (jsTrim " @ALICE ")) :=
  ⟨by decide, (C11_handle_lookup exampleEnv _ " @ALICE " "-1001" (by decide)).1⟩

/-- The lookup of the example, evaluated: the handle is `alice`, the identity `-5`. -/
theorem handle_lookup_example :
    handleOf exampleEnv (jsTrim " @ALICE ") = "alice" ∧
    (resolveUserIdentifier exampleEnv (run exampleEnv noFiles aliceKnown) " @ALICE "
      "-1001").2 = some (-5) ∧
    (resolveUserIdentifier exampleEnv (run exampleEnv noFiles aliceKnown) "bob" "-1001").2 =
      none := by
  decide

theorem dropWhile_append_cons {A : Type} (p : A → Bool) (l1 l2 : List A) (y : A)
    (h1 : ∀ x ∈ l1, p x = true) (hy : p y = false) :
    (l1 ++ y :: l2).dropWhile p = y :: l2 := by
  induction l1 with
  | nil => simp [List.dropWhile, hy]
  | cons x r ih =>
    have hx : p x = true := h1 x (List.mem_cons_self _ _)
    simp only [List.cons_append, List.dropWhile, hx]
    exact ih (fun z hz => h1 z (List.mem_cons_of_mem _ hz))

theorem isDigit_not_whiteSpace (a : Char) (h : isDigit a = true) :
    isJsWhiteSpace a = false := by
  simp only [isDigit, Bool.and_eq_true, decide_eq_true_eq] at h
  simp only [isJsWhiteSpace, Bool.or_eq_false_iff, Bool.and_eq_false_imp,
    decide_eq_false_iff_not, decide_eq_true_eq]
  omega

/-- Whitespace around digits is trimmed away: an input made of whitespace, a
non-empty string of digits and whitespace again has the digits as trimmed form. -/
theorem jsTrim_surrounded (before digits after : List Char)
    (hb : ∀ a ∈ before, isJsWhiteSpace a = true)
    (ha : ∀ a ∈ after, isJsWhiteSpace a = true)
    (hne : digits ≠ [])
    (hdig : ∀ a ∈ digits, isDigit a = true) :
    jsTrim (String.mk (before ++ digits ++ after)) = String.mk digits := by
  obtain ⟨d0, dr, rfl⟩ := List.exists_cons_of_ne_nil hne
  have hd0 : isJsWhiteSpace d0 = false :=
    isDigit_not_whiteSpace d0 (hdig d0 (List.mem_cons_self _ _))
  have hrev : (d0 :: dr).reverse ≠ [] := by simp
  obtain ⟨x, xs, hx⟩ := List.exists_cons_of_ne_nil hrev
  have hxm : x ∈ d0 :: dr := by
    have : x ∈ (d0 :: dr).reverse := by
      rw [hx]
      exact List.mem_cons_self _ _
    exact List.mem_reverse.mp this
  have hxw : isJsWhiteSpace x = false := isDigit_not_whiteSpace x (hdig x hxm)
  have h1 : (before ++ (d0 :: dr) ++ after).dropWhile isJsWhiteSpace = d0 :: (dr ++ after) := by
    rw [List.append_assoc, List.cons_append]
    exact dropWhile_append_cons _ _ _ _ hb hd0
  have h2 : (d0 :: (dr ++ after)).reverse = after.reverse ++ x :: xs := by
    rw [← List.cons_append, List.reverse_append, hx]
  have h3 : (after.reverse ++ x :: xs).dropWhile isJsWhiteSpace = x :: xs :=
    dropWhile_append_cons _ _ _ _ (fun a h => ha a (List.mem_reverse.mp h)) hxw
  show String.mk (((before ++ (d0 :: dr) ++ after).dropWhile isJsWhiteSpace).reverse.dropWhile
    isJsWhiteSpace).reverse = String.mk (d0 :: dr)
  rw [h1, h2, h3, ← hx, List.reverse_reverse]

/-- C12, as stated, fails: the digits `9007199254740993` are resolved to the
number 9007199254740992, the Number value `parseInt` returns for them. -/
theorem C12_counterexample :
    allDigits (jsTrim "9007199254740993") = true ∧
    digitsValue (jsTrim "9007199254740993").toList = 9007199254740993 ∧
    (resolveUserIdentifier exampleEnv (emptyState noFiles) "9007199254740993" "-1001").2 =
      some 9007199254740992 := by
  decide

theorem ParseIntExact_exampleEnv : ParseIntExact exampleEnv := by
  intro t _ hlt
  simp only [exampleEnv, toJsNumber, hlt, if_true]

/-- C12, amended. For an input whose trimmed form is a non-empty string of digits
denoting a number below `2^53`, `resolveUserIdentifier` returns that number: it
does not fail, it reads nothing of the state (so not the username table) and
leaves the state as it is.  This is so whatever whitespace surrounds the digits:
an input made of whitespace, such digits and whitespace is resolved to the
number the digits denote. -/
theorem C12_numeric_target (env : Env) (s : BotState) (input c : String)
    (hparse : ParseIntExact env)
    (hd : allDigits (jsTrim input) = true)
    (hsafe : digitsValue (jsTrim input).toList < 2 ^ 53) :
    resolveUserIdentifier env s input c =
      (s, some (Int.ofNat (digitsValue (jsTrim input).toList))) ∧
    ∀ before digits after : List Char,
      (∀ a ∈ before, isJsWhiteSpace a = true) → (∀ a ∈ after, isJsWhiteSpace a = true) →
      digits ≠ [] → (∀ a ∈ digits, isDigit a = true) → digitsValue digits < 2 ^ 53 →
      resolveUserIdentifier env s (String.mk (before ++ digits ++ after)) c =
        (s, some (Int.ofNat (digitsValue digits))) := by
  refine ⟨?_, ?_⟩
  · unfold resolveUserIdentifier
    simp only [hd, if_true]
    rw [hparse _ hd hsafe]
  · intro before digits after hb ha hne hdig hlt
    have ht := jsTrim_surrounded before digits after hb ha hne hdig
    have hall : allDigits (String.mk digits) = true := by
      unfold allDigits
      cases digits with
      | nil => exact absurd rfl hne
      | cons d0 dr => simpa using hdig
    unfold resolveUserIdentifier
    simp only [ht, hall, if_true]
    rw [hparse _ hall hlt]
    rfl

theorem C12_numeric_target_witness :
    ParseIntExact exampleEnv ∧
    allDigits (jsTrim "  42 \n") = true ∧
    digitsValue (jsTrim "  42 \n").toList < 2 ^ 53 ∧
    resolveUserIdentifier exampleEnv (run exampleEnv noFiles aliceKnown) "  42 \n" "-1001" =
      (run exampleEnv noFiles aliceKnown,
        some (Int.ofNat (digitsValue (jsTrim "  42 \n").toList))) :=
  ⟨ParseIntExact_exampleEnv, by decide, by decide,
    (C12_numeric_target exampleEnv _ "  42 \n" "-1001" ParseIntExact_exampleEnv (by decide)
      (by decide)).1⟩

end TGBot

namespace TGBot

/-! ## Step 2 of the URL-button flow -/

/-- The text handler in the URL step, on a text that is not a command. -/
theorem on_text_url_step (env : Env) (s : BotState) (userId : Int) (msg : TextMessage)
    (o : TextOutcome)
    (hauth : s.authenticatedUsers.contains userId = true)
    (hstep : s.userStates.get userId = some Step.awaiting_url_button_url)
    (hslash : jsStartsWith msg.text "/" = false) :
    on_text env s userId msg o = urlButtonUrlStep s userId msg.text := by
  have hmem : userId ∈ s.authenticatedUsers := by simpa using hauth
  simp [on_text, hslash, hmem, hstep]

theorem urlButtonUrlStep_invalid (s : BotState) (userId : Int) (text c label : String)
    (hsel : truthyOpt (s.selectedChannel.get userId) = some c)
    (hlabel : truthyOpt (s.buttonText.get userId) = some label)
    (hbad : urlPattern text = false) :
    urlButtonUrlStep s userId text = (s, [Effect.reply Reply.invalidUrl]) := by
  simp [urlButtonUrlStep, hsel, hlabel, hbad]

theorem urlButtonUrlStep_valid (s : BotState) (userId : Int) (text c label : String)
    (hsel : truthyOpt (s.selectedChannel.get userId) = some c)
    (hlabel : truthyOpt (s.buttonText.get userId) = some label)
    (hgood : urlPattern text = true) :
    (chDataOf (urlButtonUrlStep s userId text).1 c).autoMessageConfig.urlButtons =
      (chDataOf s c).autoMessageConfig.urlButtons ++ [{ text := label, url := text }] ∧
    (urlButtonUrlStep s userId text).1.userStates.get userId = none ∧
    (urlButtonUrlStep s userId text).1.buttonText.get userId = none := by
  simp [urlButtonUrlStep, hsel, hlabel, hgood, clearConversation, saveChannelData,
    putChannelData, chDataOf_chOf, chOf_set, JsMap.get_delete]

/-- An input that fails the URL test leaves the state as it is. -/
theorem on_text_url_step_invalid (env : Env) (s : BotState) (userId : Int)
    (msg : TextMessage) (o : TextOutcome) (c label : String)
    (hauth : s.authenticatedUsers.contains userId = true)
    (hstep : s.userStates.get userId = some Step.awaiting_url_button_url)
    (hsel : truthyOpt (s.selectedChannel.get userId) = some c)
    (hlabel : truthyOpt (s.buttonText.get userId) = some label)
    (hbad : urlPattern msg.text = false) :
    (on_text env s userId msg o).1 = s ∧
    (jsStartsWith msg.text "/" = false →
      (on_text env s userId msg o).2 = [Effect.reply Reply.invalidUrl]) := by
  by_cases hslash : jsStartsWith msg.text "/" = true
  · simp [on_text, hslash]
  · have hs : jsStartsWith msg.text "/" = false := by simpa using hslash
    rw [on_text_url_step env s userId msg o hauth hstep hs,
      urlButtonUrlStep_invalid s userId msg.text c label hsel hlabel hbad]
    simp

/-- The URL test in words: the text is `http://` or `https://` followed by a
character that is not a line terminator, and then anything. -/
theorem urlPattern_iff (t : String) :
    urlPattern t = true ↔
      ∃ a rest, isLineTerminator a = false ∧
        (t.toList = "http://".toList ++ a :: rest ∨
          t.toList = "https://".toList ++ a :: rest) := by
  have h1 : "http://".toList = ['h', 't', 't', 'p', ':', '/', '/'] := rfl
  have h2 : "https://".toList = ['h', 't', 't', 'p', 's', ':', '/', '/'] := rfl
  rw [h1, h2]
  unfold urlPattern
  constructor
  · intro h
    split at h
    · rename_i a rest heq
      exact ⟨a, rest, by simpa using h, Or.inl (by simpa using heq)⟩
    · rename_i a rest heq
      exact ⟨a, rest, by simpa using h, Or.inr (by simpa using heq)⟩
    · cases h
  · rintro ⟨a, rest, ha, heq | heq⟩
    · rw [heq]
      simpa using ha
    · rw [heq]
      simpa using ha

/-- C13, as stated, fails: in the URL step with the label `Old` stored, the input
`https://` starts with the prefix, yet no button is committed and the step stays. -/
theorem C13_counterexample :
    (run exampleEnv noFiles labelStored).userStates.get 1 =
      some Step.awaiting_url_button_url ∧
    truthyOpt ((run exampleEnv noFiles labelStored).buttonText.get 1) = some "Old" ∧
    jsStartsWith "https://" "https://" = true ∧
    (chDataOf (on_text exampleEnv (run exampleEnv noFiles labelStored) 1 (plainText "https://")
      okText).1 "-1001").autoMessageConfig.urlButtons = [] ∧
    (on_text exampleEnv (run exampleEnv noFiles labelStored) 1 (plainText "https://")
      okText).1.userStates.get 1 = some Step.awaiting_url_button_url := by
  decide

/-- C13, amended. In the URL step, for a logged-in operator with a stored
non-empty label and a selected channel and for every input, the button made of
the label and the input is appended to the buttons of the channel exactly when
the input passes the URL test (the prefix `http://` or `https://` followed by at
least one character that is not a line terminator); an input that fails the test
changes nothing. -/
theorem C13_commit_iff_url (env : Env) (s : BotState) (userId : Int) (msg : TextMessage)
    (o : TextOutcome) (c label : String)
    (hauth : s.authenticatedUsers.contains userId = true)
    (hstep : s.userStates.get userId = some Step.awaiting_url_button_url)
    (hsel : truthyOpt (s.selectedChannel.get userId) = some c)
    (hlabel : truthyOpt (s.buttonText.get userId) = some label) :
    ((chDataOf (on_text env s userId msg o).1 c).autoMessageConfig.urlButtons =
        (chDataOf s c).autoMessageConfig.urlButtons ++ [{ text := label, url := msg.text }] ↔
      urlPattern msg.text = true) ∧
    (urlPattern msg.text = false → (on_text env s userId msg o).1 = s) := by
  refine ⟨?_, fun hbad =>
    (on_text_url_step_invalid env s userId msg o c label hauth hstep hsel hlabel hbad).1⟩
  constructor
  · intro h
    by_contra hne
    have hbad : urlPattern msg.text = false := by simpa using hne
    rw [(on_text_url_step_invalid env s userId msg o c label hauth hstep hsel hlabel hbad).1]
      at h
    have := congrArg List.length h
    simp at this
  · intro hgood
    rw [on_text_url_step env s userId msg o hauth hstep
      (not_startsWith_slash_of_urlPattern _ hgood)]
    exact (urlButtonUrlStep_valid s userId msg.text c label hsel hlabel hgood).1

theorem C13_commit_iff_url_witness :
    (run exampleEnv noFiles labelStored).authenticatedUsers.contains 1 = true ∧
    (run exampleEnv noFiles labelStored).userStates.get 1 =
      some Step.awaiting_url_button_url ∧
    truthyOpt ((run exampleEnv noFiles labelStored).selectedChannel.get 1) = some "-1001" ∧
    truthyOpt ((run exampleEnv noFiles labelStored).buttonText.get 1) = some "Old" ∧
    ((chDataOf (on_text exampleEnv (run exampleEnv noFiles labelStored) 1
        (plainText "https://x.com") okText).1 "-1001").autoMessageConfig.urlButtons =
        (chDataOf (run exampleEnv noFiles labelStored) "-1001").autoMessageConfig.urlButtons ++
          [{ text := "Old", url := (plainText "https://x.com").text }] ↔
      urlPattern (plainText "https://x.com").text = true) :=
  ⟨by decide, by decide, by decide, by decide,
    (C13_commit_iff_url exampleEnv _ 1 (plainText "https://x.com") okText "-1001" "Old"
      (by decide) (by decide) (by decide) (by decide)).1⟩

/-- C14. In the URL step, an input that fails the URL test commits nothing and
reverts nothing: the state is as before (so the pending step is still the URL
step, and the stored label and the buttons are unchanged), the reply is the
re-prompt unless the text is a command, and a valid URL sent next appends the
button with the label that was stored. -/
theorem C14_invalid_url_keeps_step (env : Env) (s : BotState) (userId : Int)
    (bad good : TextMessage) (o1 o2 : TextOutcome) (c label : String)
    (hauth : s.authenticatedUsers.contains userId = true)
    (hstep : s.userStates.get userId = some Step.awaiting_url_button_url)
    (hsel : truthyOpt (s.selectedChannel.get userId) = some c)
    (hlabel : truthyOpt (s.buttonText.get userId) = some label)
    (hbad : urlPattern bad.text = false)
    (hgood : urlPattern good.text = true) :
    (on_text env s userId bad o1).1 = s ∧
    (jsStartsWith bad.text "/" = false →
      (on_text env s userId bad o1).2 = [Effect.reply Reply.invalidUrl]) ∧
    (chDataOf (on_text env (on_text env s userId bad o1).1 userId good o2).1
        c).autoMessageConfig.urlButtons =
      (chDataOf s c).autoMessageConfig.urlButtons ++ [{ text := label, url := good.text }] ∧
    (on_text env (on_text env s userId bad o1).1 userId good o2).1.userStates.get userId =
      none := by
  obtain ⟨h1, h2⟩ :=
    on_text_url_step_invalid env s userId bad o1 c label hauth hstep hsel hlabel hbad
  refine ⟨h1, h2, ?_, ?_⟩
  · rw [h1, on_text_url_step env s userId good o2 hauth hstep
      (not_startsWith_slash_of_urlPattern _ hgood)]
    exact (urlButtonUrlStep_valid s userId good.text c label hsel hlabel hgood).1
  · rw [h1, on_text_url_step env s userId good o2 hauth hstep
      (not_startsWith_slash_of_urlPattern _ hgood)]
    exact (urlButtonUrlStep_valid s userId good.text c label hsel hlabel hgood).2.1

theorem C14_invalid_url_keeps_step_witness :
    (run exampleEnv noFiles labelStored).authenticatedUsers.contains 1 = true ∧
    (run exampleEnv noFiles labelStored).userStates.get 1 =
      some Step.awaiting_url_button_url ∧
    truthyOpt ((run exampleEnv noFiles labelStored).selectedChannel.get 1) = some "-1001" ∧
    truthyOpt ((run exampleEnv noFiles labelStored).buttonText.get 1) = some "Old" ∧
    urlPattern (plainText "x.com").text = false ∧
    urlPattern (plainText "https://x.com").text = true ∧
    (on_text exampleEnv (run exampleEnv noFiles labelStored) 1 (plainText "x.com") okText).1 =
      run exampleEnv noFiles labelStored :=
  ⟨by decide, by decide, by decide, by decide, by decide, by decide,
    (C14_invalid_url_keeps_step exampleEnv _ 1 (plainText "x.com") (plainText "https://x.com")
      okText okText "-1001" "Old" (by decide) (by decide) (by decide) (by decide) (by decide)
      (by decide)).1⟩

/-- The retry of the example, evaluated: `x.com` is refused, `https://x.com` then
adds the button with the label `Old`. -/
theorem invalid_url_retry_example :
    (on_text exampleEnv (run exampleEnv noFiles labelStored) 1 (plainText "x.com") okText).2 =
      [Effect.reply Reply.invalidUrl] ∧
    (chDataOf (on_text exampleEnv (on_text exampleEnv (run exampleEnv noFiles labelStored) 1
      (plainText "x.com") okText).1 1 (plainText "https://x.com") okText).1
      "-1001").autoMessageConfig.urlButtons = [{ text := "Old", url := "https://x.com" }] := by
  decide

end TGBot

namespace TGBot

/-! ## What stays tracked after a bulk deletion -/

theorem removeResolved_cons_of_not_mem (m : Nat) (ds : List Nat) :
    ∀ l : List Nat, m ∉ ds → removeResolved (m :: l) ds = m :: removeResolved l ds := by
  induction ds with
  | nil => intro l _; rfl
  | cons d rest ih =>
    intro l hm
    have hd : m ≠ d := fun h => hm (h ▸ List.mem_cons_self _ _)
    have hrest : m ∉ rest := fun h => hm (List.mem_cons_of_mem _ h)
    have h1 := ih (l.erase d) hrest
    unfold removeResolved at h1 ⊢
    rw [List.foldl_cons, List.foldl_cons, List.erase_cons_tail (by simpa using hd)]
    exact h1

theorem mem_resolvedIds (pinned : Option Nat) (delete : Nat → DeleteResult) (ids : List Nat) :
    ∀ i m, m ∈ resolvedIds pinned delete i ids → m ∈ ids := by
  induction ids with
  | nil => intro i m h; simp [resolvedIds] at h
  | cons a rest ih =>
    intro i m h
    unfold resolvedIds at h
    split at h
    · rcases List.mem_cons.mp h with h1 | h1
      · exact h1 ▸ List.mem_cons_self _ _
      · exact List.mem_cons_of_mem _ (ih _ _ h1)
    · exact List.mem_cons_of_mem _ (ih _ _ h)

theorem removeResolved_eq_unresolvedIds (pinned : Option Nat) (delete : Nat → DeleteResult)
    (ids : List Nat) : ∀ i, ids.Nodup →
      removeResolved ids (resolvedIds pinned delete i ids) =
        unresolvedIds pinned delete i ids := by
  induction ids with
  | nil => intro i _; rfl
  | cons a rest ih =>
    intro i hn
    simp only [List.nodup_cons] at hn
    unfold resolvedIds unresolvedIds
    by_cases hr : bulkResolved pinned delete i a = true
    · simp only [hr, if_true]
      have : removeResolved (a :: rest) (a :: resolvedIds pinned delete (i + 1) rest) =
          removeResolved rest (resolvedIds pinned delete (i + 1) rest) := by
        unfold removeResolved
        rw [List.foldl_cons, List.erase_cons_head]
      rw [this]
      exact ih (i + 1) hn.2
    · simp only [hr, Bool.false_eq_true, if_false]
      rw [removeResolved_cons_of_not_mem a _ rest
        (fun h => hn.1 (mem_resolvedIds pinned delete rest _ a h)), ih (i + 1) hn.2]

theorem unresolvedIds_sublist (pinned : Option Nat) (delete : Nat → DeleteResult)
    (ids : List Nat) : ∀ i, (unresolvedIds pinned delete i ids).Sublist ids := by
  induction ids with
  | nil => intro i; exact List.Sublist.slnil
  | cons a rest ih =>
    intro i
    unfold unresolvedIds
    split
    · exact List.Sublist.cons _ (ih _)
    · exact List.Sublist.cons₂ _ (ih _)

/-- C15. When the tracked ids are distinct, the sequence tracked after a bulk
deletion is the subsequence of the snapshot, in its order, of the ids that are
not pinned and whose delete failed with an error that is not permanent:
deleted ids, the pinned id and permanent failures are gone, every other failure
stays. -/
theorem C15_remaining_tracked (s : BotState) (userId : Int) (c : String) (o : BulkOutcome)
    (hsel : truthyOpt (s.selectedChannel.get userId) = some c)
    (hnd : (chDataOf s c).messageIds.Nodup) :
    (chDataOf (action_confirm_delete_all s userId o).1 c).messageIds =
      unresolvedIds (pinnedMessageId o) o.delete 0 (chDataOf s c).messageIds ∧
    (chDataOf (action_confirm_delete_all s userId o).1 c).messageIds.Sublist
      (chDataOf s c).messageIds := by
  have h : (chDataOf (action_confirm_delete_all s userId o).1 c).messageIds =
      unresolvedIds (pinnedMessageId o) o.delete 0 (chDataOf s c).messageIds := by
    simp only [action_confirm_delete_all, hsel]
    rw [bulkDelete_messageIds, removeResolved_eq_unresolvedIds _ _ _ 0 hnd]
  rw [h]
  exact ⟨rfl, unresolvedIds_sublist _ _ _ 0⟩

theorem C15_remaining_tracked_witness :
    truthyOpt ((run exampleEnv noFiles threePosts).selectedChannel.get 1) = some "-1001" ∧
    (chDataOf (run exampleEnv noFiles threePosts) "-1001").messageIds.Nodup ∧
    (chDataOf (action_confirm_delete_all (run exampleEnv noFiles threePosts) 1
      thirdFails).1 "-1001").messageIds =
      unresolvedIds (pinnedMessageId thirdFails) thirdFails.delete 0
        (chDataOf (run exampleEnv noFiles threePosts) "-1001").messageIds :=
  ⟨by decide, by decide,
    (C15_remaining_tracked _ 1 "-1001" thirdFails (by decide) (by decide)).1⟩

/-- The run of `thirdFails` on the three tracked posts, evaluated: 10 is deleted,
11 is pinned, 12 stays tracked. -/
theorem remaining_tracked_example :
    (chDataOf (action_confirm_delete_all (run exampleEnv noFiles threePosts) 1
      thirdFails).1 "-1001").messageIds = [12] ∧
    unresolvedIds (pinnedMessageId thirdFails) thirdFails.delete 0 [10, 11, 12] = [12] := by
  decide

end TGBot

namespace TGBot

/-! ## One firing -/

/-- The calls of a firing on a channel with a body: the delete, if any, then the
send; they do not depend on the outcomes. -/
theorem autoMessageTick_effects (s : BotState) (c : String) (o : TickOutcome)
    (hbody : (chDataOf s c).autoMessageConfig.messageText ≠ "") :
    (autoMessageTick s c o).2 =
      tickDelete c (chDataOf s c) ++
        [Effect.sendMessage c (chDataOf s c).autoMessageConfig.messageText true
          (chDataOf s c).autoMessageConfig.urlButtons] := by
  have htr : truthy (chDataOf s c).autoMessageConfig.messageText = true := by
    simpa [truthy] using hbody
  unfold autoMessageTick
  simp only [htr, Bool.not_true, Bool.false_eq_true, if_false]
  cases o.sendResult <;> rfl

theorem autoMessageTick_send_failed (s : BotState) (c : String) (o : TickOutcome)
    (hfail : o.sendResult = none) : (autoMessageTick s c o).1 = s := by
  unfold autoMessageTick
  simp only [hfail]
  split <;> rfl

theorem autoMessageTick_sent (s : BotState) (c : String) (o : TickOutcome) (m : Nat)
    (hbody : (chDataOf s c).autoMessageConfig.messageText ≠ "")
    (hsend : o.sendResult = some m) :
    (chDataOf (autoMessageTick s c o).1 c).lastMessageId = some m := by
  have htr : truthy (chDataOf s c).autoMessageConfig.messageText = true := by
    simpa [truthy] using hbody
  unfold autoMessageTick
  simp [htr, hsend]

theorem tickDelete_some (c : String) (d : ChannelData) (m : Nat)
    (hlast : d.lastMessageId = some m) (hm : m ≠ 0)
    (hdel : d.autoMessageConfig.deletePrevious = true) :
    tickDelete c d = [Effect.deleteMessage c m] := by
  simp [tickDelete, hlast, hdel, hm]

theorem tickDelete_none (c : String) (d : ChannelData)
    (h : d.lastMessageId = none ∨ d.autoMessageConfig.deletePrevious = false) :
    tickDelete c d = [] := by
  unfold tickDelete
  rcases h with h | h
  · simp [h]
  · cases d.lastMessageId <;> simp [h]

/-- C16. In a firing on a channel with a body whose send fails, whatever the
delete did, the callback ends with the state it started from, so the
last-delivered id is as before; the next firing issues the same calls again, and
with delete-previous on it attempts the delete of that same id. -/
theorem C16_send_failure_keeps_last (s : BotState) (c : String) (o : TickOutcome)
    (hbody : (chDataOf s c).autoMessageConfig.messageText ≠ "")
    (hfail : o.sendResult = none) :
    (autoMessageTick s c o).1 = s ∧
    (chDataOf (autoMessageTick s c o).1 c).lastMessageId = (chDataOf s c).lastMessageId ∧
    ∀ o2 : TickOutcome,
      (autoMessageTick (autoMessageTick s c o).1 c o2).2 = (autoMessageTick s c o).2 ∧
      ∀ m, (chDataOf s c).lastMessageId = some m → m ≠ 0 →
        (chDataOf s c).autoMessageConfig.deletePrevious = true →
        Effect.deleteMessage c m ∈ (autoMessageTick s c o).2 ∧
        Effect.deleteMessage c m ∈ (autoMessageTick (autoMessageTick s c o).1 c o2).2 := by
  have h1 := autoMessageTick_send_failed s c o hfail
  refine ⟨h1, by rw [h1], ?_⟩
  intro o2
  rw [h1, autoMessageTick_effects s c o hbody, autoMessageTick_effects s c o2 hbody]
  refine ⟨rfl, ?_⟩
  intro m hlast hm hdel
  rw [tickDelete_some c _ m hlast hm hdel]
  simp

theorem C16_send_failure_keeps_last_witness :
    (chDataOf delivered "-1001").autoMessageConfig.messageText ≠ "" ∧
    sendFails.sendResult = none ∧
    (autoMessageTick delivered "-1001" sendFails).1 = delivered :=
  ⟨by decide, rfl, (C16_send_failure_keeps_last delivered "-1001" sendFails (by decide) rfl).1⟩

/-- The failed firing of the example and the one after it, evaluated: both
attempt the delete of message 100 and the send. -/
theorem send_failure_example :
    (autoMessageTick delivered "-1001" sendFails).2 =
      [Effect.deleteMessage "-1001" 100, Effect.sendMessage "-1001" "Hi" true []] ∧
    (autoMessageTick (autoMessageTick delivered "-1001" sendFails).1 "-1001" (sent 101)).2 =
      [Effect.deleteMessage "-1001" 100, Effect.sendMessage "-1001" "Hi" true []] := by
  decide

/-- C17. In a firing on a channel with a body (and a last-delivered id that, if
present, is a message id, so not 0), a delete is attempted exactly when
delete-previous is on and a last-delivered id is present, and it is the delete
of that id; whatever its outcome, it is followed by exactly one send of the body
with the buttons, and when the send returns an id, that id is the last-delivered
one afterwards. -/
theorem C17_delete_then_send (s : BotState) (c : String) (o : TickOutcome)
    (hbody : (chDataOf s c).autoMessageConfig.messageText ≠ "")
    (hid : (chDataOf s c).lastMessageId ≠ some 0) :
    ((∃ chat m, Effect.deleteMessage chat m ∈ (autoMessageTick s c o).2) ↔
      ((chDataOf s c).autoMessageConfig.deletePrevious = true ∧
        (chDataOf s c).lastMessageId ≠ none)) ∧
    (∀ m, (chDataOf s c).lastMessageId = some m →
      (chDataOf s c).autoMessageConfig.deletePrevious = true →
      (autoMessageTick s c o).2 =
        [Effect.deleteMessage c m,
          Effect.sendMessage c (chDataOf s c).autoMessageConfig.messageText true
            (chDataOf s c).autoMessageConfig.urlButtons]) ∧
    (((chDataOf s c).lastMessageId = none ∨
        (chDataOf s c).autoMessageConfig.deletePrevious = false) →
      (autoMessageTick s c o).2 =
        [Effect.sendMessage c (chDataOf s c).autoMessageConfig.messageText true
          (chDataOf s c).autoMessageConfig.urlButtons]) ∧
    (∀ m, o.sendResult = some m →
      (chDataOf (autoMessageTick s c o).1 c).lastMessageId = some m) := by
  have hsome : ∀ m, (chDataOf s c).lastMessageId = some m →
      (chDataOf s c).autoMessageConfig.deletePrevious = true →
      (autoMessageTick s c o).2 =
        [Effect.deleteMessage c m,
          Effect.sendMessage c (chDataOf s c).autoMessageConfig.messageText true
            (chDataOf s c).autoMessageConfig.urlButtons] := by
    intro m hlast hdel
    have hm : m ≠ 0 := by
      intro h0
      subst h0
      exact hid hlast
    rw [autoMessageTick_effects s c o hbody, tickDelete_some c _ m hlast hm hdel]
    rfl
  have hnone : ((chDataOf s c).lastMessageId = none ∨
        (chDataOf s c).autoMessageConfig.deletePrevious = false) →
      (autoMessageTick s c o).2 =
        [Effect.sendMessage c (chDataOf s c).autoMessageConfig.messageText true
          (chDataOf s c).autoMessageConfig.urlButtons] := by
    intro h
    rw [autoMessageTick_effects s c o hbody, tickDelete_none c _ h]
    rfl
  refine ⟨?_, hsome, hnone, fun m hm => autoMessageTick_sent s c o m hbody hm⟩
  constructor
  · rintro ⟨chat, m, hmem⟩
    by_contra hcon
    have h : (chDataOf s c).lastMessageId = none ∨
        (chDataOf s c).autoMessageConfig.deletePrevious = false := by
      by_cases hd : (chDataOf s c).autoMessageConfig.deletePrevious = true
      · left
        by_contra hl
        exact hcon ⟨hd, hl⟩
      · right
        simpa using hd
    rw [hnone h] at hmem
    simp at hmem
  · rintro ⟨hdel, hlast⟩
    obtain ⟨m, hm⟩ := Option.ne_none_iff_exists'.mp hlast
    exact ⟨c, m, by rw [hsome m hm hdel]; simp⟩

theorem C17_delete_then_send_witness :
    (chDataOf delivered "-1001").autoMessageConfig.messageText ≠ "" ∧
    (chDataOf delivered "-1001").lastMessageId ≠ some 0 ∧
    ((∃ chat m, Effect.deleteMessage chat m ∈ (autoMessageTick delivered "-1001" sendFails).2) ↔
      ((chDataOf delivered "-1001").autoMessageConfig.deletePrevious = true ∧
        (chDataOf delivered "-1001").lastMessageId ≠ none)) :=
  ⟨by decide, by decide,
    (C17_delete_then_send delivered "-1001" sendFails (by decide) (by decide)).1⟩

end TGBot

namespace TGBot

/-! ## The translation branch -/

theorem truthyOpt_some (x : Option String) (t : String) (h : truthyOpt x = some t) :
    x = some t ∧ truthy t = true := by
  cases x with
  | none => simp [truthyOpt] at h
  | some a =>
    by_cases ha : truthy a = true
    · simp only [truthyOpt, ha, if_true, Option.some.injEq] at h
      subst h
      exact ⟨rfl, ha⟩
    · simp [truthyOpt, ha] at h

theorem lengthPolicy_of_text (c : String) (m : Nat) (x : Option String) (t : String)
    (h : truthyOpt x = some t) :
    lengthPolicy c m x = if 90 < jsLength t then [Effect.deleteMessage c m] else [] := by
  unfold lengthPolicy
  rw [h]

/-- The pipeline when the translation service fails: the request, then the
length policy. -/
theorem moderationEffects_failed (env : Env) (post : ChannelPost) (o : PostOutcome)
    (t : String) (ht : truthyOpt (postText post) = some t) (hfail : o.translation = none) :
    moderationEffects env true post o =
      Effect.translate t ::
        (if 90 < jsLength t then
          [Effect.deleteMessage (toString post.chat_id) post.message_id] else []) := by
  unfold moderationEffects
  simp only [ht, hfail, lengthPolicy_of_text _ _ _ t ht]
  rfl

/-- C18, as stated, fails: with translation moderation on and the service
failing, a post of 91 letters is deleted. -/
theorem C18_counterexample :
    (chDataOf (run exampleEnv noFiles translationOn) "-1001").translationEnabled = true ∧
    noTranslation.translation = none ∧
    (on_channel_post exampleEnv (run exampleEnv noFiles translationOn) (textPost 13 text91)
      noTranslation).2 = [Effect.translate text91, Effect.deleteMessage "-1001" 13] := by
  decide

/-- C18, amended. With translation moderation on, when the translation service
fails the post is not replaced: the pipeline issues no send, and after the
request only the length policy acts, so there is no delete when the text has at
most 90 UTF-16 units and exactly one, of the post, when it has more. -/
theorem C18_translation_failure (env : Env) (s : BotState) (post : ChannelPost)
    (o : PostOutcome) (t : String)
    (hon : (chDataOf s (toString post.chat_id)).translationEnabled = true)
    (ht : truthyOpt (postText post) = some t)
    (hfail : o.translation = none) :
    (jsLength t ≤ 90 → (on_channel_post env s post o).2 = [Effect.translate t]) ∧
    (90 < jsLength t → (on_channel_post env s post o).2 =
      [Effect.translate t, Effect.deleteMessage (toString post.chat_id) post.message_id]) := by
  rw [on_channel_post_effects, hon, moderationEffects_failed env post o t ht hfail]
  constructor
  · intro h
    simp [Nat.not_lt.mpr h]
  · intro h
    simp [h]

theorem C18_translation_failure_witness :
    (chDataOf (run exampleEnv noFiles translationOn)
      (toString (textPost 13 "Hola").chat_id)).translationEnabled = true ∧
    truthyOpt (postText (textPost 13 "Hola")) = some "Hola" ∧
    noTranslation.translation = none ∧
    (on_channel_post exampleEnv (run exampleEnv noFiles translationOn) (textPost 13 "Hola")
      noTranslation).2 = [Effect.translate "Hola"] :=
  ⟨by decide, by decide, rfl,
    (C18_translation_failure exampleEnv _ (textPost 13 "Hola") noTranslation "Hola"
      (by decide) (by decide) rfl).1 (by decide)⟩

/-- C19, as stated, fails: for the original `a b` and the translation `ab` with
the tag `en`, the texts are equal when case and whitespace are ignored, yet the
pipeline decides non-English. -/
theorem C19_counterexample :
    isNonEnglish exampleEnv { text := some "ab", fromLanguageIso := some (some "en") } "a b" =
      true ∧
    specNonEnglish exampleEnv "en" "ab" "a b" = false := by
  decide

/-- C19, amended. The pipeline decides non-English exactly when the result
carries a language whose tag is not `en` (a missing tag counts as not `en`), or
carries a non-empty translated text that differs from the original after both
are lower-cased and trimmed of leading and trailing whitespace. -/
theorem C19_non_english_iff (env : Env) (r : TranslateResult) (t : String) :
    isNonEnglish env r t = true ↔
      (∃ iso, r.fromLanguageIso = some iso ∧ iso ≠ some "en") ∨
      (∃ rt, r.text = some rt ∧ rt ≠ "" ∧
        jsTrim (env.toLowerCase rt) ≠ jsTrim (env.toLowerCase t)) := by
  unfold isNonEnglish
  rw [Bool.or_eq_true]
  constructor
  · rintro (h | h)
    · left
      cases hiso : r.fromLanguageIso with
      | none => simp [hiso] at h
      | some iso =>
        rw [hiso] at h
        exact ⟨iso, rfl, by simpa using h⟩
    · right
      cases htext : r.text with
      | none => simp [htext, truthyOpt] at h
      | some rt =>
        rw [htext] at h
        by_cases hrt : truthy rt = true
        · simp only [truthyOpt, hrt, if_true] at h
          exact ⟨rt, rfl, by simpa [truthy] using hrt, by simpa using h⟩
        · simp [truthyOpt, hrt] at h
  · rintro (⟨iso, hiso, hne⟩ | ⟨rt, htext, hne, hdiff⟩)
    · left
      rw [hiso]
      simpa using hne
    · right
      have hrt : truthy rt = true := by simpa [truthy] using hne
      rw [htext]
      simp only [truthyOpt, hrt, if_true]
      simpa using hdiff

/-- The pipeline on a post judged non-English when the delete and the re-post
succeed. -/
theorem moderationEffects_replaced (env : Env) (post : ChannelPost) (o : PostOutcome)
    (r : TranslateResult) (t : String)
    (ht : truthyOpt (postText post) = some t)
    (hr : o.translation = some r)
    (hn : isNonEnglish env r t = true)
    (hdel : o.deleteOk = true) (hsend : o.sendOk = true) :
    moderationEffects env true post o =
      [Effect.translate t, Effect.deleteMessage (toString post.chat_id) post.message_id,
        match postPhoto post with
        | some fileId => Effect.sendPhoto (toString post.chat_id) fileId (r.text.getD "")
        | none => Effect.sendMessage (toString post.chat_id) (r.text.getD "") false []] := by
  unfold moderationEffects
  cases hp : postPhoto post <;>
    simp only [ht, hr, hn, hdel, hsend, Bool.not_true, Bool.false_eq_true, if_false, if_true]

/-- C20. For a post judged non-English, when the delete and the re-post succeed,
the pipeline issues after the translation request exactly two calls on the
platform, in this order: the delete of the post, then one re-post of the
translated text, which is a photo send of the last photo size with the
translated text as caption when the post has photo sizes, and a plain text send
when it has none. -/
theorem C20_replace_by_translation (env : Env) (s : BotState) (post : ChannelPost)
    (o : PostOutcome) (r : TranslateResult) (t rt : String)
    (hon : (chDataOf s (toString post.chat_id)).translationEnabled = true)
    (ht : truthyOpt (postText post) = some t)
    (hr : o.translation = some r)
    (hn : isNonEnglish env r t = true)
    (hrt : r.text = some rt)
    (hdel : o.deleteOk = true) (hsend : o.sendOk = true) :
    (∀ sizes fileId, post.photo = some sizes → sizes.getLast? = some fileId → fileId ≠ "" →
      (on_channel_post env s post o).2 =
        [Effect.translate t, Effect.deleteMessage (toString post.chat_id) post.message_id,
          Effect.sendPhoto (toString post.chat_id) fileId rt]) ∧
    ((post.photo = none ∨ post.photo = some []) →
      (on_channel_post env s post o).2 =
        [Effect.translate t, Effect.deleteMessage (toString post.chat_id) post.message_id,
          Effect.sendMessage (toString post.chat_id) rt false []]) := by
  rw [on_channel_post_effects, hon, moderationEffects_replaced env post o r t ht hr hn hdel hsend,
    hrt]
  constructor
  · intro sizes fileId hp hl hf
    have hph : postPhoto post = some fileId := by
      simp [postPhoto, hp, hl, truthyOpt, truthy, hf]
    rw [hph]
    rfl
  · intro h
    have hph : postPhoto post = none := by
      rcases h with h | h
      · simp [postPhoto, h]
      · simp [postPhoto, h, truthyOpt]
    rw [hph]
    rfl

theorem C20_replace_by_translation_witness :
    (chDataOf (run exampleEnv noFiles translationOn)
      (toString (photoPost 13 "hola").chat_id)).translationEnabled = true ∧
    truthyOpt (postText (photoPost 13 "hola")) = some "hola" ∧
    isNonEnglish exampleEnv { text := some "hello", fromLanguageIso := some (some "es") }
      "hola" = true ∧
    (on_channel_post exampleEnv (run exampleEnv noFiles translationOn) (photoPost 13 "hola")
      (fromSpanish "hello")).2 =
      [Effect.translate "hola",
        Effect.deleteMessage (toString (photoPost 13 "hola").chat_id)
          (photoPost 13 "hola").message_id,
        Effect.sendPhoto (toString (photoPost 13 "hola").chat_id) "large" "hello"] :=
  ⟨by decide, by decide, by decide,
    (C20_replace_by_translation exampleEnv _ (photoPost 13 "hola") (fromSpanish "hello")
      { text := some "hello", fromLanguageIso := some (some "es") } "hola" "hello"
      (by decide) (by decide) rfl (by decide) rfl rfl rfl).1
      ["small", "medium", "large"] "large" rfl (by decide) (by decide)⟩

/-- The two re-posts, evaluated: a captioned photo for a post with photo sizes, a
plain text for a post without. -/
theorem replace_example :
    (on_channel_post exampleEnv (run exampleEnv noFiles translationOn) (photoPost 13 "hola")
      (fromSpanish "hello")).2 =
      [Effect.translate "hola", Effect.deleteMessage "-1001" 13,
        Effect.sendPhoto "-1001" "large" "hello"] ∧
    (on_channel_post exampleEnv (run exampleEnv noFiles translationOn) (textPost 13 "hola")
      (fromSpanish "hello")).2 =
      [Effect.translate "hola", Effect.deleteMessage "-1001" 13,
        Effect.sendMessage "-1001" "hello" false []] := by
  decide

end TGBot

namespace TGBot

/-! ## The translation branch when a call fails -/

/-- The pipeline on a post judged non-English, by the outcome of the delete and
the re-post. -/
theorem moderationEffects_nonEnglish (env : Env) (post : ChannelPost) (o : PostOutcome)
    (r : TranslateResult) (t : String)
    (ht : truthyOpt (postText post) = some t)
    (hr : o.translation = some r)
    (hn : isNonEnglish env r t = true) :
    moderationEffects env true post o =
      if o.deleteOk = false then
        Effect.translate t :: Effect.deleteMessage (toString post.chat_id) post.message_id ::
          (if 90 < jsLength t then
            [Effect.deleteMessage (toString post.chat_id) post.message_id] else [])
      else if o.sendOk = false then
        Effect.translate t :: Effect.deleteMessage (toString post.chat_id) post.message_id ::
          (match postPhoto post with
            | some fileId => Effect.sendPhoto (toString post.chat_id) fileId (r.text.getD "")
            | none => Effect.sendMessage (toString post.chat_id) (r.text.getD "") false []) ::
          (if 90 < jsLength t then
            [Effect.deleteMessage (toString post.chat_id) post.message_id] else [])
      else
        [Effect.translate t, Effect.deleteMessage (toString post.chat_id) post.message_id,
          match postPhoto post with
          | some fileId => Effect.sendPhoto (toString post.chat_id) fileId (r.text.getD "")
          | none => Effect.sendMessage (toString post.chat_id) (r.text.getD "") false []] := by
  unfold moderationEffects
  cases hp : postPhoto post <;> cases hd : o.deleteOk <;> cases hs : o.sendOk <;>
    simp [ht, hr, hn, lengthPolicy_of_text _ _ _ t ht]

/-- C21, as stated, fails: on a post of 91 letters judged non-English whose
delete fails, the pipeline calls delete twice; so it does when the delete
succeeds and the re-post fails. -/
theorem C21_counterexample :
    (chDataOf (run exampleEnv noFiles translationOn) "-1001").translationEnabled = true ∧
    isNonEnglish exampleEnv { text := some "hello", fromLanguageIso := some (some "es") }
      text91 = true ∧
    (on_channel_post exampleEnv (run exampleEnv noFiles translationOn) (textPost 13 text91)
      (deleteFails "hello")).2 =
      [Effect.translate text91, Effect.deleteMessage "-1001" 13,
        Effect.deleteMessage "-1001" 13] ∧
    (on_channel_post exampleEnv (run exampleEnv noFiles translationOn) (textPost 13 text91)
      (repostFails "hello")).2 =
      [Effect.translate text91, Effect.deleteMessage "-1001" 13,
        Effect.sendMessage "-1001" "hello" false [], Effect.deleteMessage "-1001" 13] := by
  decide

/-- C21, amended. For a post judged non-English: when the delete and the re-post
both succeed the length policy is not applied and the pipeline calls delete once;
when the delete or the re-post fails the length policy still runs, and the
pipeline calls delete once when the text has at most 90 UTF-16 units and twice
when it has more.  In every case it calls delete at most twice, and only on the
post. -/
theorem C21_delete_calls (env : Env) (s : BotState) (post : ChannelPost) (o : PostOutcome)
    (r : TranslateResult) (t : String)
    (hon : (chDataOf s (toString post.chat_id)).translationEnabled = true)
    (ht : truthyOpt (postText post) = some t)
    (hr : o.translation = some r)
    (hn : isNonEnglish env r t = true) :
    (o.deleteOk = true → o.sendOk = true →
      (on_channel_post env s post o).2.count
        (Effect.deleteMessage (toString post.chat_id) post.message_id) = 1) ∧
    (o.deleteOk = false ∨ o.sendOk = false →
      (on_channel_post env s post o).2.count
        (Effect.deleteMessage (toString post.chat_id) post.message_id) =
          if 90 < jsLength t then 2 else 1) ∧
    (on_channel_post env s post o).2.count
      (Effect.deleteMessage (toString post.chat_id) post.message_id) ≤ 2 ∧
    ∀ chat m, Effect.deleteMessage chat m ∈ (on_channel_post env s post o).2 →
      chat = toString post.chat_id ∧ m = post.message_id := by
  rw [on_channel_post_effects, hon, moderationEffects_nonEnglish env post o r t ht hr hn]
  cases hp : postPhoto post <;> cases hd : o.deleteOk <;> cases hs : o.sendOk <;>
    by_cases hl : 90 < jsLength t <;> simp [hl, List.count_cons]

theorem C21_delete_calls_witness :
    (chDataOf (run exampleEnv noFiles translationOn)
      (toString (textPost 13 text91).chat_id)).translationEnabled = true ∧
    truthyOpt (postText (textPost 13 text91)) = some text91 ∧
    (on_channel_post exampleEnv (run exampleEnv noFiles translationOn) (textPost 13 text91)
      (fromSpanish "hello")).2.count
        (Effect.deleteMessage (toString (textPost 13 text91).chat_id)
          (textPost 13 text91).message_id) = 1 ∧
    (on_channel_post exampleEnv (run exampleEnv noFiles translationOn) (textPost 13 text91)
      (deleteFails "hello")).2.count
        (Effect.deleteMessage (toString (textPost 13 text91).chat_id)
          (textPost 13 text91).message_id) = 2 :=
  ⟨by decide, by decide,
    (C21_delete_calls exampleEnv (run exampleEnv noFiles translationOn) (textPost 13 text91)
      (fromSpanish "hello") { text := some "hello", fromLanguageIso := some (some "es") } text91
      (by decide) (by decide) rfl (by decide)).1 rfl rfl,
    ((C21_delete_calls exampleEnv (run exampleEnv noFiles translationOn) (textPost 13 text91)
      (deleteFails "hello") { text := some "hello", fromLanguageIso := some (some "es") } text91
      (by decide) (by decide) rfl (by decide)).2.1 (Or.inl rfl)).trans (by decide)⟩

/-! ## Tracking comes first -/

theorem mem_trackMessageId (ids : List Nat) (m : Nat) : m ∈ trackMessageId ids m := by
  unfold trackMessageId
  split
  · rename_i h
    simpa using h
  · split
    · cases ids with
      | nil => simp at *
      | cons a rest => simp
    · simp

/-- C24. Whatever the later steps of the pipeline do with a post (replace it by
a translation, delete it for its length, fail to translate it, or leave it
alone), the identifier of the post is in the tracked sequence of its channel in
the state the handler leaves. -/
theorem C24_post_is_tracked (env : Env) (s : BotState) (post : ChannelPost) (o : PostOutcome) :
    post.message_id ∈
      (chDataOf (on_channel_post env s post o).1 (toString post.chat_id)).messageIds := by
  rw [on_channel_post_messageIds]
  exact mem_trackMessageId _ _

/-- With the sequence full, a new post is tracked and the oldest id is dropped. -/
theorem C24_post_is_tracked_witness :
    5000 ∈ (chDataOf (on_channel_post exampleEnv fullChannel (barePost 5000) noTranslation).1
      (toString (barePost 5000).chat_id)).messageIds :=
  C24_post_is_tracked _ _ _ _

end TGBot

namespace TGBot

/-! ## Handles seen in posts -/

/-- Whitespace around a text that neither starts nor ends with whitespace is
trimmed away. -/
theorem jsTrim_core (before core after : List Char)
    (hb : ∀ a ∈ before, isJsWhiteSpace a = true)
    (ha : ∀ a ∈ after, isJsWhiteSpace a = true)
    (hne : core ≠ [])
    (hfirst : ∀ a, core.head? = some a → isJsWhiteSpace a = false)
    (hlast : ∀ a, core.getLast? = some a → isJsWhiteSpace a = false) :
    jsTrim (String.mk (before ++ core ++ after)) = String.mk core := by
  obtain ⟨d0, dr, rfl⟩ := List.exists_cons_of_ne_nil hne
  have hd0 : isJsWhiteSpace d0 = false := hfirst d0 rfl
  have hrev : (d0 :: dr).reverse ≠ [] := by simp
  obtain ⟨x, xs, hx⟩ := List.exists_cons_of_ne_nil hrev
  have hxl : (d0 :: dr).getLast? = some x := by
    rw [← List.head?_reverse, hx]
    rfl
  have hxw : isJsWhiteSpace x = false := hlast x hxl
  have h1 : (before ++ (d0 :: dr) ++ after).dropWhile isJsWhiteSpace = d0 :: (dr ++ after) := by
    rw [List.append_assoc, List.cons_append]
    exact dropWhile_append_cons _ _ _ _ hb hd0
  have h2 : (d0 :: (dr ++ after)).reverse = after.reverse ++ x :: xs := by
    rw [← List.cons_append, List.reverse_append, hx]
  have h3 : (after.reverse ++ x :: xs).dropWhile isJsWhiteSpace = x :: xs :=
    dropWhile_append_cons _ _ _ _ (fun a h => ha a (List.mem_reverse.mp h)) hxw
  show String.mk (((before ++ (d0 :: dr) ++ after).dropWhile isJsWhiteSpace).reverse.dropWhile
    isJsWhiteSpace).reverse = String.mk (d0 :: dr)
  rw [h1, h2, h3, ← hx, List.reverse_reverse]

/-- The username table after a post whose sender has a handle. -/
theorem on_channel_post_usernameToIdMap (env : Env) (s : BotState) (post : ChannelPost)
    (o : PostOutcome) :
    (chDataOf (on_channel_post env s post o).1 (toString post.chat_id)).usernameToIdMap =
      trackSender env (chDataOf s (toString post.chat_id)).usernameToIdMap post.sender_chat := by
  unfold on_channel_post
  simp only [chDataOf_putChannelData, if_true]

theorem handleOf_plain (env : Env) (w : List Char)
    (h : ∀ a, w.head? = some a → a ≠ '@') :
    handleOf env (String.mk w) = env.toLowerCase (String.mk w) := by
  unfold handleOf
  cases w with
  | nil => rfl
  | cons a rest =>
    have ha : a ≠ '@' := h a rfl
    show (match a :: rest with
      | '@' :: rest => env.toLowerCase (String.mk rest)
      | _ => env.toLowerCase (String.mk (a :: rest))) = _
    split
    · rename_i heq
      simp only [List.cons.injEq] at heq
      exact absurd heq.1 ha
    · rfl

theorem handleOf_at (env : Env) (w : List Char) :
    handleOf env (String.mk ('@' :: w)) = env.toLowerCase (String.mk w) := rfl

theorem allDigits_at (w : List Char) : allDigits (String.mk ('@' :: w)) = false := by
  simp [allDigits, isDigit]

/-- C25. After the pipeline has processed a post whose sender has handle `H`
and identity `I`, the username table of the channel holds `I` for the
lower-cased `H`; and in every state in which it still does, an input that
writes the handle in any letter case (a text `w` with the same lower-casing,
not made up of digits only, that neither starts with `@` nor starts or ends
with whitespace), with or without one leading `@` and with whitespace around
it, is resolved to `I`. -/
theorem C25_posted_handle_resolves (env : Env) (s : BotState) (post : ChannelPost)
    (o : PostOutcome) (H : String) (I : Int)
    (hsender : post.sender_chat = some { id := I, username := some H })
    (hH : H ≠ "") :
    (chDataOf (on_channel_post env s post o).1 (toString post.chat_id)).usernameToIdMap.get
      (env.toLowerCase H) = some I ∧
    ∀ s2 : BotState,
      (chDataOf s2 (toString post.chat_id)).usernameToIdMap.get (env.toLowerCase H) = some I →
      ∀ w before after : List Char,
        env.toLowerCase (String.mk w) = env.toLowerCase H →
        allDigits (String.mk w) = false →
        w ≠ [] →
        (∀ a, w.head? = some a → isJsWhiteSpace a = false ∧ a ≠ '@') →
        (∀ a, w.getLast? = some a → isJsWhiteSpace a = false) →
        (∀ a ∈ before, isJsWhiteSpace a = true) →
        (∀ a ∈ after, isJsWhiteSpace a = true) →
        (resolveUserIdentifier env s2 (String.mk (before ++ w ++ after))
          (toString post.chat_id)).2 = some I ∧
        (resolveUserIdentifier env s2 (String.mk (before ++ ('@' :: w) ++ after))
          (toString post.chat_id)).2 = some I := by
  constructor
  · rw [on_channel_post_usernameToIdMap, hsender]
    have ht : truthyOpt (some H) = some H := by
      simp [truthyOpt, truthy, hH]
    simp only [trackSender, ht, JsMap.get_set, if_true]
  · intro s2 hentry w before after hcase hdig hne hfirst hlast hb ha
    have h1 : jsTrim (String.mk (before ++ w ++ after)) = String.mk w :=
      jsTrim_core before w after hb ha hne (fun a h => (hfirst a h).1) hlast
    have h2 : jsTrim (String.mk (before ++ ('@' :: w) ++ after)) = String.mk ('@' :: w) := by
      refine jsTrim_core before ('@' :: w) after hb ha (by simp) ?_ ?_
      · intro a h
        simp only [List.head?_cons, Option.some.injEq] at h
        subst h
        decide
      · intro a h
        obtain ⟨b, rest, rfl⟩ := List.exists_cons_of_ne_nil hne
        exact hlast a (by simpa [List.getLast?_cons_cons] using h)
    constructor
    · rw [resolveUserIdentifier_handle env s2 _ _ (by rw [h1]; exact hdig), h1,
        handleOf_plain env w (fun a h => (hfirst a h).2), hcase]
      exact hentry
    · rw [resolveUserIdentifier_handle env s2 _ _ (by rw [h2]; exact allDigits_at w), h2,
        handleOf_at, hcase]
      exact hentry

theorem C25_posted_handle_resolves_witness :
    (alicePost 10).sender_chat = some { id := -5, username := some "Alice" } ∧
    (resolveUserIdentifier exampleEnv (run exampleEnv noFiles aliceKnown)
      (String.mk (" ".toList ++ "ALICE".toList ++ "  ".toList))
      (toString (alicePost 10).chat_id)).2 = some (-5) ∧
    (resolveUserIdentifier exampleEnv (run exampleEnv noFiles aliceKnown)
      (String.mk (" ".toList ++ ('@' :: "ALICE".toList) ++ "  ".toList))
      (toString (alicePost 10).chat_id)).2 = some (-5) :=
  ⟨rfl,
    (C25_posted_handle_resolves exampleEnv (run exampleEnv noFiles (aliceKnown.take 3))
      (alicePost 10) noTranslation "Alice" (-5) rfl (by decide)).2
      (run exampleEnv noFiles aliceKnown) (by decide) "ALICE".toList " ".toList "  ".toList
      (by decide) (by decide) (by decide)
      (by intro a h; cases h; decide) (by intro a h; cases h; decide)
      (by decide) (by decide)⟩

end TGBot

namespace TGBot

/-! ## The counts a bulk deletion reports -/

/-- Every position of the snapshot is counted once: as a successful delete, as
pinned, as a permanent failure, or as left unresolved. -/
theorem bulk_positions_partition (pinned : Option Nat) (delete : Nat → DeleteResult)
    (ids : List Nat) : ∀ i,
    successfulDeletes pinned delete i ids +
        (pinnedCount pinned ids + permanentFailures pinned delete i ids) +
        (unresolvedIds pinned delete i ids).length = ids.length := by
  induction ids with
  | nil =>
    intro i
    cases pinned <;> simp [successfulDeletes, pinnedCount, permanentFailures, unresolvedIds]
  | cons a rest ih =>
    intro i
    have h := ih (i + 1)
    cases pinned with
    | none =>
      simp only [pinnedCount, Nat.zero_add] at h ⊢
      unfold successfulDeletes permanentFailures unresolvedIds bulkResolved
      cases hd : delete i with
      | ok =>
        simp [isUndeletable]
        omega
      | error d =>
        by_cases hu : isUndeletable (DeleteResult.error d) = true
        · simp [hu]
          omega
        · simp [hu]
          omega
    | some p =>
      simp only [pinnedCount] at h ⊢
      unfold successfulDeletes permanentFailures unresolvedIds bulkResolved
      by_cases hp : p = a
      · subst hp
        simp
        omega
      · rw [List.count_cons_of_ne hp]
        cases hd : delete i with
        | ok =>
          simp [isUndeletable, hp]
          omega
        | error d =>
          by_cases hu : isUndeletable (DeleteResult.error d) = true
          · simp [hu, hp]
            omega
          · simp [hu, hp]
            omega

/-- C28. For a bulk deletion over distinct tracked ids, the handler reports
exactly one triple of counts: the number of successful delete calls, the number
of pinned ids plus permanent failures, and the number of ids still tracked; the
three add up to the number of ids in the snapshot. -/
theorem C28_counts_add_up (s : BotState) (userId : Int) (c : String) (o : BulkOutcome)
    (hsel : truthyOpt (s.selectedChannel.get userId) = some c)
    (hnd : (chDataOf s c).messageIds.Nodup) :
    (∀ deleted skipped remaining,
      Effect.reply (Reply.deletionComplete deleted skipped remaining) ∈
          (action_confirm_delete_all s userId o).2 ↔
        deleted = successfulDeletes (pinnedMessageId o) o.delete 0 (chDataOf s c).messageIds ∧
        skipped = pinnedCount (pinnedMessageId o) (chDataOf s c).messageIds +
          permanentFailures (pinnedMessageId o) o.delete 0 (chDataOf s c).messageIds ∧
        remaining = (chDataOf (action_confirm_delete_all s userId o).1 c).messageIds.length) ∧
    successfulDeletes (pinnedMessageId o) o.delete 0 (chDataOf s c).messageIds +
        (pinnedCount (pinnedMessageId o) (chDataOf s c).messageIds +
          permanentFailures (pinnedMessageId o) o.delete 0 (chDataOf s c).messageIds) +
        (chDataOf (action_confirm_delete_all s userId o).1 c).messageIds.length =
      (chDataOf s c).messageIds.length := by
  have hrun : action_confirm_delete_all s userId o = bulkDelete s c o := by
    simp only [action_confirm_delete_all, hsel]
  rw [hrun]
  constructor
  · intro deleted skipped remaining
    rw [bulkDelete_effects]
    simp only [List.mem_cons, List.mem_append, List.mem_map, List.mem_singleton,
      Effect.reply.injEq, Reply.deletionComplete.injEq, reduceCtorEq, false_or, and_false,
      exists_false, List.not_mem_nil, or_false]
  · rw [bulkDelete_messageIds, removeResolved_eq_unresolvedIds _ _ _ 0 hnd]
    exact bulk_positions_partition _ _ _ 0

theorem C28_counts_add_up_witness :
    truthyOpt ((run exampleEnv noFiles threePosts).selectedChannel.get 1) = some "-1001" ∧
    (chDataOf (run exampleEnv noFiles threePosts) "-1001").messageIds.Nodup ∧
    successfulDeletes (pinnedMessageId thirdFails) thirdFails.delete 0
        (chDataOf (run exampleEnv noFiles threePosts) "-1001").messageIds +
      (pinnedCount (pinnedMessageId thirdFails)
          (chDataOf (run exampleEnv noFiles threePosts) "-1001").messageIds +
        permanentFailures (pinnedMessageId thirdFails) thirdFails.delete 0
          (chDataOf (run exampleEnv noFiles threePosts) "-1001").messageIds) +
      (chDataOf (action_confirm_delete_all (run exampleEnv noFiles threePosts) 1
        thirdFails).1 "-1001").messageIds.length =
    (chDataOf (run exampleEnv noFiles threePosts) "-1001").messageIds.length :=
  ⟨by decide, by decide,
    (C28_counts_add_up _ 1 "-1001" thirdFails (by decide) (by decide)).2⟩

/-- The run of `thirdFails` on the three tracked posts reports one message
deleted, one skipped and one still tracked. -/
theorem counts_example :
    (action_confirm_delete_all (run exampleEnv noFiles threePosts) 1 thirdFails).2 =
      [Effect.getChat "-1001", Effect.deleteMessage "-1001" 10,
        Effect.deleteMessage "-1001" 12, Effect.reply (Reply.deletionComplete 1 1 1)] := by
  decide

end TGBot

namespace TGBot

/-! ## Handlers that leave the tracked ids alone -/

theorem SameTracked_refl (s : BotState) : SameTracked s s := fun _ => rfl

theorem SameTracked_trans {s s1 s2 : BotState} (h1 : SameTracked s s1)
    (h2 : SameTracked s1 s2) : SameTracked s s2 :=
  fun c => (h2 c).trans (h1 c)

theorem TrackedInv_of_SameTracked {s s1 : BotState} (h : SameTracked s s1)
    (hi : TrackedInv s) : TrackedInv s1 := by
  intro c
  rw [chDataOf_chOf, h c, ← chDataOf_chOf]
  exact hi c

theorem SameTracked_getChannelData (s : BotState) (c : String) :
    SameTracked s (getChannelData s c).1 :=
  fun c1 => by simp

theorem SameTracked_putChannelData (s : BotState) (c : String) (d : ChannelData)
    (h : d.messageIds = (chDataOf s c).messageIds) :
    SameTracked s (putChannelData s c d) := by
  intro c1
  simp only [putChannelData, chOf_set]
  split
  · rename_i h1
    subst h1
    rw [h, chDataOf_chOf]
  · rfl

theorem SameTracked_startAutoMessages (env : Env) (s : BotState) (c : String) :
    SameTracked s (startAutoMessages env s c).1 := by
  unfold startAutoMessages
  dsimp only
  split
  · refine SameTracked_trans (SameTracked_getChannelData s c) ?_
    refine @SameTracked_trans _ ({ (getChannelData s c).1 with
      tasks := stopJob (getChannelData s c).1.tasks (getChannelData s c).2.autoMessageJob ++
        [{ id := (stopJob (getChannelData s c).1.tasks
              (getChannelData s c).2.autoMessageJob).length
           channelId := c
           expression := (getChannelData s c).2.autoMessageConfig.interval
           running := true }] }) _ (fun _ => rfl) ?_
    refine SameTracked_trans (SameTracked_putChannelData _ c _ ?_) (fun _ => rfl)
    simp [chDataOf_chOf]
  · exact SameTracked_trans (SameTracked_getChannelData s c) (fun _ => rfl)

theorem SameTracked_stopAutoMessages (s : BotState) (c : String) :
    SameTracked s (stopAutoMessages s c) := by
  unfold stopAutoMessages
  dsimp only
  refine SameTracked_trans (SameTracked_getChannelData s c) ?_
  refine @SameTracked_trans _ ({ (getChannelData s c).1 with
    tasks := stopJob (getChannelData s c).1.tasks (getChannelData s c).2.autoMessageJob })
    _ (fun _ => rfl) ?_
  refine SameTracked_trans (SameTracked_putChannelData _ c _ ?_) (fun _ => rfl)
  simp [chDataOf_chOf]

theorem SameTracked_clearStep (s : BotState) (u : Int) : SameTracked s (clearStep s u) :=
  fun _ => rfl

theorem SameTracked_clearConversation (s : BotState) (u : Int) :
    SameTracked s (clearConversation s u) :=
  fun _ => rfl

theorem SameTracked_beginStep (s : BotState) (u : Int) (st : Step) :
    SameTracked s (beginStep s u st) :=
  fun _ => rfl

theorem SameTracked_saveChannelData (s : BotState) : SameTracked s (saveChannelData s) :=
  fun _ => rfl

theorem SameTracked_command_start (s : BotState) (u : Int) :
    SameTracked s (command_start s u) := by
  unfold command_start
  repeat' split
  all_goals first | exact SameTracked_refl _

theorem SameTracked_command_menu (s : BotState) (u : Int) :
    SameTracked s (command_menu s u) := by
  unfold command_menu
  split
  · exact SameTracked_refl _
  · exact SameTracked_clearConversation _ _

theorem SameTracked_autoMessageTick (s : BotState) (c : String) (o : TickOutcome) :
    SameTracked s (autoMessageTick s c o).1 := by
  unfold autoMessageTick
  dsimp only
  repeat' split
  all_goals first | exact SameTracked_refl _ | exact SameTracked_putChannelData _ _ _ rfl

theorem SameTracked_loadChannelAdmins (env : Env) (s : BotState) (c : String)
    (admins : Option (List (Option String × Int))) :
    SameTracked s (loadChannelAdmins env s c admins) := by
  unfold loadChannelAdmins
  split
  · exact SameTracked_refl _
  · exact SameTracked_putChannelData _ _ _ rfl

theorem SameTracked_resolveUserIdentifier (env : Env) (s : BotState) (t c : String) :
    SameTracked s (resolveUserIdentifier env s t c).1 := by
  unfold resolveUserIdentifier
  dsimp only
  split
  · exact SameTracked_refl _
  · exact SameTracked_getChannelData _ _

theorem SameTracked_targetStep (env : Env) (s : BotState) (u : Int) (text : String)
    (step : Step) (call : String → Int → Effect) (o : TextOutcome) :
    SameTracked s (targetStep env s u text step call o).1 := by
  unfold targetStep
  split
  · exact SameTracked_refl _
  · rename_i c _
    have h := SameTracked_resolveUserIdentifier env s text c
    split
    · rename_i s1 heq
      rw [heq] at h
      exact SameTracked_trans h (SameTracked_clearStep _ _)
    · rename_i s1 target heq
      rw [heq] at h
      split <;> exact SameTracked_trans h (SameTracked_clearStep _ _)

theorem SameTracked_simpleStep (s : BotState) (u : Int) (step : Step)
    (call : String → Effect) (o : TextOutcome) :
    SameTracked s (simpleStep s u step call o).1 := by
  unfold simpleStep
  repeat' split
  all_goals first | exact SameTracked_refl _

theorem SameTracked_addChannel (env : Env) (s : BotState) (u : Int) (c : String)
    (admins : Option (List (Option String × Int))) :
    SameTracked s (addChannel env s u c admins) := by
  unfold addChannel
  dsimp only
  refine SameTracked_trans (SameTracked_trans ?_ (SameTracked_loadChannelAdmins _ _ _ _))
    (SameTracked_clearStep _ _)
  split <;> exact fun _ => rfl

theorem SameTracked_channelForwardStep (env : Env) (s : BotState) (u : Int)
    (msg : TextMessage) (o : TextOutcome) :
    SameTracked s (channelForwardStep env s u msg o).1 := by
  unfold channelForwardStep
  dsimp only
  repeat' split
  all_goals first
    | exact SameTracked_refl _
    | exact SameTracked_addChannel _ _ _ _ _

theorem SameTracked_autoMessageTextStep (s : BotState) (u : Int) (text : String) :
    SameTracked s (autoMessageTextStep s u text).1 := by
  unfold autoMessageTextStep
  dsimp only
  split
  · exact SameTracked_refl _
  · refine SameTracked_trans ?_ (SameTracked_clearStep _ _)
    refine SameTracked_trans ?_ (SameTracked_saveChannelData _)
    exact SameTracked_putChannelData _ _ _ rfl

theorem SameTracked_urlButtonTextStep (s : BotState) (u : Int) (text : String) :
    SameTracked s (urlButtonTextStep s u text).1 := by
  unfold urlButtonTextStep
  split
  · exact fun _ => rfl
  · exact SameTracked_refl _

theorem SameTracked_urlButtonUrlStep (s : BotState) (u : Int) (text : String) :
    SameTracked s (urlButtonUrlStep s u text).1 := by
  unfold urlButtonUrlStep
  dsimp only
  repeat' split
  all_goals first
    | exact SameTracked_refl _
    | (refine SameTracked_trans ?_ (SameTracked_clearConversation _ _)
       refine SameTracked_trans ?_ (SameTracked_saveChannelData _)
       exact SameTracked_putChannelData _ _ _ rfl)

theorem SameTracked_on_text (env : Env) (s : BotState) (u : Int) (msg : TextMessage)
    (o : TextOutcome) : SameTracked s (on_text env s u msg o).1 := by
  unfold on_text
  split
  · exact SameTracked_refl _
  · split
    · split
      · exact fun _ => rfl
      · exact SameTracked_refl _
    · split
      · exact SameTracked_refl _
      · exact SameTracked_channelForwardStep _ _ _ _ _
      · exact SameTracked_simpleStep _ _ _ _ _
      · exact SameTracked_simpleStep _ _ _ _ _
      · exact SameTracked_targetStep _ _ _ _ _ _ _
      · exact SameTracked_targetStep _ _ _ _ _ _ _
      · exact SameTracked_targetStep _ _ _ _ _ _ _
      · exact SameTracked_targetStep _ _ _ _ _ _ _
      · exact SameTracked_targetStep _ _ _ _ _ _ _
      · exact SameTracked_targetStep _ _ _ _ _ _ _
      · exact SameTracked_autoMessageTextStep _ _ _
      · exact SameTracked_urlButtonTextStep _ _ _
      · exact SameTracked_urlButtonUrlStep _ _ _

theorem SameTracked_update_config (s : BotState) (c : String) (cfg : AutoMessageConfig)
    (tr : Bool) :
    SameTracked s (saveChannelData (putChannelData s c
      { chDataOf s c with autoMessageConfig := cfg, translationEnabled := tr })) := by
  refine SameTracked_trans ?_ (SameTracked_saveChannelData _)
  exact SameTracked_putChannelData _ c _ rfl

theorem SameTracked_remove_channel (s : BotState) (u : Int) (c : String) :
    SameTracked s (action_remove_channel s u c) := by
  unfold action_remove_channel
  dsimp only
  split
  · exact SameTracked_refl _
  · split
    · exact SameTracked_refl _
    · split
      · exact SameTracked_refl _
      · refine @SameTracked_trans _ (match (chDataOf s c).autoMessageJob with
          | some j =>
            putChannelData { (getChannelData s c).1 with
                tasks := stopJob (getChannelData s c).1.tasks (some j) } c
              { chDataOf s c with autoMessageJob := none }
          | none => (getChannelData s c).1) _ ?_ ?_
        · cases h : (chDataOf s c).autoMessageJob with
          | none => exact SameTracked_getChannelData s c
          | some j =>
            refine SameTracked_trans (SameTracked_getChannelData s c) ?_
            refine @SameTracked_trans _ ({ (getChannelData s c).1 with
              tasks := stopJob (getChannelData s c).1.tasks (some j) }) _ (fun _ => rfl) ?_
            exact SameTracked_putChannelData _ c _ (by simp [chDataOf_chOf])
        · simp only [getChannelData_snd]
          exact fun _ => rfl

theorem SameTracked_ite_start (env : Env) (s : BotState) (c : String) (b : Bool) :
    SameTracked s (if b = true then (startAutoMessages env s c).1 else s) := by
  split
  · exact SameTracked_startAutoMessages env s c
  · exact SameTracked_refl _

theorem SameTracked_action_interval (env : Env) (s : BotState) (u : Int) (e : String) :
    SameTracked s (action_interval env s u e) := by
  unfold action_interval
  dsimp only
  split
  · exact SameTracked_refl _
  · rename_i c _
    refine SameTracked_trans ?_ (SameTracked_ite_start env _ c _)
    refine SameTracked_trans ?_ (SameTracked_saveChannelData _)
    refine SameTracked_trans ?_ (SameTracked_putChannelData _ c _ rfl)
    split
    · exact SameTracked_stopAutoMessages s c
    · exact SameTracked_getChannelData s c

theorem SameTracked_action_start (env : Env) (s : BotState) (u : Int) :
    SameTracked s (action_start_auto_messages env s u).1 := by
  unfold action_start_auto_messages
  dsimp only
  split
  · exact SameTracked_refl _
  · split
    · exact SameTracked_getChannelData s _
    · exact SameTracked_trans (SameTracked_getChannelData s _) (SameTracked_startAutoMessages env _ _)

theorem SameTracked_action_stop (s : BotState) (u : Int) :
    SameTracked s (action_stop_auto_messages s u) := by
  unfold action_stop_auto_messages
  split
  · exact SameTracked_refl _
  · exact SameTracked_stopAutoMessages s _

theorem SameTracked_on_action (env : Env) (s : BotState) (u : Int) (a : Action) :
    SameTracked s (on_action env s u a) := by
  cases a
  case remove_channel c => exact SameTracked_remove_channel s u c
  case interval e => exact SameTracked_action_interval env s u e
  case start_auto_messages => exact SameTracked_action_start env s u
  case stop_auto_messages => exact SameTracked_action_stop s u
  all_goals
    simp only [on_action, action_select_channel, action_menu, action_menu_auto_messages,
      action_menu_translation, action_clear_url_buttons, action_toggle_delete_previous,
      action_toggle_translation, action_begin, action_read_channel]
    repeat' split
    all_goals first
      | exact SameTracked_refl _
      | exact SameTracked_getChannelData _ _
      | exact SameTracked_update_config _ _ _ _

theorem SameTracked_loadEntries (env : Env) (entries : List (String × PersistedChannel)) :
    ∀ s : BotState, SameTracked s (loadEntries env s entries) := by
  induction entries with
  | nil => intro s; exact SameTracked_refl _
  | cons e rest ih =>
    intro s
    obtain ⟨c, p⟩ := e
    unfold loadEntries
    dsimp only
    have h2 : SameTracked s (putChannelData (getChannelData s c).1 c
        { chDataOf s c with
          autoMessageConfig := p.autoMessageConfig.getD (chDataOf s c).autoMessageConfig
          translationEnabled := p.translationEnabled.getD false }) :=
      SameTracked_trans (SameTracked_getChannelData s c) (SameTracked_putChannelData _ c _
        (by simp [chDataOf_chOf]))
    simp only [getChannelData_snd]
    split
    · split
      · exact SameTracked_trans (SameTracked_trans h2 (SameTracked_startAutoMessages env _ c)) (ih _)
      · exact SameTracked_trans h2 (SameTracked_startAutoMessages env _ c)
    · exact SameTracked_trans h2 (ih _)

theorem TrackedInv_boot (env : Env) (disk : Disk) : TrackedInv (boot env disk) := by
  have h0 : (loadUserChannels (loadAuthenticatedUsers (emptyState disk))).channelData = [] := by
    unfold loadUserChannels loadAuthenticatedUsers
    repeat' split
    all_goals rfl
  have h1 : TrackedInv (loadUserChannels (loadAuthenticatedUsers (emptyState disk))) := by
    intro c
    rw [chDataOf_eq, h0]
    exact List.nodup_nil
  unfold boot loadChannelData
  split
  · exact h1
  · exact TrackedInv_of_SameTracked (SameTracked_loadEntries env _ _) h1

/-! ## Tracking and bulk deletion keep the ids distinct -/

theorem trackMessageId_of_mem (ids : List Nat) (m : Nat) (h : m ∈ ids) :
    trackMessageId ids m = ids := by
  unfold trackMessageId
  simp [h]

theorem nodup_trackMessageId (ids : List Nat) (m : Nat) (h : ids.Nodup) :
    (trackMessageId ids m).Nodup := by
  unfold trackMessageId
  split
  · exact h
  · rename_i hm
    have hn : (ids ++ [m]).Nodup := by
      rw [List.nodup_append]
      refine ⟨h, List.nodup_singleton m, ?_⟩
      intro a ha hb
      simp only [List.mem_singleton] at hb
      subst hb
      simp [ha] at hm
    split
    · exact hn.sublist (List.tail_sublist _)
    · exact hn

theorem removeResolved_sublist (ds : List Nat) :
    ∀ ids : List Nat, (removeResolved ids ds).Sublist ids := by
  induction ds with
  | nil => intro ids; exact List.Sublist.refl _
  | cons d rest ih =>
    intro ids
    unfold removeResolved
    rw [List.foldl_cons]
    exact (ih (ids.erase d)).trans (List.erase_sublist d ids)

theorem chDataOf_on_channel_post_other (env : Env) (s : BotState) (post : ChannelPost)
    (o : PostOutcome) (c : String) (h : toString post.chat_id ≠ c) :
    chDataOf (on_channel_post env s post o).1 c = chDataOf s c := by
  unfold on_channel_post
  simp only [chDataOf_putChannelData, h, if_false]

theorem nodup_on_channel_post (env : Env) (s : BotState) (post : ChannelPost)
    (o : PostOutcome) (c : String) (h : (chDataOf s c).messageIds.Nodup) :
    (chDataOf (on_channel_post env s post o).1 c).messageIds.Nodup := by
  by_cases hc : toString post.chat_id = c
  · subst hc
    rw [on_channel_post_messageIds]
    exact nodup_trackMessageId _ _ h
  · rw [chDataOf_on_channel_post_other env s post o c hc]
    exact h

theorem nodup_bulkDelete (s : BotState) (c0 : String) (o : BulkOutcome) (c : String)
    (h : (chDataOf s c).messageIds.Nodup) :
    (chDataOf (bulkDelete s c0 o).1 c).messageIds.Nodup := by
  by_cases hc : c0 = c
  · subst hc
    rw [bulkDelete_messageIds]
    exact h.sublist (removeResolved_sublist _ _)
  · unfold bulkDelete
    simp only [chDataOf_putChannelData, hc, if_false, chDataOf_getChannelData]
    exact h

theorem nodup_confirm_delete_all (s : BotState) (u : Int) (o : BulkOutcome) (c : String)
    (h : (chDataOf s c).messageIds.Nodup) :
    (chDataOf (action_confirm_delete_all s u o).1 c).messageIds.Nodup := by
  unfold action_confirm_delete_all
  split
  · exact h
  · exact nodup_bulkDelete s _ o c h

theorem TrackedInv_step (env : Env) (s : BotState) (e : Event) (hi : TrackedInv s) :
    TrackedInv (step env s e) := by
  cases e with
  | command_start u => exact TrackedInv_of_SameTracked (SameTracked_command_start s u) hi
  | command_menu u => exact TrackedInv_of_SameTracked (SameTracked_command_menu s u) hi
  | action u a => exact TrackedInv_of_SameTracked (SameTracked_on_action env s u a) hi
  | confirm_delete_all u o => exact fun c => nodup_confirm_delete_all s u o c (hi c)
  | channel_post post o => exact fun c => nodup_on_channel_post env s post o c (hi c)
  | text u msg o => exact TrackedInv_of_SameTracked (SameTracked_on_text env s u msg o) hi
  | tick task o =>
    simp only [step]
    repeat' split
    all_goals first
      | exact hi
      | exact TrackedInv_of_SameTracked (SameTracked_autoMessageTick s _ o) hi
  | restart => exact TrackedInv_boot env s.disk

theorem TrackedInv_of_Reachable (env : Env) (disk : Disk) (s : BotState)
    (h : Reachable env disk s) : TrackedInv s := by
  induction h with
  | start => exact TrackedInv_boot env disk
  | next s e _ _ ih => exact TrackedInv_step env s e ih

/-- C29. In every state the process can reach, no channel tracks an id twice.
In any state, tracking a post whose id is already tracked leaves the sequence
as it is; tracking a post, and a bulk deletion, keep a duplicate-free sequence
duplicate-free. -/
theorem C29_tracked_ids_distinct (env : Env) (disk : Disk) (s : BotState)
    (h : Reachable env disk s) :
    (∀ c, (chDataOf s c).messageIds.Nodup) ∧
    (∀ (s0 : BotState) (post : ChannelPost) (o : PostOutcome),
      post.message_id ∈ (chDataOf s0 (toString post.chat_id)).messageIds →
      (chDataOf (on_channel_post env s0 post o).1 (toString post.chat_id)).messageIds =
        (chDataOf s0 (toString post.chat_id)).messageIds) ∧
    (∀ (s0 : BotState) (post : ChannelPost) (o : PostOutcome) (c : String),
      (chDataOf s0 c).messageIds.Nodup →
      (chDataOf (on_channel_post env s0 post o).1 c).messageIds.Nodup) ∧
    (∀ (s0 : BotState) (userId : Int) (o : BulkOutcome) (c : String),
      (chDataOf s0 c).messageIds.Nodup →
      (chDataOf (action_confirm_delete_all s0 userId o).1 c).messageIds.Nodup) := by
  refine ⟨TrackedInv_of_Reachable env disk s h, ?_, ?_, ?_⟩
  · intro s0 post o hm
    rw [on_channel_post_messageIds, trackMessageId_of_mem _ _ hm]
  · intro s0 post o c hn
    exact nodup_on_channel_post env s0 post o c hn
  · intro s0 userId o c hn
    exact nodup_confirm_delete_all s0 userId o c hn

theorem C29_tracked_ids_distinct_witness :
    Reachable exampleEnv noFiles (run exampleEnv noFiles threePosts) ∧
    (chDataOf (run exampleEnv noFiles threePosts) "-1001").messageIds.Nodup ∧
    (chDataOf (on_channel_post exampleEnv (run exampleEnv noFiles threePosts) (barePost 11)
      noTranslation).1 (toString (barePost 11).chat_id)).messageIds =
      (chDataOf (run exampleEnv noFiles threePosts)
        (toString (barePost 11).chat_id)).messageIds :=
  ⟨Reachable_run _ _ _ (by decide),
    (C29_tracked_ids_distinct exampleEnv noFiles _
      (Reachable_run exampleEnv noFiles threePosts (by decide))).1 "-1001",
    (C29_tracked_ids_distinct exampleEnv noFiles _
      (Reachable_run exampleEnv noFiles threePosts (by decide))).2.1
      (run exampleEnv noFiles threePosts) (barePost 11) noTranslation (by decide)⟩

/-- Post 11 arrives a second time: the tracked sequence stays `[10, 11, 12]`. -/
theorem tracked_twice_example :
    (chDataOf (on_channel_post exampleEnv (run exampleEnv noFiles threePosts) (barePost 11)
      noTranslation).1 "-1001").messageIds = [10, 11, 12] := by
  decide

end TGBot

namespace TGBot

/-! ## Failures of a conversation step -/

theorem get_clearStep (s : BotState) (u : Int) : (clearStep s u).userStates.get u = none := by
  simp [clearStep, JsMap.get_delete]

theorem get_clearConversation (s : BotState) (u : Int) :
    (clearConversation s u).userStates.get u = none ∧
    (clearConversation s u).buttonText.get u = none := by
  simp [clearConversation, JsMap.get_delete]

/-- A step that resolves a target ends with the step cleared, unless no channel
is selected. -/
theorem targetStep_failure (env : Env) (s : BotState) (u : Int) (text : String) (step : Step)
    (call : String → Int → Effect) (o : TextOutcome) (st : Step)
    (h : Effect.reply (Reply.failure st) ∈ (targetStep env s u text step call o).2) :
    (targetStep env s u text step call o).1.userStates.get u = none := by
  unfold targetStep at h ⊢
  split
  · rename_i hsel
    simp [hsel] at h
  · split
    · exact get_clearStep _ _
    · split <;> exact get_clearStep _ _

theorem simpleStep_failure (s : BotState) (u : Int) (step : Step)
    (call : String → Effect) (o : TextOutcome) (st : Step)
    (h : Effect.reply (Reply.failure st) ∈ (simpleStep s u step call o).2) :
    (simpleStep s u step call o).1.userStates.get u = none := by
  unfold simpleStep at h ⊢
  split
  · rename_i hsel
    simp [hsel] at h
  · split <;> exact get_clearStep _ _

theorem channelForwardStep_no_failure (env : Env) (s : BotState) (u : Int) (msg : TextMessage)
    (o : TextOutcome) (st : Step) :
    Effect.reply (Reply.failure st) ∉ (channelForwardStep env s u msg o).2 := by
  unfold channelForwardStep
  cases msg.forward_from_chat <;> cases o.chatByName <;>
    by_cases h1 : jsStartsWith msg.text "@" = true <;>
    by_cases h2 : signedDigits msg.text = true <;>
    cases o.getChatOk <;> cases o.botMemberStatus <;>
    simp only [h1, h2, if_true, if_false, Bool.false_eq_true, Bool.not_true, Bool.not_false] <;>
    (try split) <;> simp

/-- A refused channel leaves the state as it was. -/
theorem channelForwardStep_refusal (env : Env) (s : BotState) (u : Int) (msg : TextMessage)
    (o : TextOutcome) (r : Reply) (hr : isChannelRefusal r = true)
    (h : Effect.reply r ∈ (channelForwardStep env s u msg o).2) :
    (channelForwardStep env s u msg o).1 = s := by
  unfold channelForwardStep at h ⊢
  revert h
  cases msg.forward_from_chat <;> cases o.chatByName <;>
    by_cases h1 : jsStartsWith msg.text "@" = true <;>
    by_cases h2 : signedDigits msg.text = true <;>
    cases o.getChatOk <;> cases o.botMemberStatus <;>
    simp only [h1, h2, if_true, if_false, Bool.false_eq_true, Bool.not_true, Bool.not_false] <;>
    (try split) <;> first
      | (intro _; rfl)
      | (cases r <;> simp [isChannelRefusal] at hr <;> simp)

theorem simpleStep_refusal (s : BotState) (u : Int) (step : Step) (call : String → Effect)
    (o : TextOutcome) (r : Reply) (hr : isChannelRefusal r = true)
    (hcall : ∀ c, call c ≠ Effect.reply r) :
    Effect.reply r ∉ (simpleStep s u step call o).2 := by
  unfold simpleStep
  repeat' split
  all_goals
    cases r <;> simp [isChannelRefusal] at hr <;> simp <;> exact fun h => hcall _ h.symm

theorem targetStep_refusal (env : Env) (s : BotState) (u : Int) (text : String) (step : Step)
    (call : String → Int → Effect) (o : TextOutcome) (r : Reply)
    (hr : isChannelRefusal r = true) (hcall : ∀ c t, call c t ≠ Effect.reply r) :
    Effect.reply r ∉ (targetStep env s u text step call o).2 := by
  unfold targetStep
  repeat' split
  all_goals
    cases r <;> simp [isChannelRefusal] at hr <;> simp <;> exact fun h => hcall _ _ h.symm

theorem on_text_failure (env : Env) (s : BotState) (u : Int) (msg : TextMessage)
    (o : TextOutcome) (st : Step)
    (h : Effect.reply (Reply.failure st) ∈ (on_text env s u msg o).2) :
    (on_text env s u msg o).1.userStates.get u = none := by
  unfold on_text at h ⊢
  split
  · rename_i h1
    simp [h1] at h
  · rename_i h1
    simp only [h1, Bool.false_eq_true, if_false] at h
    split
    · rename_i h2
      simp only [h2, if_true] at h
      split at h <;> simp at h
    · rename_i h2
      simp only [h2, Bool.false_eq_true, if_false] at h
      split
      · rename_i h3
        simp [h3] at h
      · rename_i h3
        simp only [h3] at h
        exact absurd h (channelForwardStep_no_failure _ _ _ _ _ _)
      · rename_i h3
        simp only [h3] at h
        exact simpleStep_failure _ _ _ _ _ _ h
      · rename_i h3
        simp only [h3] at h
        exact simpleStep_failure _ _ _ _ _ _ h
      · rename_i h3
        simp only [h3] at h
        exact targetStep_failure _ _ _ _ _ _ _ _ h
      · rename_i h3
        simp only [h3] at h
        exact targetStep_failure _ _ _ _ _ _ _ _ h
      · rename_i h3
        simp only [h3] at h
        exact targetStep_failure _ _ _ _ _ _ _ _ h
      · rename_i h3
        simp only [h3] at h
        exact targetStep_failure _ _ _ _ _ _ _ _ h
      · rename_i h3
        simp only [h3] at h
        exact targetStep_failure _ _ _ _ _ _ _ _ h
      · rename_i h3
        simp only [h3] at h
        exact targetStep_failure _ _ _ _ _ _ _ _ h
      · rename_i h3
        simp only [h3, autoMessageTextStep] at h
        split at h <;> simp at h
      · rename_i h3
        simp only [h3, urlButtonTextStep] at h
        split at h <;> simp at h
      · rename_i h3
        simp only [h3, urlButtonUrlStep] at h
        repeat' split at h
        all_goals simp at h

theorem on_text_refusal (env : Env) (s : BotState) (u : Int) (msg : TextMessage)
    (o : TextOutcome) (r : Reply) (hr : isChannelRefusal r = true)
    (h : Effect.reply r ∈ (on_text env s u msg o).2) :
    (on_text env s u msg o).1 = s := by
  unfold on_text at h ⊢
  split
  · rfl
  · rename_i h1
    simp only [h1, Bool.false_eq_true, if_false] at h
    split
    · rename_i h2
      simp only [h2, if_true] at h
      split at h
      · exfalso
        revert h
        cases r <;> simp [isChannelRefusal] at hr <;> simp
      · rename_i h4
        simp only [h4, if_false]
    · rename_i h2
      simp only [h2, Bool.false_eq_true, if_false] at h
      split
      · rfl
      · rename_i h3
        simp only [h3] at h
        exact channelForwardStep_refusal _ _ _ _ _ r hr h
      · rename_i h3
        simp only [h3] at h
        exact absurd h (simpleStep_refusal _ _ _ _ _ r hr (fun c => by simp))
      · rename_i h3
        simp only [h3] at h
        exact absurd h (simpleStep_refusal _ _ _ _ _ r hr (fun c => by simp))
      · rename_i h3
        simp only [h3] at h
        exact absurd h (targetStep_refusal _ _ _ _ _ _ _ r hr (fun c t => by simp))
      · rename_i h3
        simp only [h3] at h
        exact absurd h (targetStep_refusal _ _ _ _ _ _ _ r hr (fun c t => by simp))
      · rename_i h3
        simp only [h3] at h
        exact absurd h (targetStep_refusal _ _ _ _ _ _ _ r hr (fun c t => by simp))
      · rename_i h3
        simp only [h3] at h
        exact absurd h (targetStep_refusal _ _ _ _ _ _ _ r hr (fun c t => by simp))
      · rename_i h3
        simp only [h3] at h
        exact absurd h (targetStep_refusal _ _ _ _ _ _ _ r hr (fun c t => by simp))
      · rename_i h3
        simp only [h3] at h
        exact absurd h (targetStep_refusal _ _ _ _ _ _ _ r hr (fun c t => by simp))
      · rename_i h3
        exfalso
        simp only [h3, autoMessageTextStep] at h
        revert h
        split <;> cases r <;> simp [isChannelRefusal] at hr <;> simp
      · rename_i h3
        exfalso
        simp only [h3, urlButtonTextStep] at h
        revert h
        split <;> cases r <;> simp [isChannelRefusal] at hr <;> simp
      · rename_i h3
        simp only [h3, urlButtonUrlStep] at h ⊢
        revert h
        repeat' split
        all_goals first
          | (intro _; rfl)
          | (cases r <;> simp [isChannelRefusal] at hr <;> simp)

/-- C26, as stated, fails.  The operator is asked for a channel and sends
`-1002`, on which `getChat` fails: the bot answers that the channel could not
be added, and the step is still pending.  The operator is asked for a message
body with no channel selected: the bot answers so, and the step is still
pending. -/
theorem C26_counterexample :
    (run exampleEnv noFiles addPending).authenticatedUsers.contains 1 = true ∧
    (run exampleEnv noFiles addPending).userStates.get 1 =
      some Step.awaiting_channel_forward ∧
    (on_text exampleEnv (run exampleEnv noFiles addPending) 1 (plainText "-1002")
      getChatFails).2 = [Effect.getChat "-1002", Effect.reply Reply.failedToAddChannel] ∧
    (on_text exampleEnv (run exampleEnv noFiles addPending) 1 (plainText "-1002")
      getChatFails).1.userStates.get 1 = some Step.awaiting_channel_forward ∧
    (run exampleEnv noFiles bodyPending).userStates.get 1 =
      some Step.awaiting_auto_message_text ∧
    (on_text exampleEnv (run exampleEnv noFiles bodyPending) 1 (plainText "Hi") okText).2 =
      [Effect.reply Reply.noChannelSelected] ∧
    (on_text exampleEnv (run exampleEnv noFiles bodyPending) 1 (plainText "Hi")
      okText).1.userStates.get 1 = some Step.awaiting_auto_message_text := by
  decide

/-- C26, amended. Whenever a text message ends in the failure reply of a step
(the target could not be resolved, or the call of the step on the platform
failed: send, delete, ban, unban, mute, unmute, promote, demote), the operator
has no pending step afterwards.  Whenever it ends in the refusal of a channel
(invalid identifier, channel not found, bot not an administrator, channel could
not be added), the state, pending step included, is as before. -/
theorem C26_failure_clears_step (env : Env) (s : BotState) (userId : Int)
    (msg : TextMessage) (o : TextOutcome) :
    (∀ st, Effect.reply (Reply.failure st) ∈ (on_text env s userId msg o).2 →
      (on_text env s userId msg o).1.userStates.get userId = none) ∧
    (∀ r, isChannelRefusal r = true → Effect.reply r ∈ (on_text env s userId msg o).2 →
      (on_text env s userId msg o).1 = s) :=
  ⟨fun st h => on_text_failure env s userId msg o st h,
    fun r hr h => on_text_refusal env s userId msg o r hr h⟩

theorem C26_failure_clears_step_witness :
    (run exampleEnv noFiles banPending).userStates.get 1 = some Step.awaiting_ban_id ∧
    Effect.reply (Reply.failure Step.awaiting_ban_id) ∈
      (on_text exampleEnv (run exampleEnv noFiles banPending) 1 (plainText "bob") okText).2 ∧
    (on_text exampleEnv (run exampleEnv noFiles banPending) 1 (plainText "bob")
      okText).1.userStates.get 1 = none :=
  ⟨by decide, by decide,
    (C26_failure_clears_step exampleEnv (run exampleEnv noFiles banPending) 1 (plainText "bob")
      okText).1 Step.awaiting_ban_id (by decide)⟩

/-- The failures of a pending ban, evaluated: an unknown handle, and a call
that the platform rejects. -/
theorem ban_failure_example :
    (on_text exampleEnv (run exampleEnv noFiles banPending) 1 (plainText "bob") okText).2 =
      [Effect.reply (Reply.failure Step.awaiting_ban_id)] ∧
    (on_text exampleEnv (run exampleEnv noFiles banPending) 1 (plainText "42") callFails).2 =
      [Effect.banChatMember "-1001" 42, Effect.reply (Reply.failure Step.awaiting_ban_id)] ∧
    (on_text exampleEnv (run exampleEnv noFiles banPending) 1 (plainText "42")
      callFails).1.userStates.get 1 = none := by
  decide

/-! ## Menus and the conversation state -/

/-- C27, as stated, fails.  With the label `Old` stored, "Message Management"
clears the step and keeps the label.  With a channel awaited, "My Channels"
(the Cancel button of that prompt) keeps the step.  With no channel selected,
"Message Management" is refused and keeps both. -/
theorem C27_counterexample :
    (run exampleEnv noFiles labelStored).buttonText.get 1 = some "Old" ∧
    (on_action exampleEnv (run exampleEnv noFiles labelStored) 1
      Action.menu_messages).userStates.get 1 = none ∧
    (on_action exampleEnv (run exampleEnv noFiles labelStored) 1
      Action.menu_messages).buttonText.get 1 = some "Old" ∧
    (on_action exampleEnv (run exampleEnv noFiles addPending) 1
      Action.menu_channels).userStates.get 1 = some Step.awaiting_channel_forward ∧
    (run exampleEnv noFiles labelNoChannel).selectedChannel.get 1 = none ∧
    (on_action exampleEnv (run exampleEnv noFiles labelNoChannel) 1
      Action.menu_messages).userStates.get 1 = some Step.awaiting_url_button_url ∧
    (on_action exampleEnv (run exampleEnv noFiles labelNoChannel) 1
      Action.menu_messages).buttonText.get 1 = some "Old" := by
  decide

theorem action_menu_clears (s : BotState) (u : Int)
    (hauth : s.authenticatedUsers.contains u = true)
    (hsel : s.selectedChannel.has u = true) :
    (action_menu s u).userStates.get u = none := by
  unfold action_menu
  simp only [hauth, hsel, Bool.not_true, Bool.false_eq_true, if_false]
  exact get_clearStep s u

/-- C27, amended. The main menu clears the pending step and the scratch label
of every operator; so does `/menu` for an authenticated operator, and the
auto-messages menu for an authenticated operator with a selected channel.  The
messages, users, admins, info and translation menus, for an authenticated
operator with a selected channel, and the help, clear the pending step. -/
theorem C27_navigation_clears (env : Env) (s : BotState) (userId : Int) :
    ((on_action env s userId Action.main_menu).userStates.get userId = none ∧
      (on_action env s userId Action.main_menu).buttonText.get userId = none) ∧
    (s.authenticatedUsers.contains userId = true →
      (command_menu s userId).userStates.get userId = none ∧
      (command_menu s userId).buttonText.get userId = none) ∧
    (s.authenticatedUsers.contains userId = true → s.selectedChannel.has userId = true →
      ((on_action env s userId Action.menu_auto_messages).userStates.get userId = none ∧
        (on_action env s userId Action.menu_auto_messages).buttonText.get userId = none) ∧
      (on_action env s userId Action.menu_messages).userStates.get userId = none ∧
      (on_action env s userId Action.menu_users).userStates.get userId = none ∧
      (on_action env s userId Action.menu_admins).userStates.get userId = none ∧
      (on_action env s userId Action.menu_info).userStates.get userId = none ∧
      (on_action env s userId Action.menu_translation).userStates.get userId = none) ∧
    (on_action env s userId Action.show_help).userStates.get userId = none := by
  refine ⟨get_clearConversation s userId, ?_, ?_, get_clearStep s userId⟩
  · intro hauth
    unfold command_menu
    simp only [hauth, Bool.not_true, Bool.false_eq_true, if_false]
    exact get_clearConversation s userId
  · intro hauth hsel
    have hget : ∃ c, s.selectedChannel.get userId = some c := by
      unfold JsMap.has at hsel
      exact Option.isSome_iff_exists.mp hsel
    obtain ⟨c, hc⟩ := hget
    refine ⟨?_, action_menu_clears s userId hauth hsel, action_menu_clears s userId hauth hsel,
      action_menu_clears s userId hauth hsel, action_menu_clears s userId hauth hsel, ?_⟩
    · simp only [on_action, action_menu_auto_messages, hauth, hc, Bool.not_true,
        Bool.false_eq_true, if_false, getChannelData_userStates, getChannelData_buttonText]
      exact get_clearConversation s userId
    · simp only [on_action, action_menu_translation, hauth, hc, Bool.not_true,
        Bool.false_eq_true, if_false, getChannelData_userStates]
      exact get_clearStep s userId

theorem C27_navigation_clears_witness :
    (run exampleEnv noFiles labelStored).authenticatedUsers.contains 1 = true ∧
    (run exampleEnv noFiles labelStored).selectedChannel.has 1 = true ∧
    (run exampleEnv noFiles labelStored).userStates.get 1 =
      some Step.awaiting_url_button_url ∧
    (run exampleEnv noFiles labelStored).buttonText.get 1 = some "Old" ∧
    ((on_action exampleEnv (run exampleEnv noFiles labelStored) 1
        Action.menu_auto_messages).userStates.get 1 = none ∧
      (on_action exampleEnv (run exampleEnv noFiles labelStored) 1
        Action.menu_auto_messages).buttonText.get 1 = none) :=
  ⟨by decide, by decide, by decide, by decide,
    ((C27_navigation_clears exampleEnv (run exampleEnv noFiles labelStored) 1).2.2.1
      (by decide) (by decide)).1⟩

end TGBot

namespace TGBot

/-! ## The task a channel holds belongs to it -/

theorem JobInv_of_SameTimers {s s1 : BotState} (h : SameTimers s s1) (hi : JobInv s) :
    JobInv s1 := by
  obtain ⟨ht, hj⟩ := h
  intro c j hjob
  rw [chDataOf_chOf, hj, ← chDataOf_chOf] at hjob
  rw [ht]
  exact hi c j hjob

theorem mem_stopJob_of_mem (tasks : List CronTask) (job : Option Nat) (t : CronTask)
    (ht : t ∈ tasks) : ∃ t1 ∈ stopJob tasks job, t1.id = t.id ∧ t1.channelId = t.channelId := by
  cases job with
  | none => exact ⟨t, ht, rfl, rfl⟩
  | some j =>
    refine ⟨if t.id = j then { t with running := false } else t, ?_, ?_, ?_⟩
    · exact List.mem_map.mpr ⟨t, ht, rfl⟩
    · split <;> rfl
    · split <;> rfl

/-- Stopping a task, and changing the handle of one channel only (to no handle,
or to a task of the registry scheduled for it), keeps the invariant. -/
theorem JobInv_stopped (s s1 : BotState) (c : String) (job : Option Nat) (hi : JobInv s)
    (ht : ∀ t ∈ stopJob s.tasks job, t ∈ s1.tasks)
    (hc : ∀ j, (chDataOf s1 c).autoMessageJob = some j →
      ∃ t ∈ s1.tasks, t.id = j ∧ t.channelId = c)
    (hj : ∀ c1, c1 ≠ c → (chDataOf s1 c1).autoMessageJob = (chDataOf s c1).autoMessageJob) :
    JobInv s1 := by
  intro c1 j hjob
  by_cases h : c1 = c
  · subst h
    exact hc j hjob
  · rw [hj c1 h] at hjob
    obtain ⟨t, h1, h2, h3⟩ := hi c1 j hjob
    obtain ⟨t1, h4, h5, h6⟩ := mem_stopJob_of_mem s.tasks job t h1
    exact ⟨t1, ht t1 h4, h5.trans h2, h6.trans h3⟩

theorem JobInv_startAutoMessages (env : Env) (s : BotState) (c : String) (hi : JobInv s) :
    JobInv (startAutoMessages env s c).1 := by
  unfold startAutoMessages
  simp only [getChannelData_snd, getChannelData_tasks]
  split
  · refine JobInv_stopped s _ c (chDataOf s c).autoMessageJob hi ?_ ?_ ?_
    · intro t ht
      simp only [saveChannelData, putChannelData, List.mem_append]
      exact Or.inl ht
    · intro j hj
      simp only [chDataOf_chOf, saveChannelData, putChannelData, chOf_set, if_true,
        Option.some.injEq] at hj
      subst hj
      simp only [saveChannelData, putChannelData, List.mem_append, List.mem_singleton]
      exact ⟨_, Or.inr rfl, by simp [chDataOf_chOf], rfl⟩
    · intro c1 h1
      simp [chDataOf_chOf, saveChannelData, putChannelData, chOf_set, Ne.symm h1]
  · refine JobInv_stopped s _ c (chDataOf s c).autoMessageJob hi ?_ ?_ ?_
    · intro t ht
      exact ht
    · intro j hj
      have h2 : (chDataOf s c).autoMessageJob = some j := by
        simpa [chDataOf_chOf] using hj
      obtain ⟨t, h3, h4, h5⟩ := hi c j h2
      obtain ⟨t1, h6, h7, h8⟩ := mem_stopJob_of_mem s.tasks (chDataOf s c).autoMessageJob t h3
      exact ⟨t1, h6, h7.trans h4, h8.trans h5⟩
    · intro c1 _
      simp [chDataOf_chOf]

theorem JobInv_stopAutoMessages (s : BotState) (c : String) (hi : JobInv s) :
    JobInv (stopAutoMessages s c) := by
  unfold stopAutoMessages
  simp only [getChannelData_snd, getChannelData_tasks]
  refine JobInv_stopped s _ c (chDataOf s c).autoMessageJob hi ?_ ?_ ?_
  · intro t ht
    exact ht
  · intro j hj
    simp [chDataOf_chOf, saveChannelData, putChannelData, chOf_set] at hj
  · intro c1 h1
    simp [chDataOf_chOf, saveChannelData, putChannelData, chOf_set, Ne.symm h1]

theorem JobInv_remove_channel (s : BotState) (u : Int) (c : String) (hi : JobInv s) :
    JobInv (action_remove_channel s u c) := by
  unfold action_remove_channel
  dsimp only
  split
  · exact hi
  · split
    · exact hi
    · split
      · exact hi
      · refine JobInv_of_SameTimers (s := match (chDataOf s c).autoMessageJob with
          | some j =>
            putChannelData { (getChannelData s c).1 with
                tasks := stopJob (getChannelData s c).1.tasks (some j) } c
              { chDataOf s c with autoMessageJob := none }
          | none => (getChannelData s c).1) ?_ ?_
        · simp only [getChannelData_snd]
          exact ⟨rfl, fun _ => rfl⟩
        · cases h : (chDataOf s c).autoMessageJob with
          | none => exact JobInv_of_SameTimers (SameTimers_getChannelData s c) hi
          | some j =>
            refine JobInv_stopped s _ c (some j) hi ?_ ?_ ?_
            · intro t ht
              simpa [putChannelData] using ht
            · intro j1 hj
              simp [chDataOf_chOf, putChannelData, chOf_set] at hj
            · intro c1 hc
              simp [chDataOf_chOf, putChannelData, chOf_set, Ne.symm hc]

theorem JobInv_ite_start (env : Env) (s : BotState) (c : String) (b : Bool)
    (hi : JobInv s) :
    JobInv (if b = true then (startAutoMessages env s c).1 else s) := by
  split
  · exact JobInv_startAutoMessages env s c hi
  · exact hi

theorem JobInv_action_interval (env : Env) (s : BotState) (u : Int) (e : String)
    (hi : JobInv s) : JobInv (action_interval env s u e) := by
  unfold action_interval
  dsimp only
  split
  · exact hi
  · rename_i c _
    refine JobInv_ite_start env _ c _ ?_
    refine JobInv_of_SameTimers (SameTimers_saveChannelData _) ?_
    refine JobInv_of_SameTimers (SameTimers_putChannelData _ c _ rfl) ?_
    split
    · exact JobInv_stopAutoMessages s c hi
    · exact JobInv_of_SameTimers (SameTimers_getChannelData s c) hi

theorem JobInv_action_start (env : Env) (s : BotState) (u : Int) (hi : JobInv s) :
    JobInv (action_start_auto_messages env s u).1 := by
  unfold action_start_auto_messages
  dsimp only
  split
  · exact hi
  · split
    · exact JobInv_of_SameTimers (SameTimers_getChannelData s _) hi
    · exact JobInv_startAutoMessages env _ _
        (JobInv_of_SameTimers (SameTimers_getChannelData s _) hi)

theorem JobInv_action_stop (s : BotState) (u : Int) (hi : JobInv s) :
    JobInv (action_stop_auto_messages s u) := by
  unfold action_stop_auto_messages
  split
  · exact hi
  · exact JobInv_stopAutoMessages s _ hi

theorem JobInv_on_action (env : Env) (s : BotState) (u : Int) (a : Action)
    (hi : JobInv s) : JobInv (on_action env s u a) := by
  cases a
  case remove_channel c => exact JobInv_remove_channel s u c hi
  case interval e => exact JobInv_action_interval env s u e hi
  case start_auto_messages => exact JobInv_action_start env s u hi
  case stop_auto_messages => exact JobInv_action_stop s u hi
  all_goals
    refine JobInv_of_SameTimers ?_ hi
    simp only [on_action, action_select_channel, action_menu, action_menu_auto_messages,
      action_menu_translation, action_clear_url_buttons, action_toggle_delete_previous,
      action_toggle_translation, action_begin, action_read_channel]
    repeat' split
    all_goals first
      | exact SameTimers.refl _
      | exact SameTimers_getChannelData _ _
      | exact SameTimers_update_config _ _ _ _

theorem JobInv_loadEntries (env : Env) (entries : List (String × PersistedChannel)) :
    ∀ s : BotState, JobInv s → JobInv (loadEntries env s entries) := by
  induction entries with
  | nil => intro s hi; exact hi
  | cons e rest ih =>
    intro s hi
    obtain ⟨c, p⟩ := e
    unfold loadEntries
    dsimp only
    have h2 := JobInv_of_SameTimers
      ((SameTimers_getChannelData s c).trans (SameTimers_putChannelData _ c
        { chDataOf s c with
          autoMessageConfig := p.autoMessageConfig.getD (chDataOf s c).autoMessageConfig
          translationEnabled := p.translationEnabled.getD false } (by simp [chDataOf_chOf]))) hi
    simp only [getChannelData_snd]
    split
    · split
      · exact ih _ (JobInv_startAutoMessages env _ c h2)
      · exact JobInv_startAutoMessages env _ c h2
    · exact ih _ h2

theorem JobInv_boot (env : Env) (disk : Disk) : JobInv (boot env disk) := by
  have h0 : (loadUserChannels (loadAuthenticatedUsers (emptyState disk))).channelData = [] := by
    unfold loadUserChannels loadAuthenticatedUsers
    repeat' split
    all_goals rfl
  have h1 : JobInv (loadUserChannels (loadAuthenticatedUsers (emptyState disk))) := by
    intro c j hj
    rw [chDataOf_eq, h0] at hj
    cases hj
  unfold boot loadChannelData
  split
  · exact h1
  · exact JobInv_loadEntries env _ _ h1

theorem JobInv_step (env : Env) (s : BotState) (e : Event) (hi : JobInv s) :
    JobInv (step env s e) := by
  cases e with
  | command_start u => exact JobInv_of_SameTimers (SameTimers_command_start s u) hi
  | command_menu u => exact JobInv_of_SameTimers (SameTimers_command_menu s u) hi
  | action u a => exact JobInv_on_action env s u a hi
  | confirm_delete_all u o =>
    exact JobInv_of_SameTimers (SameTimers_confirm_delete_all s u o) hi
  | channel_post post o =>
    exact JobInv_of_SameTimers (SameTimers_on_channel_post env s post o) hi
  | text u msg o => exact JobInv_of_SameTimers (SameTimers_on_text env s u msg o) hi
  | tick task o =>
    simp only [step]
    repeat' split
    all_goals first
      | exact hi
      | exact JobInv_of_SameTimers (SameTimers_autoMessageTick s _ o) hi
  | restart => exact JobInv_boot env s.disk

theorem JobInv_of_Reachable (env : Env) (disk : Disk) (s : BotState)
    (h : Reachable env disk s) : JobInv s := by
  induction h with
  | start => exact JobInv_boot env disk
  | next s e _ _ ih => exact JobInv_step env s e ih

end TGBot

namespace TGBot

/-! ## Disarm -/

theorem stopAutoMessages_tasks (s : BotState) (c : String) :
    (stopAutoMessages s c).tasks = stopJob s.tasks (chDataOf s c).autoMessageJob := by
  unfold stopAutoMessages
  simp [saveChannelData, putChannelData]

theorem chDataOf_stopAutoMessages (s : BotState) (c c1 : String) :
    chDataOf (stopAutoMessages s c) c1 =
      if c = c1 then
        { chDataOf s c with
          autoMessageJob := none
          autoMessageConfig := { (chDataOf s c).autoMessageConfig with isActive := false } }
      else chDataOf s c1 := by
  unfold stopAutoMessages
  simp only [chDataOf_chOf, saveChannelData, putChannelData, chOf_set, chOf_getChannelData,
    getChannelData_snd]

theorem filter_stopTask (tasks : List CronTask) (j : Nat) (c1 : String)
    (h : ∀ t ∈ tasks, t.id = j → t.channelId ≠ c1) :
    (stopTask tasks j).filter (fun t => t.running && t.channelId == c1) =
      tasks.filter (fun t => t.running && t.channelId == c1) := by
  induction tasks with
  | nil => rfl
  | cons t rest ih =>
    have hrest := ih (fun t1 h1 => h t1 (List.mem_cons_of_mem _ h1))
    unfold stopTask at hrest ⊢
    rw [List.map_cons, List.filter_cons, List.filter_cons, hrest]
    by_cases hj : t.id = j
    · have hc : (t.channelId == c1) = false := by
        simpa using h t (List.mem_cons_self _ _) hj
      simp [hj, hc]
    · simp [hj]

/-- In the registry no two tasks have the same handle. -/
theorem task_eq_of_id_eq (s : BotState) (hi : TimerInv s) (t t1 : CronTask)
    (ht : t ∈ s.tasks) (ht1 : t1 ∈ s.tasks) (h : t.id = t1.id) : t = t1 := by
  have hn : (s.tasks.map (fun t => t.id)).Nodup := by
    rw [hi.1]
    exact List.nodup_range _
  exact List.inj_on_of_nodup_map hn ht ht1 h

theorem liveTimers_stop_self (s : BotState) (hi : TimerInv s) (c : String) :
    liveTimers (stopAutoMessages s c) c = [] := by
  unfold liveTimers
  rw [stopAutoMessages_tasks, List.filter_eq_nil_iff]
  intro t ht hp
  simp only [Bool.and_eq_true, beq_iff_eq] at hp
  obtain ⟨h1, h2⟩ := stopJob_running _ _ t ht hp.1
  have h3 := hi.2 t h1 hp.1
  rw [hp.2] at h3
  exact h2 h3

theorem liveTimers_stop_other (s : BotState) (hi : TimerInv s) (hj : JobInv s)
    (c c1 : String) (hc : c1 ≠ c) :
    liveTimers (stopAutoMessages s c) c1 = liveTimers s c1 := by
  unfold liveTimers
  rw [stopAutoMessages_tasks]
  cases hjob : (chDataOf s c).autoMessageJob with
  | none => rfl
  | some j =>
    refine filter_stopTask s.tasks j c1 ?_
    intro t ht hid hch
    obtain ⟨t1, h1, h2, h3⟩ := hj c j hjob
    have := task_eq_of_id_eq s hi t t1 ht h1 (hid.trans h2.symm)
    subst this
    exact hc (hch.symm.trans h3)

theorem JsMap.mem_set_self {K V : Type} [DecidableEq K] (m : JsMap K V) (k : K) (v : V) :
    (k, v) ∈ JsMap.set m k v := by
  induction m with
  | nil => simp [JsMap.set]
  | cons p rest ih =>
    obtain ⟨k1, v1⟩ := p
    unfold JsMap.set
    split
    · exact List.mem_cons_self _ _
    · exact List.mem_cons_of_mem _ ih

/-- What `stopAutoMessages` writes for the channel it disarms. -/
theorem stopAutoMessages_persisted (s : BotState) (c : String) :
    ∃ entries, (stopAutoMessages s c).disk.channelDataFile = some entries ∧
      (c, PersistedChannel.mk
        (some { (chDataOf s c).autoMessageConfig with isActive := false })
        (some (chDataOf s c).translationEnabled)) ∈ entries := by
  refine ⟨_, rfl, ?_⟩
  rw [(ownPropertyOrder_perm _).mem_iff]
  refine List.mem_map.mpr ⟨(c, _), JsMap.mem_set_self _ c _, ?_⟩
  simp [persistChannel]

/-- C22. In every state the process can reach, `stopAutoMessages` leaves the
channel with no live timer and with the active flag false, and writes the
configuration of every channel to the channel-data file.  It changes nothing
else: the channel object is as before apart from the task handle and the
active flag (body, URL buttons, expression, delete-previous flag, translation
flag, tracked ids and last-delivered id are kept), every other channel keeps
its object and its live timers, and the operators' maps and the other two
files are as before. -/
theorem C22_disarm_frame (env : Env) (disk : Disk) (s : BotState)
    (h : Reachable env disk s) (c : String) :
    liveTimers (stopAutoMessages s c) c = [] ∧
    chDataOf (stopAutoMessages s c) c =
      { chDataOf s c with
        autoMessageJob := none
        autoMessageConfig := { (chDataOf s c).autoMessageConfig with isActive := false } } ∧
    (stopAutoMessages s c).disk.channelDataFile =
      some (ownPropertyOrder ((stopAutoMessages s c).channelData.map persistChannel)) ∧
    (∃ entries, (stopAutoMessages s c).disk.channelDataFile = some entries ∧
      (c, PersistedChannel.mk
        (some { (chDataOf s c).autoMessageConfig with isActive := false })
        (some (chDataOf s c).translationEnabled)) ∈ entries) ∧
    (∀ c1, c1 ≠ c →
      chDataOf (stopAutoMessages s c) c1 = chDataOf s c1 ∧
      liveTimers (stopAutoMessages s c) c1 = liveTimers s c1) ∧
    (stopAutoMessages s c).authenticatedUsers = s.authenticatedUsers ∧
    (stopAutoMessages s c).userChannels = s.userChannels ∧
    (stopAutoMessages s c).selectedChannel = s.selectedChannel ∧
    (stopAutoMessages s c).userStates = s.userStates ∧
    (stopAutoMessages s c).buttonText = s.buttonText ∧
    (stopAutoMessages s c).disk.authFile = s.disk.authFile ∧
    (stopAutoMessages s c).disk.channelsFile = s.disk.channelsFile := by
  have hi := TimerInv_of_Reachable env disk s h
  have hj := JobInv_of_Reachable env disk s h
  refine ⟨liveTimers_stop_self s hi c, ?_, rfl, stopAutoMessages_persisted s c, ?_,
    ?_, ?_, ?_, ?_, ?_, ?_, ?_⟩
  · rw [chDataOf_stopAutoMessages, if_pos rfl]
  · intro c1 hc
    refine ⟨?_, liveTimers_stop_other s hi hj c c1 hc⟩
    rw [chDataOf_stopAutoMessages, if_neg (Ne.symm hc)]
  all_goals simp [stopAutoMessages, saveChannelData, putChannelData]

theorem C22_disarm_frame_witness :
    Reachable exampleEnv noFiles (run exampleEnv noFiles armedTwice) ∧
    (liveTimers (run exampleEnv noFiles armedTwice) "-1001").length = 1 ∧
    liveTimers (stopAutoMessages (run exampleEnv noFiles armedTwice) "-1001") "-1001" = [] :=
  ⟨Reachable_run _ _ _ (by decide), by decide,
    (C22_disarm_frame exampleEnv noFiles _
      (Reachable_run exampleEnv noFiles armedTwice (by decide)) "-1001").1⟩

/-- Disarming the channel of `armedTwice`, evaluated: the task is stopped, the
flag is false, the body is kept, and the file holds the configuration. -/
theorem disarm_example :
    (stopAutoMessages (run exampleEnv noFiles armedTwice) "-1001").tasks =
      [{ id := 0, channelId := "-1001", expression := "*/1 * * * *", running := false },
        { id := 1, channelId := "-1001", expression := "*/1 * * * *", running := false }] ∧
    (chDataOf (stopAutoMessages (run exampleEnv noFiles armedTwice) "-1001")
      "-1001").autoMessageConfig =
      { messageText := "Hi", urlButtons := [], isActive := false, interval := "*/1 * * * *",
        deletePrevious := true } ∧
    (stopAutoMessages (run exampleEnv noFiles armedTwice) "-1001").disk.channelDataFile =
      some [("-1001", PersistedChannel.mk
        (some { messageText := "Hi", urlButtons := [], isActive := false,
                interval := "*/1 * * * *", deletePrevious := true }) (some false))] := by
  decide

end TGBot

namespace TGBot

/-! ## Change of the recurrence expression -/

/-- The handler on a channel whose active flag is false: the expression is
stored and saved. -/
theorem action_interval_inactive (env : Env) (s : BotState) (u : Int) (c e : String)
    (hsel : truthyOpt (s.selectedChannel.get u) = some c)
    (hoff : (chDataOf s c).autoMessageConfig.isActive = false) :
    action_interval env s u e =
      saveChannelData (putChannelData (getChannelData s c).1 c
        { chDataOf s c with
          autoMessageConfig := { (chDataOf s c).autoMessageConfig with interval := e } }) := by
  unfold action_interval
  simp only [hsel, hoff, Bool.false_eq_true, if_false, Bool.false_and, chDataOf_getChannelData]

/-- The handler on a channel whose active flag is true and whose body is not
empty: disarm, store the expression, arm. -/
theorem action_interval_active (env : Env) (s : BotState) (u : Int) (c e : String)
    (hsel : truthyOpt (s.selectedChannel.get u) = some c)
    (hon : (chDataOf s c).autoMessageConfig.isActive = true)
    (hbody : (chDataOf s c).autoMessageConfig.messageText ≠ "") :
    action_interval env s u e =
      (startAutoMessages env (saveChannelData (putChannelData (stopAutoMessages s c) c
        { chDataOf (stopAutoMessages s c) c with
          autoMessageConfig :=
            { (chDataOf (stopAutoMessages s c) c).autoMessageConfig with interval := e } }))
        c).1 := by
  have hb : truthy (chDataOf s c).autoMessageConfig.messageText = true := by
    simpa [truthy] using hbody
  unfold action_interval
  simp only [hsel, hon, if_true, Bool.true_and]
  rw [if_pos]
  simp only [chDataOf_chOf, saveChannelData, putChannelData, chOf_set, if_true]
  rw [← chDataOf_chOf, chDataOf_stopAutoMessages, if_pos rfl]
  exact hb

theorem startAutoMessages_tasks_valid (env : Env) (s : BotState) (c : String)
    (h : env.cronValidate (chDataOf s c).autoMessageConfig.interval = true) :
    (startAutoMessages env s c).1.tasks =
      stopJob s.tasks (chDataOf s c).autoMessageJob ++
        [{ id := s.tasks.length
           channelId := c
           expression := (chDataOf s c).autoMessageConfig.interval
           running := true }] := by
  unfold startAutoMessages
  simp [h, saveChannelData, putChannelData]

theorem chDataOf_startAutoMessages_valid (env : Env) (s : BotState) (c c1 : String)
    (h : env.cronValidate (chDataOf s c).autoMessageConfig.interval = true) :
    chDataOf (startAutoMessages env s c).1 c1 =
      if c = c1 then
        { chDataOf s c with
          autoMessageJob := some s.tasks.length
          autoMessageConfig := { (chDataOf s c).autoMessageConfig with isActive := true } }
      else chDataOf s c1 := by
  unfold startAutoMessages
  simp only [getChannelData_snd, h, if_true]
  simp only [chDataOf_chOf, saveChannelData, putChannelData,
    chOf_set, chOf_getChannelData, getChannelData_tasks, stopJob_length]

/-- The state between disarm and arm: the channel holds no task, its flag is
false and its expression is the new one. -/
theorem chDataOf_interval_stored (s : BotState) (c e : String) :
    chDataOf (saveChannelData (putChannelData (stopAutoMessages s c) c
        { chDataOf (stopAutoMessages s c) c with
          autoMessageConfig :=
            { (chDataOf (stopAutoMessages s c) c).autoMessageConfig with interval := e } })) c =
      { chDataOf s c with
        autoMessageJob := none
        autoMessageConfig :=
          { (chDataOf s c).autoMessageConfig with isActive := false, interval := e } } := by
  have h1 := chDataOf_stopAutoMessages s c c
  rw [if_pos rfl] at h1
  rw [h1]
  simp only [chDataOf_chOf, saveChannelData, putChannelData, chOf_set, if_true]

theorem interval_stored_tasks (s : BotState) (c e : String) :
    (saveChannelData (putChannelData (stopAutoMessages s c) c
        { chDataOf (stopAutoMessages s c) c with
          autoMessageConfig :=
            { (chDataOf (stopAutoMessages s c) c).autoMessageConfig with interval := e } })).tasks =
      stopJob s.tasks (chDataOf s c).autoMessageJob := by
  simp only [saveChannelData, putChannelData]
  exact stopAutoMessages_tasks s c

/-- The armed case of the recurrence change, on a state that satisfies the
timer invariant. -/
theorem action_interval_rearms (env : Env) (s : BotState) (hi : TimerInv s) (u : Int)
    (c e : String)
    (hsel : truthyOpt (s.selectedChannel.get u) = some c)
    (hon : (chDataOf s c).autoMessageConfig.isActive = true)
    (hbody : (chDataOf s c).autoMessageConfig.messageText ≠ "")
    (hvalid : env.cronValidate e = true) :
    (action_interval env s u e).tasks =
      stopJob s.tasks (chDataOf s c).autoMessageJob ++
        [{ id := s.tasks.length, channelId := c, expression := e, running := true }] ∧
    liveTimers (action_interval env s u e) c =
      [{ id := s.tasks.length, channelId := c, expression := e, running := true }] ∧
    chDataOf (action_interval env s u e) c =
      { chDataOf s c with
        autoMessageJob := some s.tasks.length
        autoMessageConfig :=
          { (chDataOf s c).autoMessageConfig with isActive := true, interval := e } } := by
  have hd := chDataOf_interval_stored s c e
  have ht := interval_stored_tasks s c e
  have hv : env.cronValidate (chDataOf (saveChannelData (putChannelData (stopAutoMessages s c) c
      { chDataOf (stopAutoMessages s c) c with
        autoMessageConfig :=
          { (chDataOf (stopAutoMessages s c) c).autoMessageConfig with interval := e } }))
      c).autoMessageConfig.interval = true := by
    rw [hd]
    exact hvalid
  have htasks : (action_interval env s u e).tasks =
      stopJob s.tasks (chDataOf s c).autoMessageJob ++
        [{ id := s.tasks.length, channelId := c, expression := e, running := true }] := by
    rw [action_interval_active env s u c e hsel hon hbody,
      startAutoMessages_tasks_valid env _ c hv, hd, ht]
    simp only [stopJob_length]
    rfl
  refine ⟨htasks, ?_, ?_⟩
  · have h0 := liveTimers_stop_self s hi c
    unfold liveTimers at h0 ⊢
    rw [stopAutoMessages_tasks] at h0
    rw [htasks, List.filter_append, h0]
    simp
  · rw [action_interval_active env s u c e hsel hon hbody,
      chDataOf_startAutoMessages_valid env _ c c hv, if_pos rfl, hd, ht]
    simp only [stopJob_length]

theorem old_timer_stopped_by_interval (env : Env) (s : BotState) (hi : TimerInv s) (u : Int)
    (c e : String)
    (htasks : (action_interval env s u e).tasks =
      stopJob s.tasks (chDataOf s c).autoMessageJob ++
        [{ id := s.tasks.length, channelId := c, expression := e, running := true }])
    (t0 : CronTask) (ht0 : t0 ∈ liveTimers s c) (t1 : CronTask)
    (ht1 : t1 ∈ (action_interval env s u e).tasks) (hid : t1.id = t0.id) :
    t1.running = false := by
  unfold liveTimers at ht0
  simp only [List.mem_filter, Bool.and_eq_true, beq_iff_eq] at ht0
  obtain ⟨h1, h2, h3⟩ := ht0
  have hjob : (chDataOf s c).autoMessageJob = some t0.id := by
    rw [← h3]
    exact hi.2 t0 h1 h2
  have hlt : t0.id < s.tasks.length := by
    have : t0.id ∈ s.tasks.map (fun t => t.id) := List.mem_map.mpr ⟨t0, h1, rfl⟩
    rw [hi.1] at this
    exact List.mem_range.mp this
  rw [htasks, List.mem_append, List.mem_singleton] at ht1
  rcases ht1 with h4 | h4
  · cases hr : t1.running with
    | false => rfl
    | true =>
      obtain ⟨_, h6⟩ := stopJob_running _ _ t1 h4 hr
      rw [hid] at h6
      exact absurd hjob h6
  · subst h4
    simp only at hid
    omega

/-- C23. In every state the process can reach, for an operator with a selected
channel: when the active flag of the channel is true, its body is not empty and
`node-cron` accepts the new expression, after the recurrence change the channel
has exactly one live timer, scheduled with the new expression and held by the
channel object, the active flag is true, the new expression is stored, and every
timer that was live for the channel is stopped; when the active flag is false,
the change stores the new expression and leaves the task registry and every
other channel as they were. -/
theorem C23_recurrence_change (env : Env) (disk : Disk) (s : BotState)
    (h : Reachable env disk s) (userId : Int) (c e : String)
    (hsel : truthyOpt (s.selectedChannel.get userId) = some c) :
    ((chDataOf s c).autoMessageConfig.isActive = true →
      (chDataOf s c).autoMessageConfig.messageText ≠ "" →
      env.cronValidate e = true →
      liveTimers (action_interval env s userId e) c =
        [{ id := s.tasks.length, channelId := c, expression := e, running := true }] ∧
      chDataOf (action_interval env s userId e) c =
        { chDataOf s c with
          autoMessageJob := some s.tasks.length
          autoMessageConfig :=
            { (chDataOf s c).autoMessageConfig with isActive := true, interval := e } } ∧
      ∀ t0 ∈ liveTimers s c, ∀ t1 ∈ (action_interval env s userId e).tasks,
        t1.id = t0.id → t1.running = false) ∧
    ((chDataOf s c).autoMessageConfig.isActive = false →
      (action_interval env s userId e).tasks = s.tasks ∧
      chDataOf (action_interval env s userId e) c =
        { chDataOf s c with
          autoMessageConfig := { (chDataOf s c).autoMessageConfig with interval := e } } ∧
      ∀ c1, c1 ≠ c → chDataOf (action_interval env s userId e) c1 = chDataOf s c1) := by
  have hi := TimerInv_of_Reachable env disk s h
  constructor
  · intro hon hbody hvalid
    obtain ⟨h1, h2, h3⟩ := action_interval_rearms env s hi userId c e hsel hon hbody hvalid
    exact ⟨h2, h3, fun t0 ht0 t1 ht1 hid =>
      old_timer_stopped_by_interval env s hi userId c e h1 t0 ht0 t1 ht1 hid⟩
  · intro hoff
    rw [action_interval_inactive env s userId c e hsel hoff]
    refine ⟨by simp [saveChannelData, putChannelData], ?_, ?_⟩
    · simp only [chDataOf_chOf, saveChannelData, putChannelData, chOf_set, if_true]
    · intro c1 hc
      simp only [chDataOf_chOf, saveChannelData, putChannelData, chOf_set, Ne.symm hc, if_false,
        chOf_getChannelData]

theorem C23_recurrence_change_witness :
    Reachable exampleEnv noFiles (run exampleEnv noFiles (armedTwice.take 6)) ∧
    truthyOpt ((run exampleEnv noFiles (armedTwice.take 6)).selectedChannel.get 1) =
      some "-1001" ∧
    liveTimers (action_interval exampleEnv (run exampleEnv noFiles (armedTwice.take 6)) 1
      "*/5 * * * *") "-1001" =
      [{ id := (run exampleEnv noFiles (armedTwice.take 6)).tasks.length, channelId := "-1001",
         expression := "*/5 * * * *", running := true }] :=
  ⟨Reachable_run _ _ _ (by decide), by decide,
    ((C23_recurrence_change exampleEnv noFiles _
      (Reachable_run exampleEnv noFiles (armedTwice.take 6) (by decide)) 1 "-1001"
      "*/5 * * * *" (by decide)).1 (by decide) (by decide) rfl).1⟩

/-- The recurrence change on the armed channel of `armedTwice`, evaluated: the
old task is stopped and a new one runs with the new expression. -/
theorem recurrence_change_example :
    (action_interval exampleEnv (run exampleEnv noFiles (armedTwice.take 6)) 1
      "*/5 * * * *").tasks =
      [{ id := 0, channelId := "-1001", expression := "*/1 * * * *", running := false },
        { id := 1, channelId := "-1001", expression := "*/5 * * * *", running := true }] ∧
    (chDataOf (action_interval exampleEnv (run exampleEnv noFiles (armedTwice.take 6)) 1
      "*/5 * * * *") "-1001").autoMessageConfig.isActive = true := by
  decide

/-- With a `node-cron` that rejects the new expression, `cron.schedule` throws
after the disarm: the channel is left with the expression stored, the flag
false and no live timer. -/
theorem rejected_expression_example :
    (action_interval strictEnv (run strictEnv noFiles (armedTwice.take 6)) 1 "bogus").tasks =
      [{ id := 0, channelId := "-1001", expression := "*/1 * * * *", running := false }] ∧
    (chDataOf (action_interval strictEnv (run strictEnv noFiles (armedTwice.take 6)) 1 "bogus")
      "-1001").autoMessageConfig =
      { messageText := "Hi", urlButtons := [], isActive := false, interval := "bogus",
        deletePrevious := true } := by
  decide

end TGBot

namespace TGBot

/-! ## The active flag and the live timer -/

/-- C30. The code at the failing input: operator 1 arms channel `-1001` and then
removes it.  Before the removal the flag is true and one timer is live.  The
removal stops the task and drops the handle, but leaves the flag true, in memory
and in the file: the channel is active without a live timer.  Disarming instead
sets the flag to false.  After a restart the removed channel is armed again. -/
theorem C30_removed_channel_stays_active :
    (chDataOf (run exampleEnv noFiles (armedThenRemoved.take 6))
      "-1001").autoMessageConfig.isActive = true ∧
    (liveTimers (run exampleEnv noFiles (armedThenRemoved.take 6)) "-1001").length = 1 ∧
    (run exampleEnv noFiles armedThenRemoved).tasks =
      [{ id := 0, channelId := "-1001", expression := "*/1 * * * *", running := false }] ∧
    (chDataOf (run exampleEnv noFiles armedThenRemoved) "-1001").autoMessageJob = none ∧
    (chDataOf (run exampleEnv noFiles armedThenRemoved)
      "-1001").autoMessageConfig.isActive = true ∧
    liveTimers (run exampleEnv noFiles armedThenRemoved) "-1001" = [] ∧
    (chDataOf (stopAutoMessages (run exampleEnv noFiles (armedThenRemoved.take 6)) "-1001")
      "-1001").autoMessageConfig.isActive = false ∧
    (liveTimers (step exampleEnv (run exampleEnv noFiles armedThenRemoved) Event.restart)
      "-1001").length = 1 := by
  decide

end TGBot
